import Mathlib

/-! # budget-ai: the financial aggregation and insight engine

A shallow embedding of the computations of the React components
(`Insights.jsx`, `Debts.jsx`, `SavingsGoals.jsx`, `Investments.jsx`,
`RecurringExpenses.jsx`, `ExpenseTracker.jsx`, `Dashboard.jsx`,
`BudgetManager.jsx`) and the properties the specification states about them.

Numbers.  The data model of the specification takes monetary values as exact
decimal amounts, so in the first part a finite JavaScript number is read as a
rational.  A division can leave the finite numbers (`x / 0`), so the values of
arithmetic expressions live in `JSNum`: the rationals together with `Infinity`,
`-Infinity` and `NaN`, with the IEEE rules JavaScript applies to them.  Zero is
unsigned (`+0`): every divisor met in the code that can be zero is a sum
started at `0`, a length, or a value read from JSON.

The engine itself computes with binary64 numbers.  Where a property depends on
the rounding of an operation (a value compared with a threshold, an equality
between two ways of computing a number), the code is read as it runs: the
namespace `F64` holds the rounding to the nearest double (ties to even, the
subnormal numbers included) and the same functions over doubles, and those
properties are stated there.  Overflow to an infinity, beyond `1.8 * 10^308`,
is left out of the rounding: no amount of the application comes near it.
-/

namespace BudgetAI

/-! ## JavaScript numbers -/

/-- Values of JavaScript number expressions: a finite (exact) number, the two
infinities, or NaN. -/
inductive JSNum where
  | fin (q : ℚ)
  | posInf
  | negInf
  | nan
  deriving DecidableEq

namespace JSNum

/-- Unary minus. -/
def neg : JSNum → JSNum
  | fin q => fin (-q)
  | posInf => negInf
  | negInf => posInf
  | nan => nan

/-- The operator `+` on numbers. -/
def add : JSNum → JSNum → JSNum
  | fin a, fin b => fin (a + b)
  | nan, _ => nan
  | _, nan => nan
  | posInf, negInf => nan
  | negInf, posInf => nan
  | posInf, _ => posInf
  | _, posInf => posInf
  | negInf, _ => negInf
  | _, negInf => negInf

/-- The operator `-` on numbers. -/
def sub (a b : JSNum) : JSNum := add a (neg b)

/-- An infinity with the sign of the rational `s` (NaN for `s = 0`). -/
def infOfSign (s : ℚ) : JSNum :=
  if 0 < s then posInf else if s < 0 then negInf else nan

/-- The operator `*` on numbers. -/
def mul : JSNum → JSNum → JSNum
  | fin a, fin b => fin (a * b)
  | nan, _ => nan
  | _, nan => nan
  | posInf, fin b => infOfSign b
  | negInf, fin b => infOfSign (-b)
  | fin a, posInf => infOfSign a
  | fin a, negInf => infOfSign (-a)
  | posInf, posInf => posInf
  | negInf, negInf => posInf
  | posInf, negInf => negInf
  | negInf, posInf => negInf

/-- The operator `/` on numbers: a finite number over zero is an infinity of
the sign of the dividend, and `0 / 0` is NaN. -/
def div : JSNum → JSNum → JSNum
  | fin a, fin b => if b = 0 then infOfSign a else fin (a / b)
  | nan, _ => nan
  | _, nan => nan
  | fin _, posInf => fin 0
  | fin _, negInf => fin 0
  | posInf, fin b => if 0 ≤ b then posInf else negInf
  | negInf, fin b => if 0 ≤ b then negInf else posInf
  | posInf, posInf => nan
  | posInf, negInf => nan
  | negInf, posInf => nan
  | negInf, negInf => nan

instance : Neg JSNum := ⟨neg⟩
instance : Add JSNum := ⟨add⟩
instance : Sub JSNum := ⟨sub⟩
instance : Mul JSNum := ⟨mul⟩
instance : Div JSNum := ⟨div⟩

/-- The operator `<`: false as soon as one side is NaN. -/
def lt : JSNum → JSNum → Bool
  | fin a, fin b => decide (a < b)
  | nan, _ => false
  | _, nan => false
  | _, negInf => false
  | negInf, _ => true
  | posInf, _ => false
  | fin _, posInf => true

/-- The operator `>`. -/
def gt (a b : JSNum) : Bool := lt b a

/-- The operator `<=`: false as soon as one side is NaN. -/
def le : JSNum → JSNum → Bool
  | fin a, fin b => decide (a ≤ b)
  | nan, _ => false
  | _, nan => false
  | negInf, _ => true
  | _, posInf => true
  | _, negInf => false
  | posInf, fin _ => false

/-- The operator `>=`. -/
def ge (a b : JSNum) : Bool := le b a

/-- The global function `isNaN` on a number. -/
def isNaN : JSNum → Bool
  | nan => true
  | _ => false

/-- Truthiness of a number in a condition (`!x` is its negation): `0` and NaN
are falsy. -/
def truthy : JSNum → Bool
  | fin q => decide (q ≠ 0)
  | nan => false
  | _ => true

/-- The function `Math.max` on two numbers. -/
def max (a b : JSNum) : JSNum :=
  if a.isNaN || b.isNaN then nan else if lt a b then b else a

/-- The function `Math.min` on two numbers. -/
def min (a b : JSNum) : JSNum :=
  if a.isNaN || b.isNaN then nan else if lt b a then b else a

/-- The function `Math.ceil`. -/
def ceil : JSNum → JSNum
  | fin q => fin ⌈q⌉
  | x => x

/-- The operator `||` between two numbers: the left one when it is truthy,
otherwise the right one. -/
def orElse (a b : JSNum) : JSNum :=
  if a.truthy then a else b

/-- Decimal digits of `n`, padded with leading zeros to at least `f + 1`
digits, with a point before the last `f` of them when `f > 0`. -/
def fixedDigits (n f : Nat) : List Char :=
  let m := Nat.toDigits 10 n
  let m := List.replicate (f + 1 - m.length) '0' ++ m
  if f = 0 then m else m.take (m.length - f) ++ '.' :: m.drop (m.length - f)

/-- The method `toFixed(f)` of `Number.prototype`: the sign, then the integer
nearest to `|x| * 10^f` (the larger one on a tie) written with `f` digits after
the point.  Beyond `10^21` JavaScript switches to exponent notation, whose
digits depend on the binary representation; the model keeps positional digits
there. -/
def toFixed (x : JSNum) (f : Nat) : String :=
  match x with
  | nan => "NaN"
  | posInf => "Infinity"
  | negInf => "-Infinity"
  | fin q =>
    let s := if q < 0 then "-" else ""
    let n := ⌊|q| * 10 ^ f + 1 / 2⌋.toNat
    s ++ String.mk (fixedDigits n f)

end JSNum

open JSNum (fin posInf negInf nan toFixed)

/-- The function `parseFloat` applied to a number: the number is written out
and read back, which returns it. -/
def parseFloat (x : JSNum) : JSNum := x

/-- The method `slice(start, end)` of `Array.prototype`; `none` is an omitted
`end`.  A negative index counts from the end of the array. -/
def slice {α : Type} (xs : List α) (start : Int) (stop : Option Int) : List α :=
  let len : Int := xs.length
  let k := if start < 0 then max (len + start) 0 else min start len
  let final :=
    match stop with
    | none => len
    | some e => if e < 0 then max (len + e) 0 else min e len
  (xs.drop k.toNat).take (max (final - k) 0).toNat

/-- What a call reads from the `Date` object: `now` is the time value of
`new Date()` in milliseconds, and `parse s` the time value of `new Date(s)`,
NaN for an invalid date. -/
structure DateEnv where
  now : Int
  parse : String → JSNum

/-! ## Data model -/

/-- Icons of `lucide-react` attached to an insight. -/
inductive Icon where
  | TrendingUp
  | TrendingDown
  | AlertCircle
  | Lightbulb
  deriving DecidableEq

/-- An insight object pushed by `generateInsights`. -/
structure Insight where
  type : String
  icon : Icon
  title : String
  message : String
  deriving DecidableEq

/-- An entry of `daily_totals`. -/
structure DailyTotal where
  date : String
  amount : ℚ
  deriving DecidableEq

/-- An entry of `category_trends`. -/
structure CategoryTrend where
  name : String
  total : ℚ
  count : Nat
  deriving DecidableEq

/-- The `trendsData` argument of `generateInsights`. -/
structure Trend where
  category_trends : List CategoryTrend
  daily_totals : List DailyTotal

/-- The `summaryData` argument of `generateInsights`.  An object used as a
mapping is the list of its entries, in the order `Object.entries` yields
them. -/
structure Summary where
  total_income : ℚ
  total_expenses : ℚ
  category_spending : List (String × ℚ)
  category_budgets : List (String × ℚ)

/-! ## Insights.jsx -/

namespace Insights

/-- The expression `xs.reduce((sum, d) => sum + d.amount, 0)`. -/
def sumAmounts (xs : List DailyTotal) : JSNum :=
  xs.foldl (fun sum d => sum + fin d.amount) (fin 0)

/-- Block "Spending trend insight" of `generateInsights` (lines 42-64). -/
def spendingTrendInsight (newInsights : List Insight) (daily_totals : List DailyTotal) :
    List Insight :=
  if daily_totals.length > 1 then
    let recent := slice daily_totals (-7) none
    let earlier := slice daily_totals 0 (some 7)
    let recentAvg := sumAmounts recent / fin recent.length
    let earlierAvg := sumAmounts earlier / fin earlier.length
    if recentAvg.gt (earlierAvg * fin 1.2) then
      newInsights ++ [{
        type := "warning"
        icon := Icon.TrendingUp
        title := "Spending Increasing"
        message := "Your daily spending has increased by " ++
          toFixed ((recentAvg / earlierAvg - fin 1) * fin 100) 0 ++
          "% recently. Consider reviewing your expenses." }]
    else if recentAvg.lt (earlierAvg * fin 0.8) then
      newInsights ++ [{
        type := "success"
        icon := Icon.TrendingDown
        title := "Great Job!"
        message := "Your spending has decreased by " ++
          toFixed ((fin 1 - recentAvg / earlierAvg) * fin 100) 0 ++ "%. Keep it up!" }]
    else newInsights
  else newInsights

/-- The expression `category_budgets[category] || 0`. -/
def budgetOf (category_budgets : List (String × ℚ)) (category : String) : JSNum :=
  match category_budgets.lookup category with
  | some b => if (fin b).truthy then fin b else fin 0
  | none => fin 0

/-- The callback of `forEach` in the block "Budget insights" (lines 67-87),
applied to one entry `[category, spent]`. -/
def budgetInsight (category_budgets : List (String × ℚ)) (newInsights : List Insight)
    (entry : String × ℚ) : List Insight :=
  let category := entry.1
  let spent := fin entry.2
  let budget := budgetOf category_budgets category
  if budget.gt (fin 0) then
    let percentage := (spent / budget) * fin 100
    if percentage.gt (fin 100) then
      newInsights ++ [{
        type := "alert"
        icon := Icon.AlertCircle
        title := "Over Budget"
        message := "You've exceeded your " ++ category ++ " budget by $" ++
          toFixed (spent - budget) 2 }]
    else if percentage.gt (fin 80) then
      newInsights ++ [{
        type := "warning"
        icon := Icon.AlertCircle
        title := "Approaching Limit"
        message := "You've used " ++ toFixed percentage 0 ++ "% of your " ++ category ++
          " budget" }]
    else newInsights
  else newInsights

/-- Block "Budget insights" of `generateInsights`:
`Object.entries(category_spending).forEach(...)`. -/
def budgetInsights (newInsights : List Insight) (category_spending : List (String × ℚ))
    (category_budgets : List (String × ℚ)) : List Insight :=
  category_spending.foldl (budgetInsight category_budgets) newInsights

/-- Block "Top category insight" of `generateInsights` (lines 89-98). -/
def topCategoryInsight (newInsights : List Insight) (category_trends : List CategoryTrend) :
    List Insight :=
  if category_trends.length > 0 then
    match category_trends[0]? with
    | some topCategory =>
      newInsights ++ [{
        type := "info"
        icon := Icon.Lightbulb
        title := "Top Spending"
        message := topCategory.name ++ " is your biggest expense at $" ++
          toFixed (fin topCategory.total) 2 ++ " (" ++ toString topCategory.count ++
          " transactions)" }]
    | none => newInsights
  else newInsights

/-- Block "Savings insight" of `generateInsights` (lines 100-118). -/
def savingsInsight (newInsights : List Insight) (total_income total_expenses : ℚ) :
    List Insight :=
  if (fin total_income).gt (fin 0) then
    let savingsRate := ((fin total_income - fin total_expenses) / fin total_income) * fin 100
    if savingsRate.lt (fin 10) then
      newInsights ++ [{
        type := "warning"
        icon := Icon.Lightbulb
        title := "Low Savings Rate"
        message := "You're saving only " ++ toFixed savingsRate 1 ++
          "% of your income. Aim for at least 20%!" }]
    else if savingsRate.ge (fin 20) then
      newInsights ++ [{
        type := "success"
        icon := Icon.TrendingUp
        title := "Excellent Savings!"
        message := "You're saving " ++ toFixed savingsRate 1 ++
          "% of your income. That's fantastic!" }]
    else newInsights
  else newInsights

/-- The function `generateInsights(trendsData, summaryData)`: the array handed
to `setInsights`. -/
def generateInsights (trendsData : Trend) (summaryData : Summary) : List Insight :=
  let newInsights : List Insight := []
  let newInsights := spendingTrendInsight newInsights trendsData.daily_totals
  let newInsights :=
    budgetInsights newInsights summaryData.category_spending summaryData.category_budgets
  let newInsights := topCategoryInsight newInsights trendsData.category_trends
  let newInsights := savingsInsight newInsights summaryData.total_income summaryData.total_expenses
  newInsights

/-- The "recent" average in the words of the specification: the mean amount of
the last `min 7 n` entries of a series of `n` entries, in exact arithmetic. -/
def recentMean (daily_totals : List DailyTotal) : ℚ :=
  ((daily_totals.drop (daily_totals.length - min 7 daily_totals.length)).map
    DailyTotal.amount).sum / (min 7 daily_totals.length : ℕ)

/-- The "earlier" average in the words of the specification: the mean amount
of the first `min 7 n` entries of a series of `n` entries, in exact
arithmetic. -/
def earlierMean (daily_totals : List DailyTotal) : ℚ :=
  ((daily_totals.take (min 7 daily_totals.length)).map DailyTotal.amount).sum
    / (min 7 daily_totals.length : ℕ)

end Insights

/-! ## Debts.jsx -/

namespace Debts

/-- A debt record as the component reads it. -/
structure Debt where
  id : Nat
  name : String
  total_amount : ℚ
  remaining_amount : ℚ
  interest_rate : ℚ

/-- The request `api.updateDebt(id, data)` with `data` carrying a
`remaining_amount`. -/
structure UpdateDebt where
  id : Nat
  remaining_amount : JSNum
  deriving DecidableEq

/-- The function `handleUpdateDebt(id, newAmount)`: the request it sends. -/
def handleUpdateDebt (id : Nat) (newAmount : JSNum) : UpdateDebt :=
  { id := id, remaining_amount := parseFloat newAmount }

/-- The `onBlur` handler of the payment input (lines 282-289); `payment` is
the value of `parseFloat(e.target.value)`.  The result is the update request
sent, if any. -/
def paymentOnBlur (debt : Debt) (payment : JSNum) : Option UpdateDebt :=
  if !payment.isNaN && payment.gt (fin 0) then
    let newAmount := JSNum.max (fin 0) (fin debt.remaining_amount - payment)
    some (handleUpdateDebt debt.id newAmount)
  else none

/-- The `onKeyDown` handler of the payment input (lines 290-299). -/
def paymentOnKeyDown (key : String) (debt : Debt) (payment : JSNum) : Option UpdateDebt :=
  if key = "Enter" then
    if !payment.isNaN && payment.gt (fin 0) then
      let newAmount := JSNum.max (fin 0) (fin debt.remaining_amount - payment)
      some (handleUpdateDebt debt.id newAmount)
    else none
  else none

/-- Modelled from the spec: the Ledger Store behind `api.updateDebt` is not
part of the sources; a mutation is single-record and the last writer wins, so
after the handler ran the remaining amount of the debt is the value of the
request, and the old value when no request was sent. -/
def remainingAfter (debt : Debt) (request : Option UpdateDebt) : JSNum :=
  match request with
  | some r => r.remaining_amount
  | none => fin debt.remaining_amount

/-- The function `calculateProgress(remaining, total)` of `Debts.jsx`. -/
def calculateProgress (remaining total : JSNum) : JSNum :=
  ((total - remaining) / total) * fin 100

/-- The function `getDaysRemaining(dueDate)` of `Debts.jsx`; `none` as argument
is a missing date and `none` as result is `null`.  The empty string is falsy
like a missing date. -/
def getDaysRemaining (env : DateEnv) (dueDate : Option String) : Option JSNum :=
  match dueDate with
  | none => none
  | some dueDate =>
    if dueDate = "" then none
    else
      let today := fin env.now
      let due := env.parse dueDate
      let diff := due - today
      some (JSNum.ceil (diff / fin (1000 * 60 * 60 * 24)))

end Debts

/-! ## SavingsGoals.jsx -/

namespace SavingsGoals

/-- The function `calculateProgress(current, target)` of `SavingsGoals.jsx`. -/
def calculateProgress (current target : JSNum) : JSNum :=
  JSNum.min ((current / target) * fin 100) (fin 100)

/-- The function `getDaysRemaining(deadline)` of `SavingsGoals.jsx`. -/
def getDaysRemaining (env : DateEnv) (deadline : Option String) : Option JSNum :=
  match deadline with
  | none => none
  | some deadline =>
    if deadline = "" then none
    else
      let today := fin env.now
      let deadlineDate := env.parse deadline
      let diff := deadlineDate - today
      some (JSNum.ceil (diff / fin (1000 * 60 * 60 * 24)))

end SavingsGoals

/-! ## Investments.jsx -/

namespace Investments

/-- The function `calculateReturn(purchase, current)`. -/
def calculateReturn (purchase current : JSNum) : JSNum :=
  if !purchase.truthy || decide (purchase = fin 0) then fin 0
  else ((current - purchase) / purchase) * fin 100

/-- An investment record as the component reads it. -/
structure Investment where
  amount : ℚ
  current_value : ℚ

end Investments

/-! ## RecurringExpenses.jsx -/

namespace RecurringExpenses

/-- A recurring expense as the component reads it. -/
structure RecurringItem where
  amount : ℚ
  frequency : String

/-- The function `getDaysUntilDue(dueDate)`. -/
def getDaysUntilDue (env : DateEnv) (dueDate : Option String) : Option JSNum :=
  match dueDate with
  | none => none
  | some dueDate =>
    if dueDate = "" then none
    else
      let today := fin env.now
      let due := env.parse dueDate
      let diff := due - today
      some (JSNum.ceil (diff / fin (1000 * 60 * 60 * 24)))

/-- The constant `totalMonthly` (lines 84-89). -/
def totalMonthly (recurring : List RecurringItem) : JSNum :=
  recurring.foldl (fun sum item =>
    if item.frequency = "monthly" then sum + fin item.amount
    else if item.frequency = "weekly" then sum + (fin item.amount * fin 4)
    else if item.frequency = "yearly" then sum + (fin item.amount / fin 12)
    else sum + fin item.amount) (fin 0)

end RecurringExpenses

/-! ## ExpenseTracker.jsx -/

namespace ExpenseTracker

/-- A category as the component reads it. -/
structure Category where
  id : Int
  name : String
  deriving DecidableEq

/-- The state `expenseForm`, each field read the way `handleAddExpense` reads
it: `amount` is `parseFloat(expenseForm.amount)`, `category_id` is
`parseInt(expenseForm.category_id)` with `none` for NaN, `description` is the
text. -/
structure ExpenseForm where
  amount : JSNum
  category_id : Option Int
  description : String

/-- The requests `handleAddExpense` sends through `api`.  A `category_id` of
`none` is `undefined`. -/
inductive ApiCall where
  | categorizeExpense (description : String) (amount : JSNum)
  | addExpense (amount : JSNum) (category_id : Option Int) (description : String)
  deriving DecidableEq

/-- Truthiness of a category id: NaN and `0` are falsy. -/
def idTruthy : Option Int → Bool
  | some n => decide (n ≠ 0)
  | none => false

/-- The function `handleAddExpense`: the requests it sends, in order.
`toLowerCase` is the string method of that name.  `categorize` is the answer
of the service behind `api.categorizeExpense`: `some name` when
`catResponse.data.category` is the string `name`, `none` when the call or the
reading of the answer throws. -/
def handleAddExpense (toLowerCase : String → String)
    (categorize : String → JSNum → Option String) (categories : List Category)
    (expenseForm : ExpenseForm) : List ApiCall :=
  let categoryId := expenseForm.category_id
  let first := (categories[0]?).map Category.id
  if expenseForm.description ≠ "" ∧ idTruthy categoryId = false then
    let categoryId :=
      match categorize expenseForm.description expenseForm.amount with
      | some category =>
        let suggestedCategory :=
          categories.find? (fun c => decide (toLowerCase c.name = toLowerCase category))
        match suggestedCategory with
        | some suggestedCategory => some suggestedCategory.id
        | none => categoryId
      | none => categoryId
    [ApiCall.categorizeExpense expenseForm.description expenseForm.amount,
      ApiCall.addExpense expenseForm.amount
        (if idTruthy categoryId then categoryId else first) expenseForm.description]
  else
    [ApiCall.addExpense expenseForm.amount
      (if idTruthy categoryId then categoryId else first) expenseForm.description]

/-- The method `toLowerCase` on the letters `A` to `Z`, used for the examples. -/
def asciiLower (s : String) : String :=
  String.mk (s.data.map Char.toLower)

end ExpenseTracker

/-! ## BudgetManager.jsx and api.js -/

namespace BudgetManager

/-- The constant `API_BASE` of `api.js`. -/
def API_BASE : String := "/api"

/-- The address requested by `api.getIncome()`, which takes no argument. -/
def getIncome : String := API_BASE ++ "/income"

/-- An income entry as the component reads it. -/
structure IncomeEntry where
  amount : ℚ
  source : String
  period : String

/-- The constant `totalIncome` (line 96). -/
def totalIncome (income : List IncomeEntry) : JSNum :=
  income.foldl (fun sum item => sum + fin item.amount) (fin 0)

end BudgetManager

/-! ## Flags and banners -/

namespace Debts

/-- The constant `isOverdue` (line 209):
`daysRemaining !== null && daysRemaining < 0`. -/
def isOverdue (daysRemaining : Option JSNum) : Bool :=
  match daysRemaining with
  | none => false
  | some d => d.lt (fin 0)

end Debts

namespace RecurringExpenses

/-- The constant `isDueSoon` (line 191):
`daysUntil !== null && daysUntil <= 7 && daysUntil >= 0`. -/
def isDueSoon (daysUntil : Option JSNum) : Bool :=
  match daysUntil with
  | none => false
  | some d => d.le (fin 7) && d.ge (fin 0)

end RecurringExpenses

namespace SavingsGoals

/-- A savings goal as the component reads it. -/
structure Goal where
  id : Nat
  name : String
  target_amount : ℚ
  current_amount : ℚ

/-- The request `api.updateGoal(goalId, data)` with `data` carrying a
`current_amount`. -/
structure UpdateGoal where
  id : Nat
  current_amount : JSNum
  deriving DecidableEq

/-- The function `handleUpdateProgress(goalId, newAmount)`: the request it
sends. -/
def handleUpdateProgress (goalId : Nat) (newAmount : JSNum) : UpdateGoal :=
  { id := goalId, current_amount := parseFloat newAmount }

/-- The `onBlur` handler of the input "Add amount" (lines 229-235); `newAmount`
is the value of `parseFloat(e.target.value)`. -/
def addOnBlur (goal : Goal) (newAmount : JSNum) : Option UpdateGoal :=
  if !newAmount.isNaN && newAmount.ge (fin 0) then
    some (handleUpdateProgress goal.id (fin goal.current_amount + newAmount))
  else none

/-- The `onKeyDown` handler of the input "Add amount" (lines 236-244). -/
def addOnKeyDown (key : String) (goal : Goal) (newAmount : JSNum) : Option UpdateGoal :=
  if key = "Enter" then
    if !newAmount.isNaN && newAmount.ge (fin 0) then
      some (handleUpdateProgress goal.id (fin goal.current_amount + newAmount))
    else none
  else none

/-- Modelled from the spec: the Ledger Store behind `api.updateGoal` is not
part of the sources; a mutation is single-record and the last writer wins, so
after the handler ran the current amount of the goal is the value of the
request, and the old value when no request was sent. -/
def currentAfter (goal : Goal) (request : Option UpdateGoal) : JSNum :=
  match request with
  | some r => r.current_amount
  | none => fin goal.current_amount

/-- The condition of the banner "Goal Achieved!" (line 264): `progress >= 100`. -/
def goalAchieved (progress : JSNum) : Bool :=
  progress.ge (fin 100)

end SavingsGoals

/-! ## Binary64 arithmetic

The engine runs on IEEE 754 binary64 numbers: a number read from JSON or
written as a literal is the double nearest to its decimal value, and each of
`+`, `-`, `*`, `/` returns the double nearest to the exact result (ties to the
even significand).  `F64` holds this reading of the code; it decides the claims
whose truth depends on the rounding. -/

namespace F64

/-- Exponent of the spacing of the doubles around `x`: 52 binary places below
the leading bit of `x`, and never below `-1074`, the spacing of the subnormal
numbers. -/
def ulpExp (x : ℚ) : ℤ := max (Int.log 2 |x| - 52) (-1074)

/-- The integer nearest to `y`, the even one when `y` lies halfway between
two integers. -/
def roundHalfEven (y : ℚ) : ℤ :=
  if y - ⌊y⌋ < 1 / 2 then ⌊y⌋
  else if 1 / 2 < y - ⌊y⌋ then ⌊y⌋ + 1
  else if ⌊y⌋ % 2 = 0 then ⌊y⌋ else ⌊y⌋ + 1

/-- The double nearest to `x ≥ 0`: the multiple of the spacing at `x` nearest to
`x`. -/
def roundAbs (x : ℚ) : ℚ := roundHalfEven (x / 2 ^ ulpExp x) * 2 ^ ulpExp x

/-- Rounding to the nearest double, ties to even.  The value is exact as a
rational.  Overflow to an infinity (beyond `1.8 * 10^308`) is left out: no
amount of the application comes near it. -/
def fl (x : ℚ) : ℚ := if 0 ≤ x then roundAbs x else -roundAbs (-x)

/-- A number as the engine holds it.  The finite values the code produces are
doubles: they come from `lit` and from the rounded operations below. -/
structure Double where
  val : JSNum
  deriving DecidableEq

namespace Double

/-- The double denoted by a decimal literal or by a number of a JSON text. -/
def lit (q : ℚ) : Double := ⟨fin (fl q)⟩

/-- The double delivered for the exact result of an operation; the infinities
and NaN are delivered as they are. -/
def round : JSNum → Double
  | fin q => ⟨fin (fl q)⟩
  | x => ⟨x⟩

instance : Add Double := ⟨fun a b => round (a.val + b.val)⟩
instance : Sub Double := ⟨fun a b => round (a.val - b.val)⟩
instance : Mul Double := ⟨fun a b => round (a.val * b.val)⟩
instance : Div Double := ⟨fun a b => round (a.val / b.val)⟩
instance (n : ℕ) : OfNat Double n := ⟨lit (n : ℚ)⟩
instance : OfScientific Double := ⟨fun m s e => lit (OfScientific.ofScientific m s e)⟩

/-- The operator `<`. -/
def lt (a b : Double) : Bool := a.val.lt b.val

/-- The operator `>`. -/
def gt (a b : Double) : Bool := a.val.gt b.val

/-- The operator `<=`. -/
def le (a b : Double) : Bool := a.val.le b.val

/-- The operator `>=`. -/
def ge (a b : Double) : Bool := a.val.ge b.val

/-- The global function `isNaN`. -/
def isNaN (a : Double) : Bool := a.val.isNaN

/-- Truthiness of a number in a condition. -/
def truthy (a : Double) : Bool := a.val.truthy

/-- The function `Math.max` on two numbers. -/
def max (a b : Double) : Double := ⟨JSNum.max a.val b.val⟩

/-- The operator `||` between two numbers. -/
def orElse (a b : Double) : Double := if a.truthy then a else b

/-- The method `toFixed(f)`: it rounds the exact value of the double. -/
def toFixed (a : Double) (f : Nat) : String := JSNum.toFixed a.val f

end Double

open Double (lit)

namespace Insights

/-- The expression `xs.reduce((sum, d) => sum + d.amount, 0)`. -/
def sumAmounts (xs : List DailyTotal) : Double :=
  xs.foldl (fun sum d => sum + lit d.amount) 0

/-- The constant `recentAvg` (line 46). -/
def recentAvg (daily_totals : List DailyTotal) : Double :=
  sumAmounts (slice daily_totals (-7) none) / lit (slice daily_totals (-7) none).length

/-- The constant `earlierAvg` (line 47). -/
def earlierAvg (daily_totals : List DailyTotal) : Double :=
  sumAmounts (slice daily_totals 0 (some 7)) / lit (slice daily_totals 0 (some 7)).length

/-- Block "Spending trend insight" of `generateInsights` (lines 42-64). -/
def spendingTrendInsight (newInsights : List Insight) (daily_totals : List DailyTotal) :
    List Insight :=
  if daily_totals.length > 1 then
    let recent := slice daily_totals (-7) none
    let earlier := slice daily_totals 0 (some 7)
    let recentAvg := sumAmounts recent / lit recent.length
    let earlierAvg := sumAmounts earlier / lit earlier.length
    if recentAvg.gt (earlierAvg * 1.2) then
      newInsights ++ [{
        type := "warning"
        icon := Icon.TrendingUp
        title := "Spending Increasing"
        message := "Your daily spending has increased by " ++
          ((recentAvg / earlierAvg - 1) * 100).toFixed 0 ++
          "% recently. Consider reviewing your expenses." }]
    else if recentAvg.lt (earlierAvg * 0.8) then
      newInsights ++ [{
        type := "success"
        icon := Icon.TrendingDown
        title := "Great Job!"
        message := "Your spending has decreased by " ++
          ((1 - recentAvg / earlierAvg) * 100).toFixed 0 ++ "%. Keep it up!" }]
    else newInsights
  else newInsights

/-- The expression `category_budgets[category] || 0`. -/
def budgetOf (category_budgets : List (String × ℚ)) (category : String) : Double :=
  match category_budgets.lookup category with
  | some b => if (lit b).truthy then lit b else 0
  | none => 0

/-- The callback of `forEach` in the block "Budget insights" (lines 67-87),
applied to one entry `[category, spent]`. -/
def budgetInsight (category_budgets : List (String × ℚ)) (newInsights : List Insight)
    (entry : String × ℚ) : List Insight :=
  let category := entry.1
  let spent := lit entry.2
  let budget := budgetOf category_budgets category
  if budget.gt 0 then
    let percentage := (spent / budget) * 100
    if percentage.gt 100 then
      newInsights ++ [{
        type := "alert"
        icon := Icon.AlertCircle
        title := "Over Budget"
        message := "You've exceeded your " ++ category ++ " budget by $" ++
          (spent - budget).toFixed 2 }]
    else if percentage.gt 80 then
      newInsights ++ [{
        type := "warning"
        icon := Icon.AlertCircle
        title := "Approaching Limit"
        message := "You've used " ++ percentage.toFixed 0 ++ "% of your " ++ category ++
          " budget" }]
    else newInsights
  else newInsights

/-- Block "Budget insights" of `generateInsights`:
`Object.entries(category_spending).forEach(...)`. -/
def budgetInsights (newInsights : List Insight) (category_spending : List (String × ℚ))
    (category_budgets : List (String × ℚ)) : List Insight :=
  category_spending.foldl (budgetInsight category_budgets) newInsights

/-- Block "Top category insight" of `generateInsights` (lines 89-98). -/
def topCategoryInsight (newInsights : List Insight) (category_trends : List CategoryTrend) :
    List Insight :=
  if category_trends.length > 0 then
    match category_trends[0]? with
    | some topCategory =>
      newInsights ++ [{
        type := "info"
        icon := Icon.Lightbulb
        title := "Top Spending"
        message := topCategory.name ++ " is your biggest expense at $" ++
          (lit topCategory.total).toFixed 2 ++ " (" ++ toString topCategory.count ++
          " transactions)" }]
    | none => newInsights
  else newInsights

/-- The constant `savingsRate` (line 102). -/
def savingsRate (total_income total_expenses : ℚ) : Double :=
  ((lit total_income - lit total_expenses) / lit total_income) * 100

/-- Block "Savings insight" of `generateInsights` (lines 100-118). -/
def savingsInsight (newInsights : List Insight) (total_income total_expenses : ℚ) :
    List Insight :=
  if (lit total_income).gt 0 then
    let savingsRate := ((lit total_income - lit total_expenses) / lit total_income) * 100
    if savingsRate.lt 10 then
      newInsights ++ [{
        type := "warning"
        icon := Icon.Lightbulb
        title := "Low Savings Rate"
        message := "You're saving only " ++ savingsRate.toFixed 1 ++
          "% of your income. Aim for at least 20%!" }]
    else if savingsRate.ge 20 then
      newInsights ++ [{
        type := "success"
        icon := Icon.TrendingUp
        title := "Excellent Savings!"
        message := "You're saving " ++ savingsRate.toFixed 1 ++
          "% of your income. That's fantastic!" }]
    else newInsights
  else newInsights

/-- The function `generateInsights(trendsData, summaryData)`: the array handed
to `setInsights`. -/
def generateInsights (trendsData : Trend) (summaryData : Summary) : List Insight :=
  let newInsights : List Insight := []
  let newInsights := spendingTrendInsight newInsights trendsData.daily_totals
  let newInsights :=
    budgetInsights newInsights summaryData.category_spending summaryData.category_budgets
  let newInsights := topCategoryInsight newInsights trendsData.category_trends
  let newInsights := savingsInsight newInsights summaryData.total_income summaryData.total_expenses
  newInsights

end Insights

namespace Dashboard

/-- The constant `percentageUsed` (line 59). -/
def percentageUsed (total_income total_expenses : ℚ) : Double :=
  if (lit total_income).gt 0 then (lit total_expenses / lit total_income) * 100 else 0

/-- The condition of the block "Budget Usage Warning" (line 114):
`percentageUsed > 80`. -/
def budgetUsageWarning (total_income total_expenses : ℚ) : Bool :=
  (percentageUsed total_income total_expenses).gt 80

end Dashboard

namespace Debts

/-- The `onBlur` handler of the payment input (lines 282-289); `payment` is
the value of `parseFloat(e.target.value)`.  The result is the update request
sent, if any. -/
def paymentOnBlur (debt : Debts.Debt) (payment : Double) : Option Debts.UpdateDebt :=
  if !payment.isNaN && payment.gt 0 then
    let newAmount := Double.max 0 (lit debt.remaining_amount - payment)
    some (Debts.handleUpdateDebt debt.id newAmount.val)
  else none

/-- The `onKeyDown` handler of the payment input (lines 290-299). -/
def paymentOnKeyDown (key : String) (debt : Debts.Debt) (payment : Double) :
    Option Debts.UpdateDebt :=
  if key = "Enter" then
    if !payment.isNaN && payment.gt 0 then
      let newAmount := Double.max 0 (lit debt.remaining_amount - payment)
      some (Debts.handleUpdateDebt debt.id newAmount.val)
    else none
  else none

/-- Modelled from the spec: the Ledger Store behind `api.updateDebt` is not
part of the sources; a mutation is single-record and the last writer wins, so
after the handler ran the remaining amount of the debt is the value of the
request, and the old value when no request was sent. -/
def remainingAfter (debt : Debts.Debt) (request : Option Debts.UpdateDebt) : Double :=
  match request with
  | some r => ⟨r.remaining_amount⟩
  | none => lit debt.remaining_amount

/-- The function `calculateProgress(remaining, total)` of `Debts.jsx`. -/
def calculateProgress (remaining total : Double) : Double :=
  ((total - remaining) / total) * 100

/-- The condition of the banner "Debt Paid Off!" (line 304): `progress >= 100`. -/
def debtPaidOff (progress : Double) : Bool :=
  progress.ge 100

end Debts

namespace Investments

/-- The function `calculateReturn(purchase, current)`. -/
def calculateReturn (purchase current : Double) : Double :=
  if !purchase.truthy || decide (purchase = 0) then 0
  else ((current - purchase) / purchase) * 100

/-- The constant `totalInvested` (line 85). -/
def totalInvested (investments : List Investments.Investment) : Double :=
  investments.foldl (fun sum inv => sum + Double.orElse (lit inv.amount) 0) 0

/-- The constant `totalValue` (line 86). -/
def totalValue (investments : List Investments.Investment) : Double :=
  investments.foldl (fun sum inv => sum + Double.orElse (lit inv.current_value) 0) 0

/-- The constant `totalReturn` (line 87). -/
def totalReturn (investments : List Investments.Investment) : Double :=
  totalValue investments - totalInvested investments

/-- The constant `totalReturnPercent` (line 88). -/
def totalReturnPercent (investments : List Investments.Investment) : Double :=
  if (totalInvested investments).gt 0 then
    (totalReturn investments / totalInvested investments) * 100
  else 0

/-- The cost-weighted mean of the individual returns in the words of the
specification, evaluated with the operations of the engine: the sum of
`calculateReturn(amount, current_value) * amount` divided by `totalInvested`. -/
def weightedMeanReturn (investments : List Investments.Investment) : Double :=
  investments.foldl
    (fun sum inv => sum + calculateReturn (lit inv.amount) (lit inv.current_value) * lit inv.amount)
    0 / totalInvested investments

end Investments

end F64

/-! ## Evaluation lemmas for `JSNum` -/

namespace JSNum

@[simp]
theorem add_fin (a b : ℚ) : fin a + fin b = fin (a + b) := rfl

@[simp]
theorem sub_fin (a b : ℚ) : fin a - fin b = fin (a - b) := by
  show add (fin a) (neg (fin b)) = fin (a - b)
  simp [add, neg, sub_eq_add_neg]

@[simp]
theorem mul_fin (a b : ℚ) : fin a * fin b = fin (a * b) := rfl

theorem div_fin (a b : ℚ) :
    fin a / fin b = if b = 0 then infOfSign a else fin (a / b) := rfl

@[simp]
theorem div_fin_of_ne (a : ℚ) {b : ℚ} (h : b ≠ 0) : fin a / fin b = fin (a / b) := by
  rw [div_fin, if_neg h]

@[simp]
theorem lt_fin (a b : ℚ) : lt (fin a) (fin b) = decide (a < b) := rfl

@[simp]
theorem gt_fin (a b : ℚ) : gt (fin a) (fin b) = decide (b < a) := rfl

@[simp]
theorem le_fin (a b : ℚ) : le (fin a) (fin b) = decide (a ≤ b) := rfl

@[simp]
theorem ge_fin (a b : ℚ) : ge (fin a) (fin b) = decide (b ≤ a) := rfl

@[simp]
theorem isNaN_fin (a : ℚ) : isNaN (fin a) = false := rfl

@[simp]
theorem truthy_fin (a : ℚ) : truthy (fin a) = decide (a ≠ 0) := rfl

theorem max_fin (a b : ℚ) : JSNum.max (fin a) (fin b) = fin (Max.max a b) := by
  simp only [JSNum.max, isNaN_fin, lt_fin, Bool.or_self, Bool.false_eq_true, if_false,
    decide_eq_true_eq]
  split_ifs with h
  · rw [max_eq_right h.le]
  · rw [max_eq_left (not_lt.mp h)]

theorem min_fin (a b : ℚ) : JSNum.min (fin a) (fin b) = fin (Min.min a b) := by
  simp only [JSNum.min, isNaN_fin, lt_fin, Bool.or_self, Bool.false_eq_true, if_false,
    decide_eq_true_eq]
  split_ifs with h
  · rw [min_eq_right h.le]
  · rw [min_eq_left (not_lt.mp h)]

theorem posInf_mul_hundred : posInf * fin 100 = posInf := by
  show infOfSign 100 = posInf
  norm_num [infOfSign]

theorem negInf_mul_hundred : negInf * fin 100 = negInf := by
  show infOfSign (-100) = negInf
  norm_num [infOfSign]

theorem nan_mul (x : JSNum) : nan * x = nan := by
  cases x <;> rfl

end JSNum

/-! ## Structure of `generateInsights` -/

namespace Insights

theorem budgetInsight_append (budgets : List (String × ℚ)) (acc : List Insight)
    (e : String × ℚ) : budgetInsight budgets acc e = acc ++ budgetInsight budgets [] e := by
  unfold budgetInsight
  simp only []
  split_ifs <;> simp

theorem budgetInsights_eq_flatMap (acc : List Insight) (spending budgets : List (String × ℚ)) :
    budgetInsights acc spending budgets = acc ++ spending.flatMap (budgetInsight budgets []) := by
  unfold budgetInsights
  induction spending generalizing acc with
  | nil => simp
  | cons e es ih =>
    rw [List.foldl_cons, ih, budgetInsight_append, List.flatMap_cons, List.append_assoc]

theorem budgetOf_eq (budgets : List (String × ℚ)) (category : String) :
    budgetOf budgets category = fin ((budgets.lookup category).getD 0) := by
  unfold budgetOf
  cases h : budgets.lookup category with
  | none => rfl
  | some b =>
    by_cases hb : b = 0 <;> simp [hb]

theorem budgetInsight_eq (budgets : List (String × ℚ)) (acc : List Insight)
    (category : String) (spent b : ℚ) (hb : b = (budgets.lookup category).getD 0) :
    budgetInsight budgets acc (category, spent) =
      if 0 < b then
        if 100 < spent / b * 100 then
          acc ++ [{
            type := "alert"
            icon := Icon.AlertCircle
            title := "Over Budget"
            message := "You've exceeded your " ++ category ++ " budget by $" ++
              toFixed (fin (spent - b)) 2 }]
        else if 80 < spent / b * 100 then
          acc ++ [{
            type := "warning"
            icon := Icon.AlertCircle
            title := "Approaching Limit"
            message := "You've used " ++ toFixed (fin (spent / b * 100)) 0 ++ "% of your " ++
              category ++ " budget" }]
        else acc
      else acc := by
  unfold budgetInsight
  simp only [budgetOf_eq, ← hb, JSNum.gt_fin, decide_eq_true_eq]
  by_cases h0 : 0 < b
  · have hne : b ≠ 0 := ne_of_gt h0
    simp only [h0, if_true, JSNum.div_fin_of_ne _ hne, JSNum.mul_fin, JSNum.gt_fin,
      JSNum.sub_fin, decide_eq_true_eq]
  · simp only [h0, if_false]

theorem slice_last7 {α : Type} (xs : List α) :
    slice xs (-7) none = xs.drop (xs.length - min 7 xs.length) := by
  unfold slice
  simp only [show ((-7 : Int) < 0) from by decide, if_true]
  have hk : (max ((xs.length : Int) + -7) 0).toNat = xs.length - min 7 xs.length := by omega
  rw [hk]
  apply List.take_of_length_le
  rw [List.length_drop]
  omega

theorem slice_first7 {α : Type} (xs : List α) :
    slice xs 0 (some 7) = xs.take (min 7 xs.length) := by
  unfold slice
  simp only [lt_self_iff_false, if_false, show ¬ ((7 : Int) < 0) from by decide]
  have hk : (min (0 : Int) (xs.length : Int)).toNat = 0 := by omega
  have hc : (max (min (7 : Int) (xs.length : Int) - min (0 : Int) (xs.length : Int)) 0).toNat
      = min 7 xs.length := by omega
  rw [hk, hc, List.drop_zero]

theorem foldl_add_fin (xs : List DailyTotal) (a : ℚ) :
    xs.foldl (fun sum d => sum + fin d.amount) (fin a)
      = fin (a + (xs.map DailyTotal.amount).sum) := by
  induction xs generalizing a with
  | nil => simp
  | cons x xs ih =>
    rw [List.foldl_cons, JSNum.add_fin, ih, List.map_cons, List.sum_cons, add_assoc]

theorem sumAmounts_eq (xs : List DailyTotal) :
    sumAmounts xs = fin (xs.map DailyTotal.amount).sum := by
  unfold sumAmounts
  rw [foldl_add_fin, zero_add]

/-- The two averages of the momentum block, for a series of at least two
entries: both windows hold `min 7 n` entries and the divisions are finite. -/
theorem momentum_averages (daily_totals : List DailyTotal) (h : 2 ≤ daily_totals.length) :
    sumAmounts (slice daily_totals (-7) none) / fin (slice daily_totals (-7) none).length
      = fin (((daily_totals.drop (daily_totals.length - min 7 daily_totals.length)).map
          DailyTotal.amount).sum / (min 7 daily_totals.length : ℕ))
    ∧ sumAmounts (slice daily_totals 0 (some 7)) / fin (slice daily_totals 0 (some 7)).length
      = fin (((daily_totals.take (min 7 daily_totals.length)).map
          DailyTotal.amount).sum / (min 7 daily_totals.length : ℕ)) := by
  have hpos : ((min 7 daily_totals.length : ℕ) : ℚ) ≠ 0 := by
    have : 0 < min 7 daily_totals.length := by omega
    exact_mod_cast this.ne'
  have hl1 : (daily_totals.drop (daily_totals.length - min 7 daily_totals.length)).length
      = min 7 daily_totals.length := by
    rw [List.length_drop]; omega
  have hl2 : (daily_totals.take (min 7 daily_totals.length)).length
      = min 7 daily_totals.length := by
    rw [List.length_take]; omega
  rw [slice_last7, slice_first7, sumAmounts_eq, sumAmounts_eq, hl1, hl2]
  exact ⟨JSNum.div_fin_of_ne _ hpos, JSNum.div_fin_of_ne _ hpos⟩

theorem savingsInsight_eq (acc : List Insight) (income expenses : ℚ) :
    savingsInsight acc income expenses =
      if 0 < income then
        if (income - expenses) / income * 100 < 10 then
          acc ++ [{
            type := "warning"
            icon := Icon.Lightbulb
            title := "Low Savings Rate"
            message := "You're saving only " ++
              toFixed (fin ((income - expenses) / income * 100)) 1 ++
              "% of your income. Aim for at least 20%!" }]
        else if 20 ≤ (income - expenses) / income * 100 then
          acc ++ [{
            type := "success"
            icon := Icon.TrendingUp
            title := "Excellent Savings!"
            message := "You're saving " ++
              toFixed (fin ((income - expenses) / income * 100)) 1 ++
              "% of your income. That's fantastic!" }]
        else acc
      else acc := by
  unfold savingsInsight
  by_cases h0 : 0 < income
  · have hne : income ≠ 0 := ne_of_gt h0
    simp only [JSNum.gt_fin, h0, decide_True, if_true, JSNum.sub_fin, JSNum.div_fin_of_ne _ hne,
      JSNum.mul_fin, JSNum.lt_fin, JSNum.ge_fin, decide_eq_true_eq]
  · simp only [JSNum.gt_fin, h0, decide_False, if_false, Bool.false_eq_true]

theorem spendingTrendInsight_append (acc : List Insight) (daily_totals : List DailyTotal) :
    spendingTrendInsight acc daily_totals = acc ++ spendingTrendInsight [] daily_totals := by
  unfold spendingTrendInsight
  simp only []
  split_ifs <;> simp

theorem topCategoryInsight_append (acc : List Insight) (category_trends : List CategoryTrend) :
    topCategoryInsight acc category_trends = acc ++ topCategoryInsight [] category_trends := by
  unfold topCategoryInsight
  cases category_trends <;> simp

theorem savingsInsight_append (acc : List Insight) (income expenses : ℚ) :
    savingsInsight acc income expenses = acc ++ savingsInsight [] income expenses := by
  unfold savingsInsight
  simp only []
  split_ifs <;> simp

/-- C4: output order and independence of `generateInsights`.  The emitted
sequence is the concatenation, in this order, of the momentum insights (a
function of `daily_totals`), the budget insights (a function of
`category_spending` and `category_budgets`, one entry of `category_spending`
after the other in iteration order), the Top Spending insight (a function of
`category_trends`) and the savings insight (a function of `total_income` and
`total_expenses`). -/
theorem C4_output_order (trendsData : Trend) (summaryData : Summary) :
    generateInsights trendsData summaryData =
      spendingTrendInsight [] trendsData.daily_totals
        ++ budgetInsights [] summaryData.category_spending summaryData.category_budgets
        ++ topCategoryInsight [] trendsData.category_trends
        ++ savingsInsight [] summaryData.total_income summaryData.total_expenses
    ∧ budgetInsights [] summaryData.category_spending summaryData.category_budgets =
      summaryData.category_spending.flatMap (budgetInsight summaryData.category_budgets []) := by
  constructor
  · unfold generateInsights
    simp only []
    rw [savingsInsight_append, topCategoryInsight_append, budgetInsights_eq_flatMap,
      budgetInsights_eq_flatMap [], List.nil_append]
  · rw [budgetInsights_eq_flatMap, List.nil_append]

theorem budgetInsight_over (budgets : List (String × ℚ)) (acc : List Insight)
    (category : String) (spent budget : ℚ) (hb : budgets.lookup category = some budget)
    (hpos : 0 < budget) (hover : budget < spent) :
    budgetInsight budgets acc (category, spent) = acc ++ [{
      type := "alert"
      icon := Icon.AlertCircle
      title := "Over Budget"
      message := "You've exceeded your " ++ category ++ " budget by $" ++
        toFixed (fin (spent - budget)) 2 }] := by
  have h100 : 100 < spent / budget * 100 := by
    have : 1 < spent / budget := (one_lt_div hpos).mpr hover
    linarith
  rw [budgetInsight_eq budgets acc category spent budget (by rw [hb]; rfl), if_pos hpos,
    if_pos h100]

theorem toFixed_overage_50 : toFixed (fin (250 - 200)) 2 = "50.00" := by
  norm_num [toFixed]
  decide

/-- With no trend data and no income, `generateInsights` returns the budget
insights alone. -/
theorem generateInsights_budget_only (spending budgets : List (String × ℚ)) :
    generateInsights ⟨[], []⟩ ⟨0, 0, spending, budgets⟩ = budgetInsights [] spending budgets := by
  simp only [generateInsights, spendingTrendInsight, topCategoryInsight, savingsInsight,
    List.length_nil, gt_iff_lt, Nat.not_lt_zero, if_false, JSNum.gt_fin, lt_self_iff_false,
    decide_False, Bool.false_eq_true]

/-- C5: over-budget scenario.  For a category with budget `> 0` and
`spent > budget`, exactly one budget insight is emitted for its entry; it is
the alert "Over Budget" and its message reports `spent - budget` with 2
decimals.  For budget 200 and spent 250 the message reports `$50.00`. -/
theorem C5_over_budget_scenario (budgets : List (String × ℚ)) (acc : List Insight)
    (category : String) (spent budget : ℚ) (hb : budgets.lookup category = some budget)
    (hpos : 0 < budget) (hover : budget < spent) :
    budgetInsight budgets acc (category, spent) = acc ++ [{
        type := "alert"
        icon := Icon.AlertCircle
        title := "Over Budget"
        message := "You've exceeded your " ++ category ++ " budget by $" ++
          toFixed (fin (spent - budget)) 2 }]
    ∧ generateInsights ⟨[], []⟩ ⟨0, 0, [(category, spent)], budgets⟩ = [{
        type := "alert"
        icon := Icon.AlertCircle
        title := "Over Budget"
        message := "You've exceeded your " ++ category ++ " budget by $" ++
          toFixed (fin (spent - budget)) 2 }]
    ∧ generateInsights ⟨[], []⟩ ⟨0, 0, [("Food", 250)], [("Food", 200)]⟩ = [{
        type := "alert"
        icon := Icon.AlertCircle
        title := "Over Budget"
        message := "You've exceeded your Food budget by $50.00" }] := by
  refine ⟨budgetInsight_over budgets acc category spent budget hb hpos hover, ?_, ?_⟩
  · rw [generateInsights_budget_only, budgetInsights, List.foldl_cons, List.foldl_nil,
      budgetInsight_over budgets [] category spent budget hb hpos hover, List.nil_append]
  · rw [generateInsights_budget_only, budgetInsights, List.foldl_cons, List.foldl_nil,
      budgetInsight_over [("Food", 200)] [] "Food" 250 200 (by simp [List.lookup])
        (by norm_num) (by norm_num), toFixed_overage_50]
    decide

theorem C5_over_budget_scenario_witness :
    generateInsights ⟨[], []⟩ ⟨0, 0, [("Rent", 1200)], [("Food", 200), ("Rent", 900)]⟩ = [{
      type := "alert"
      icon := Icon.AlertCircle
      title := "Over Budget"
      message := "You've exceeded your " ++ "Rent" ++ " budget by $" ++
        toFixed (fin (1200 - 900)) 2 }] :=
  (C5_over_budget_scenario [("Food", 200), ("Rent", 900)] [] "Rent" 1200 900
    (by simp [List.lookup]) (by norm_num) (by norm_num)).2.1

theorem topCategoryInsight_cons (acc : List Insight) (top : CategoryTrend)
    (rest : List CategoryTrend) :
    topCategoryInsight acc (top :: rest) = acc ++ [{
      type := "info"
      icon := Icon.Lightbulb
      title := "Top Spending"
      message := top.name ++ " is your biggest expense at $" ++ toFixed (fin top.total) 2 ++
        " (" ++ toString top.count ++ " transactions)" }] := by
  simp [topCategoryInsight]

end Insights

/-! ## Progress calculators -/

/-- C7: debt payment application.  For a debt with `remaining >= 0` and an
entered payment `p >= 0`, after the payment handler (on blur, or on the key
Enter) the remaining amount is `max 0 (remaining - p)`, which lies between 0
and the remaining amount before; a payment of 0 sends no update. -/
theorem C7_debt_payment_application (debt : Debts.Debt) (p : ℚ)
    (hr : 0 ≤ debt.remaining_amount) (hp : 0 ≤ p) :
    Debts.remainingAfter debt (Debts.paymentOnBlur debt (fin p))
        = fin (max 0 (debt.remaining_amount - p))
    ∧ Debts.remainingAfter debt (Debts.paymentOnKeyDown "Enter" debt (fin p))
        = fin (max 0 (debt.remaining_amount - p))
    ∧ 0 ≤ max 0 (debt.remaining_amount - p)
    ∧ max 0 (debt.remaining_amount - p) ≤ debt.remaining_amount
    ∧ (p = 0 → Debts.paymentOnBlur debt (fin p) = none
        ∧ Debts.paymentOnKeyDown "Enter" debt (fin p) = none
        ∧ max 0 (debt.remaining_amount - p) = debt.remaining_amount) := by
  have hblur : Debts.remainingAfter debt (Debts.paymentOnBlur debt (fin p))
      = fin (max 0 (debt.remaining_amount - p)) := by
    unfold Debts.paymentOnBlur
    by_cases h0 : 0 < p
    · simp [h0, Debts.remainingAfter, Debts.handleUpdateDebt, parseFloat, JSNum.max_fin]
    · have hp0 : p = 0 := le_antisymm (not_lt.mp h0) hp
      simp [hp0, Debts.remainingAfter, hr]
  have hkey : Debts.paymentOnKeyDown "Enter" debt (fin p) = Debts.paymentOnBlur debt (fin p) := by
    simp [Debts.paymentOnKeyDown, Debts.paymentOnBlur]
  refine ⟨hblur, by rw [hkey]; exact hblur, le_max_left _ _, ?_, ?_⟩
  · exact max_le hr (by linarith)
  · intro h0
    subst h0
    refine ⟨?_, ?_, ?_⟩
    · simp [Debts.paymentOnBlur]
    · simp [Debts.paymentOnKeyDown]
    · simp [hr]

theorem C7_debt_payment_application_witness :
    Debts.remainingAfter ⟨1, "Car loan", 1000, 300, 5⟩
        (Debts.paymentOnBlur ⟨1, "Car loan", 1000, 300, 5⟩ (fin 450))
      = fin (max 0 (300 - 450)) :=
  (C7_debt_payment_application ⟨1, "Car loan", 1000, 300, 5⟩ 450 (by norm_num)
    (by norm_num)).1

/-- C8: debt payoff percentage.  `calculateProgress(remaining, total)` is
`(total - remaining)/total*100`, and for `total > 0` and
`0 <= remaining <= total` it is a finite number in `[0, 100]`. -/
theorem C8_debt_payoff_percentage (remaining total : ℚ) :
    (∀ r t : JSNum, Debts.calculateProgress r t = ((t - r) / t) * fin 100)
    ∧ (total ≠ 0 → Debts.calculateProgress (fin remaining) (fin total)
        = fin ((total - remaining) / total * 100))
    ∧ (0 < total → 0 ≤ remaining → remaining ≤ total →
        ∃ v : ℚ, Debts.calculateProgress (fin remaining) (fin total) = fin v
          ∧ 0 ≤ v ∧ v ≤ 100) := by
  have hfin : total ≠ 0 → Debts.calculateProgress (fin remaining) (fin total)
      = fin ((total - remaining) / total * 100) := by
    intro h
    simp [Debts.calculateProgress, JSNum.div_fin_of_ne _ h]
  refine ⟨fun _ _ => rfl, hfin, ?_⟩
  intro ht hr hrt
  refine ⟨_, hfin (ne_of_gt ht), ?_, ?_⟩
  · have : 0 ≤ (total - remaining) / total := div_nonneg (by linarith) ht.le
    linarith
  · have : (total - remaining) / total ≤ 1 := (div_le_one ht).mpr (by linarith)
    linarith

theorem C8_debt_payoff_percentage_witness :
    ∃ v : ℚ, Debts.calculateProgress (fin 250) (fin 1000) = fin v ∧ 0 ≤ v ∧ v ≤ 100 :=
  (C8_debt_payoff_percentage 250 1000).2.2 (by norm_num) (by norm_num) (by norm_num)

/-- C9: goal completion percentage.  `calculateProgress(current, target)` of
the savings goals is `min(current/target*100, 100)`, and for `target > 0` and
every `current` (also above `target`) it is a finite number that does not
exceed 100. -/
theorem C9_goal_completion_percentage (current target : ℚ) :
    (∀ c t : JSNum, SavingsGoals.calculateProgress c t = JSNum.min ((c / t) * fin 100) (fin 100))
    ∧ (target ≠ 0 → SavingsGoals.calculateProgress (fin current) (fin target)
        = fin (min (current / target * 100) 100))
    ∧ (0 < target →
        ∃ v : ℚ, SavingsGoals.calculateProgress (fin current) (fin target) = fin v ∧ v ≤ 100)
    ∧ (0 < target → target < current →
        SavingsGoals.calculateProgress (fin current) (fin target) = fin 100) := by
  have hfin : target ≠ 0 → SavingsGoals.calculateProgress (fin current) (fin target)
      = fin (min (current / target * 100) 100) := by
    intro h
    simp [SavingsGoals.calculateProgress, JSNum.div_fin_of_ne _ h, JSNum.min_fin]
  refine ⟨fun _ _ => rfl, hfin, ?_, ?_⟩
  · intro ht
    exact ⟨_, hfin (ne_of_gt ht), min_le_right _ _⟩
  · intro ht hc
    rw [hfin (ne_of_gt ht), min_eq_right]
    have : 1 < current / target := (one_lt_div ht).mpr hc
    linarith

theorem C9_goal_completion_percentage_witness :
    SavingsGoals.calculateProgress (fin 1500) (fin 1000) = fin 100 :=
  (C9_goal_completion_percentage 1500 1000).2.2.2 (by norm_num) (by norm_num)

/-- C10: investment return percentage.  `calculateReturn(purchase, current)`
is `(current - purchase)/purchase*100` for `purchase != 0`, and is 0 for
`purchase = 0`, where the division would not give a finite number. -/
theorem C10_investment_return_percentage (purchase current : ℚ) :
    (purchase ≠ 0 → Investments.calculateReturn (fin purchase) (fin current)
        = fin ((current - purchase) / purchase * 100))
    ∧ (∀ c : JSNum, Investments.calculateReturn (fin 0) c = fin 0)
    ∧ (∀ v : ℚ, ((fin current - fin 0) / fin 0) * fin 100 ≠ fin v) := by
  refine ⟨?_, ?_, ?_⟩
  · intro h
    simp [Investments.calculateReturn, h, JSNum.div_fin_of_ne _ h]
  · intro c
    simp [Investments.calculateReturn]
  · intro v
    rw [JSNum.sub_fin, JSNum.div_fin, if_pos rfl, sub_zero]
    unfold JSNum.infOfSign
    split_ifs
    · rw [JSNum.posInf_mul_hundred]; exact JSNum.noConfusion
    · rw [JSNum.negInf_mul_hundred]; exact JSNum.noConfusion
    · rw [JSNum.nan_mul]; exact JSNum.noConfusion

theorem C10_investment_return_percentage_witness :
    Investments.calculateReturn (fin 200) (fin 250) = fin ((250 - 200) / 200 * 100) :=
  (C10_investment_return_percentage 200 250).1 (by norm_num)

/-! ## Recurring expenses and days until a date -/

theorem totalMonthly_foldl (recurring : List RecurringExpenses.RecurringItem) (a : ℚ) :
    recurring.foldl (fun sum item =>
      if item.frequency = "monthly" then sum + fin item.amount
      else if item.frequency = "weekly" then sum + (fin item.amount * fin 4)
      else if item.frequency = "yearly" then sum + (fin item.amount / fin 12)
      else sum + fin item.amount) (fin a)
    = fin (a + (recurring.map (fun item =>
        if item.frequency = "monthly" then item.amount
        else if item.frequency = "weekly" then item.amount * 4
        else if item.frequency = "yearly" then item.amount / 12
        else item.amount)).sum) := by
  induction recurring generalizing a with
  | nil => simp
  | cons item items ih =>
    rw [List.foldl_cons, List.map_cons, List.sum_cons, ← add_assoc]
    have h12 : (12 : ℚ) ≠ 0 := by norm_num
    split_ifs <;>
      simp only [JSNum.add_fin, JSNum.mul_fin, JSNum.div_fin_of_ne _ h12] <;> exact ih _

/-- C11: recurring monthly-equivalent normalization.  `totalMonthly` is the sum
over the recurring items of the monthly equivalent: `amount` for "monthly",
`amount*4` for "weekly", `amount/12` for "yearly", and `amount` for any other
frequency.  So 10 weekly contributes 40, 120 yearly contributes 10 and 50
monthly contributes 50. -/
theorem C11_recurring_monthly_equivalent (recurring : List RecurringExpenses.RecurringItem) :
    RecurringExpenses.totalMonthly recurring
      = fin ((recurring.map (fun item =>
          if item.frequency = "monthly" then item.amount
          else if item.frequency = "weekly" then item.amount * 4
          else if item.frequency = "yearly" then item.amount / 12
          else item.amount)).sum)
    ∧ RecurringExpenses.totalMonthly [⟨10, "weekly"⟩] = fin 40
    ∧ RecurringExpenses.totalMonthly [⟨120, "yearly"⟩] = fin 10
    ∧ RecurringExpenses.totalMonthly [⟨50, "monthly"⟩] = fin 50
    ∧ RecurringExpenses.totalMonthly [⟨30, "daily"⟩] = fin 30
    ∧ RecurringExpenses.totalMonthly [⟨10, "weekly"⟩, ⟨120, "yearly"⟩, ⟨50, "monthly"⟩]
        = fin 100 := by
  have h : ∀ items, RecurringExpenses.totalMonthly items = _ :=
    fun items => (totalMonthly_foldl items 0).trans (by rw [zero_add])
  have s1 : ¬ "weekly" = "monthly" := by decide
  have s2 : ¬ "yearly" = "monthly" := by decide
  have s3 : ¬ "yearly" = "weekly" := by decide
  have s4 : ¬ "daily" = "monthly" := by decide
  have s5 : ¬ "daily" = "weekly" := by decide
  have s6 : ¬ "daily" = "yearly" := by decide
  refine ⟨h recurring, ?_, ?_, ?_, ?_, ?_⟩ <;> rw [h] <;> norm_num [s1, s2, s3, s4, s5, s6]

/-- The quotient of the three days-until helpers on a parsed date: the
ceiling of the difference in days. -/
theorem ceil_days (target now : Int) :
    JSNum.ceil ((fin target - fin now) / fin (1000 * 60 * 60 * 24))
      = fin ⌈((target - now : ℤ) : ℚ) / 86400000⌉ := by
  have h : (1000 * 60 * 60 * 24 : ℚ) ≠ 0 := by norm_num
  rw [JSNum.sub_fin, JSNum.div_fin_of_ne _ h]
  simp only [JSNum.ceil]
  norm_num

theorem ceil_days_pos (target now : Int) :
    0 < ⌈((target - now : ℤ) : ℚ) / 86400000⌉ ↔ now < target := by
  rw [Int.ceil_pos]
  constructor
  · intro h
    have : (0 : ℚ) < ((target - now : ℤ) : ℚ) := by
      by_contra hn
      have := div_nonpos_of_nonpos_of_nonneg (not_lt.mp hn) (by norm_num : (0 : ℚ) ≤ 86400000)
      linarith
    have : (0 : ℤ) < target - now := by exact_mod_cast this
    omega
  · intro h
    apply div_pos _ (by norm_num)
    have : (0 : ℤ) < target - now := by omega
    exact_mod_cast this

theorem ceil_days_neg (target now : Int) :
    ⌈((target - now : ℤ) : ℚ) / 86400000⌉ < 0 ↔ target + 86400000 ≤ now := by
  rw [show (⌈((target - now : ℤ) : ℚ) / 86400000⌉ < 0) ↔
    (⌈((target - now : ℤ) : ℚ) / 86400000⌉ ≤ -1) from by omega, Int.ceil_le,
    div_le_iff₀ (by norm_num : (0 : ℚ) < 86400000)]
  constructor
  · intro h
    have : ((target - now : ℤ) : ℚ) ≤ ((-86400000 : ℤ) : ℚ) := by
      push_cast at h ⊢; linarith
    have : target - now ≤ -86400000 := by exact_mod_cast this
    omega
  · intro h
    have : target - now ≤ -86400000 := by omega
    have : ((target - now : ℤ) : ℚ) ≤ ((-86400000 : ℤ) : ℚ) := by exact_mod_cast this
    push_cast at this ⊢; linarith

theorem ceil_days_zero (target now : Int) :
    ⌈((target - now : ℤ) : ℚ) / 86400000⌉ = 0 ↔ target ≤ now ∧ now < target + 86400000 := by
  have hp := ceil_days_pos target now
  have hn := ceil_days_neg target now
  omega

theorem getDaysRemaining_debts_eq (env : DateEnv) (dueDate : String) (target : Int)
    (hd : dueDate ≠ "") (hp : env.parse dueDate = fin target) :
    Debts.getDaysRemaining env (some dueDate)
      = some (fin ⌈((target - env.now : ℤ) : ℚ) / 86400000⌉) := by
  simp only [Debts.getDaysRemaining, if_neg hd, hp, ceil_days]

theorem getDaysRemaining_goals_eq (env : DateEnv) (deadline : String) (target : Int)
    (hd : deadline ≠ "") (hp : env.parse deadline = fin target) :
    SavingsGoals.getDaysRemaining env (some deadline)
      = some (fin ⌈((target - env.now : ℤ) : ℚ) / 86400000⌉) := by
  simp only [SavingsGoals.getDaysRemaining, if_neg hd, hp, ceil_days]

theorem getDaysUntilDue_eq (env : DateEnv) (dueDate : String) (target : Int)
    (hd : dueDate ≠ "") (hp : env.parse dueDate = fin target) :
    RecurringExpenses.getDaysUntilDue env (some dueDate)
      = some (fin ⌈((target - env.now : ℤ) : ℚ) / 86400000⌉) := by
  simp only [RecurringExpenses.getDaysUntilDue, if_neg hd, hp, ceil_days]

/-- C12 as stated fails: a due date one hour in the past is overdue, and the
result is 0, not a negative number. -/
theorem C12_days_until_counterexample :
    (1704067200000 : Int) < 1704070800000
    ∧ Debts.getDaysRemaining ⟨1704070800000, fun _ => fin 1704067200000⟩ (some "2024-01-01")
        = some (fin 0)
    ∧ RecurringExpenses.getDaysUntilDue ⟨1704070800000, fun _ => fin 1704067200000⟩
        (some "2024-01-01") = some (fin 0)
    ∧ ¬ ((0 : ℚ) < 0) := by
  have hd : "2024-01-01" ≠ "" := by decide
  refine ⟨by norm_num, ?_, ?_, lt_irrefl _⟩
  · rw [getDaysRemaining_debts_eq ⟨1704070800000, fun _ => fin 1704067200000⟩ "2024-01-01"
      1704067200000 hd (by norm_num)]
    norm_num
  · rw [getDaysUntilDue_eq ⟨1704070800000, fun _ => fin 1704067200000⟩ "2024-01-01"
      1704067200000 hd (by norm_num)]
    norm_num

/-- C12 (amended): days until a date.  For a date set to the instant `target`
and the clock at `now` (integer milliseconds), `getDaysRemaining` and
`getDaysUntilDue` return the integer ceiling of `(target - now)/86400000`.  It
is positive exactly when `target` is after `now`, negative exactly when
`target` lies at least one full day (86400000 ms) before `now`, and 0 when
`target` is `now` or less than a day in the past.  With no date set the result
is `null`. -/
theorem C12_days_until (env : DateEnv) (dueDate : String) (target : Int)
    (hd : dueDate ≠ "") (hp : env.parse dueDate = fin target) :
    Debts.getDaysRemaining env (some dueDate)
        = some (fin ⌈((target - env.now : ℤ) : ℚ) / 86400000⌉)
    ∧ RecurringExpenses.getDaysUntilDue env (some dueDate)
        = some (fin ⌈((target - env.now : ℤ) : ℚ) / 86400000⌉)
    ∧ (0 < ⌈((target - env.now : ℤ) : ℚ) / 86400000⌉ ↔ env.now < target)
    ∧ (⌈((target - env.now : ℤ) : ℚ) / 86400000⌉ < 0 ↔ target + 86400000 ≤ env.now)
    ∧ (⌈((target - env.now : ℤ) : ℚ) / 86400000⌉ = 0 ↔
        target ≤ env.now ∧ env.now < target + 86400000)
    ∧ Debts.getDaysRemaining env none = none
    ∧ RecurringExpenses.getDaysUntilDue env none = none
    ∧ Debts.getDaysRemaining env (some "") = none
    ∧ RecurringExpenses.getDaysUntilDue env (some "") = none :=
  ⟨getDaysRemaining_debts_eq env dueDate target hd hp,
    getDaysUntilDue_eq env dueDate target hd hp,
    ceil_days_pos target env.now, ceil_days_neg target env.now, ceil_days_zero target env.now,
    rfl, rfl, rfl, rfl⟩

theorem C12_days_until_witness :
    Debts.getDaysRemaining ⟨1704067200000, fun _ => fin 1704326400000⟩ (some "2024-01-04")
      = some (fin ⌈(((1704326400000 : Int) - (1704067200000 : Int) : ℤ) : ℚ) / 86400000⌉) :=
  (C12_days_until ⟨1704067200000, fun _ => fin 1704326400000⟩ "2024-01-04" 1704326400000
    (by decide) (by norm_num)).1

/-- The ceiling of the days between an instant `t` milliseconds into a day and
23:59 of the following day. -/
theorem ceil_tomorrow_2359 (day t : Int) (h0 : 0 ≤ t) (h1 : t < 86400000) :
    ⌈((((day + 1) * 86400000 + 86340000) - (day * 86400000 + t) : ℤ) : ℚ) / 86400000⌉
      = if t < 86340000 then 2 else 1 := by
  have hx : (((day + 1) * 86400000 + 86340000) - (day * 86400000 + t) : ℤ)
      = 172740000 - t := by ring
  rw [hx]
  have ht0 : (0 : ℚ) ≤ (t : ℚ) := by exact_mod_cast h0
  have ht1 : (t : ℚ) < 86400000 := by exact_mod_cast h1
  split_ifs with h
  · have ht : (t : ℚ) < 86340000 := by exact_mod_cast h
    rw [Int.ceil_eq_iff]
    push_cast
    constructor
    · rw [lt_div_iff₀ (by norm_num)]; linarith
    · rw [div_le_iff₀ (by norm_num)]; linarith
  · have ht : (86340000 : ℚ) ≤ (t : ℚ) := by exact_mod_cast not_lt.mp h
    rw [Int.ceil_eq_iff]
    push_cast
    constructor
    · rw [lt_div_iff₀ (by norm_num)]; linarith
    · rw [div_le_iff₀ (by norm_num)]; linarith

/-- C13 as stated fails: at noon, a deadline of 23:59 on the following day is
35 hours 59 minutes away and the result is 2, not 1. -/
theorem C13_calendar_day_counterexample :
    SavingsGoals.getDaysRemaining ⟨43200000, fun _ => fin (86400000 + 86340000)⟩
        (some "1970-01-02T23:59") = some (fin 2)
    ∧ Debts.getDaysRemaining ⟨43200000, fun _ => fin (86400000 + 86340000)⟩
        (some "1970-01-02T23:59") = some (fin 2)
    ∧ fin 2 ≠ fin 1 := by
  have hd : "1970-01-02T23:59" ≠ "" := by decide
  have hc := ceil_tomorrow_2359 0 43200000 (by norm_num) (by norm_num)
  norm_num at hc
  refine ⟨?_, ?_, by simp⟩
  · rw [getDaysRemaining_goals_eq ⟨43200000, fun _ => fin (86400000 + 86340000)⟩ _
      (86400000 + 86340000) hd (by norm_num)]
    norm_num [hc]
  · rw [getDaysRemaining_debts_eq ⟨43200000, fun _ => fin (86400000 + 86340000)⟩ _
      (86400000 + 86340000) hd (by norm_num)]
    norm_num [hc]

/-- C13 (amended): a deadline at 23:59 of the calendar day after the day of
`now` (days of 86400000 ms, `t` the milliseconds of `now` into its day) yields
2 while `now` is before 23:59 of its day, and 1 from 23:59 on; it never yields
0.  The result is the ceiling of the elapsed time in days, not a difference of
calendar days. -/
theorem C13_calendar_day (env : DateEnv) (deadline : String) (day t : Int)
    (hd : deadline ≠ "") (hnow : env.now = day * 86400000 + t) (h0 : 0 ≤ t)
    (h1 : t < 86400000)
    (hp : env.parse deadline = fin (((day + 1) * 86400000 + 86340000 : ℤ) : ℚ)) :
    (t < 86340000 →
      SavingsGoals.getDaysRemaining env (some deadline) = some (fin 2)
      ∧ Debts.getDaysRemaining env (some deadline) = some (fin 2))
    ∧ (86340000 ≤ t →
      SavingsGoals.getDaysRemaining env (some deadline) = some (fin 1)
      ∧ Debts.getDaysRemaining env (some deadline) = some (fin 1))
    ∧ SavingsGoals.getDaysRemaining env (some deadline) ≠ some (fin 0)
    ∧ Debts.getDaysRemaining env (some deadline) ≠ some (fin 0) := by
  have hg := getDaysRemaining_goals_eq env deadline _ hd hp
  have hdb := getDaysRemaining_debts_eq env deadline _ hd hp
  have hc := ceil_tomorrow_2359 day t h0 h1
  rw [hnow] at hg hdb
  rw [hc] at hg hdb
  rw [hg, hdb]
  refine ⟨?_, ?_, ?_, ?_⟩
  · intro h
    simp [h]
  · intro h
    simp [not_lt.mpr h]
  · split_ifs <;> simp
  · split_ifs <;> simp

theorem C13_calendar_day_witness :
    SavingsGoals.getDaysRemaining
        ⟨86399000, fun _ => fin (((0 + 1) * 86400000 + 86340000 : ℤ) : ℚ)⟩
        (some "1970-01-02T23:59") = some (fin 1)
    ∧ Debts.getDaysRemaining
        ⟨86399000, fun _ => fin (((0 + 1) * 86400000 + 86340000 : ℤ) : ℚ)⟩
        (some "1970-01-02T23:59") = some (fin 1) :=
  (C13_calendar_day ⟨86399000, fun _ => fin (((0 + 1) * 86400000 + 86340000 : ℤ) : ℚ)⟩
    "1970-01-02T23:59" 0 86399000 (by decide) (by norm_num) (by norm_num) (by norm_num)
    rfl).2.1 (by norm_num)

/-! ## Categorization in `handleAddExpense` -/

namespace ExpenseTracker

/-- The requests of `handleAddExpense` when no explicit category is chosen and
a description is present, in terms of what the service answers. -/
theorem handleAddExpense_suggest (toLowerCase : String → String)
    (categorize : String → JSNum → Option String) (categories : List Category)
    (form : ExpenseForm) (hdesc : form.description ≠ "")
    (hcat : idTruthy form.category_id = false) :
    handleAddExpense toLowerCase categorize categories form =
      [ApiCall.categorizeExpense form.description form.amount,
        ApiCall.addExpense form.amount
          (match categorize form.description form.amount with
            | some category =>
              match categories.find?
                  (fun c => decide (toLowerCase c.name = toLowerCase category)) with
              | some c => if c.id ≠ 0 then some c.id else (categories[0]?).map Category.id
              | none => (categories[0]?).map Category.id
            | none => (categories[0]?).map Category.id)
          form.description] := by
  unfold handleAddExpense
  simp only [hdesc, hcat, ne_eq, not_false_eq_true, and_self, if_true]
  cases hc : categorize form.description form.amount with
  | none => simp [hcat]
  | some category =>
    simp only []
    cases hf : categories.find? (fun c => decide (toLowerCase c.name = toLowerCase category)) with
    | none => simp [hcat]
    | some c =>
      by_cases h0 : c.id = 0 <;> simp [idTruthy, h0]

/-- The requests of `handleAddExpense` when the category id of the form is
truthy, or the description is empty: the service is not called. -/
theorem handleAddExpense_direct (toLowerCase : String → String)
    (categorize : String → JSNum → Option String) (categories : List Category)
    (form : ExpenseForm) (h : form.description = "" ∨ idTruthy form.category_id = true) :
    handleAddExpense toLowerCase categorize categories form =
      [ApiCall.addExpense form.amount
        (if idTruthy form.category_id then form.category_id
          else (categories[0]?).map Category.id) form.description] := by
  unfold handleAddExpense
  rcases h with h | h
  · simp [h]
  · simp [h]

/-- C14: categorization fallback in `handleAddExpense`.  With a non-empty
category list and no explicit category chosen (the category id of the form is
NaN or 0), when the suggestion of the heuristic matches no category name, or
the call fails, or there is no description to send, the last request is
`addExpense` with the id of the first category of the list: the expense is
submitted, with a category. -/
theorem C14_categorization_fallback (toLowerCase : String → String)
    (categorize : String → JSNum → Option String) (first : Category) (rest : List Category)
    (form : ExpenseForm) (hcat : form.category_id = none ∨ form.category_id = some 0) :
    (form.description ≠ "" → categorize form.description form.amount = none →
      handleAddExpense toLowerCase categorize (first :: rest) form =
        [ApiCall.categorizeExpense form.description form.amount,
          ApiCall.addExpense form.amount (some first.id) form.description])
    ∧ (∀ suggestion : String, form.description ≠ "" →
        categorize form.description form.amount = some suggestion →
        (∀ c ∈ first :: rest, toLowerCase c.name ≠ toLowerCase suggestion) →
        handleAddExpense toLowerCase categorize (first :: rest) form =
          [ApiCall.categorizeExpense form.description form.amount,
            ApiCall.addExpense form.amount (some first.id) form.description])
    ∧ (form.description = "" →
        handleAddExpense toLowerCase categorize (first :: rest) form =
          [ApiCall.addExpense form.amount (some first.id) form.description]) := by
  have hfalsy : idTruthy form.category_id = false := by
    rcases hcat with h | h <;> simp [h, idTruthy]
  refine ⟨?_, ?_, ?_⟩
  · intro hdesc hfail
    rw [handleAddExpense_suggest _ _ _ _ hdesc hfalsy, hfail]
    simp
  · intro suggestion hdesc hsome hno
    have hfind : (first :: rest).find?
        (fun c => decide (toLowerCase c.name = toLowerCase suggestion)) = none := by
      rw [List.find?_eq_none]
      intro c hc
      simpa using hno c hc
    rw [handleAddExpense_suggest _ _ _ _ hdesc hfalsy, hsome]
    simp only [hfind]
    simp
  · intro hdesc
    rw [handleAddExpense_direct _ _ _ _ (Or.inl hdesc), hfalsy]
    simp

theorem C14_categorization_fallback_witness :
    handleAddExpense asciiLower (fun _ _ => some "Groceries")
        [⟨3, "Food"⟩, ⟨4, "Transport"⟩] ⟨fin 12, none, "weekly shop"⟩ =
      [ApiCall.categorizeExpense "weekly shop" (fin 12),
        ApiCall.addExpense (fin 12) (some 3) "weekly shop"] :=
  (C14_categorization_fallback asciiLower (fun _ _ => some "Groceries") ⟨3, "Food"⟩
    [⟨4, "Transport"⟩] ⟨fin 12, none, "weekly shop"⟩ (Or.inl rfl)).2.1 "Groceries"
    (by decide) rfl (by decide)

/-- C15: categorization is skipped for explicit categories.  When the category
id of the form parses to a non-zero id, `handleAddExpense` sends the single
request `addExpense` with exactly that id: the service is not called, and the
requests are the same whatever the description and whatever the service would
have answered. -/
theorem C15_explicit_category_skips_heuristic (toLowerCase : String → String)
    (categorize : String → JSNum → Option String) (categories : List Category)
    (form : ExpenseForm) (id : Int) (hid : form.category_id = some id) (hne : id ≠ 0) :
    handleAddExpense toLowerCase categorize categories form =
      [ApiCall.addExpense form.amount (some id) form.description]
    ∧ (∀ description amount,
        ApiCall.categorizeExpense description amount ∉
          handleAddExpense toLowerCase categorize categories form)
    ∧ (∀ other : String → JSNum → Option String,
        handleAddExpense toLowerCase other categories form =
          handleAddExpense toLowerCase categorize categories form) := by
  have htruthy : idTruthy form.category_id = true := by simp [hid, idTruthy, hne]
  have h : ∀ f : String → JSNum → Option String,
      handleAddExpense toLowerCase f categories form =
        [ApiCall.addExpense form.amount (some id) form.description] := by
    intro f
    rw [handleAddExpense_direct _ _ _ _ (Or.inr htruthy), htruthy, hid]
    simp
  refine ⟨h categorize, ?_, ?_⟩
  · intro description amount
    rw [h categorize]
    simp
  · intro other
    rw [h other, h categorize]

theorem C15_explicit_category_skips_heuristic_witness :
    handleAddExpense asciiLower (fun _ _ => some "Food")
        [⟨3, "Food"⟩, ⟨4, "Transport"⟩] ⟨fin 12, some 4, "weekly shop"⟩ =
      [ApiCall.addExpense (fin 12) (some 4) "weekly shop"] :=
  (C15_explicit_category_skips_heuristic asciiLower (fun _ _ => some "Food")
    [⟨3, "Food"⟩, ⟨4, "Transport"⟩] ⟨fin 12, some 4, "weekly shop"⟩ 4 rfl (by decide)).1

/-- C16: suggestion matching in `handleAddExpense` is a case-insensitive exact
match.  With no explicit category and a description present, the suggested
name selects the category `c` exactly when `c` is the first category whose
lower-cased name equals the lower-cased suggestion, and the expense is then
submitted with the id of `c` (an id other than 0).  A suggestion whose
lower-cased form equals no lower-cased category name, such as a prefix, a
substring or a near-miss of a name, selects nothing and the first category is
used. -/
theorem C16_suggestion_matching (toLowerCase : String → String)
    (categorize : String → JSNum → Option String) (categories : List Category)
    (form : ExpenseForm) (suggestion : String)
    (hcat : form.category_id = none ∨ form.category_id = some 0)
    (hdesc : form.description ≠ "")
    (hs : categorize form.description form.amount = some suggestion) :
    (∀ c : Category,
      categories.find? (fun c => decide (toLowerCase c.name = toLowerCase suggestion)) = some c
        ↔ toLowerCase c.name = toLowerCase suggestion
          ∧ ∃ before after, categories = before ++ c :: after
            ∧ ∀ x ∈ before, toLowerCase x.name ≠ toLowerCase suggestion)
    ∧ (∀ c : Category,
      categories.find? (fun c => decide (toLowerCase c.name = toLowerCase suggestion)) = some c
        → c.id ≠ 0 →
        handleAddExpense toLowerCase categorize categories form =
          [ApiCall.categorizeExpense form.description form.amount,
            ApiCall.addExpense form.amount (some c.id) form.description])
    ∧ ((∀ c ∈ categories, toLowerCase c.name ≠ toLowerCase suggestion) →
        categories.find? (fun c => decide (toLowerCase c.name = toLowerCase suggestion)) = none
        ∧ handleAddExpense toLowerCase categorize categories form =
          [ApiCall.categorizeExpense form.description form.amount,
            ApiCall.addExpense form.amount ((categories[0]?).map Category.id)
              form.description])
    ∧ (handleAddExpense asciiLower (fun _ _ => some "food")
          [⟨3, "Transport"⟩, ⟨4, "Food"⟩] ⟨fin 12, none, "lunch"⟩ =
        [ApiCall.categorizeExpense "lunch" (fin 12), ApiCall.addExpense (fin 12) (some 4) "lunch"]
      ∧ handleAddExpense asciiLower (fun _ _ => some "Foo")
          [⟨3, "Transport"⟩, ⟨4, "Food"⟩] ⟨fin 12, none, "lunch"⟩ =
        [ApiCall.categorizeExpense "lunch" (fin 12), ApiCall.addExpense (fin 12) (some 3) "lunch"]
      ∧ handleAddExpense asciiLower (fun _ _ => some "oo")
          [⟨3, "Transport"⟩, ⟨4, "Food"⟩] ⟨fin 12, none, "lunch"⟩ =
        [ApiCall.categorizeExpense "lunch" (fin 12), ApiCall.addExpense (fin 12) (some 3) "lunch"]
      ∧ handleAddExpense asciiLower (fun _ _ => some "Fod")
          [⟨3, "Transport"⟩, ⟨4, "Food"⟩] ⟨fin 12, none, "lunch"⟩ =
        [ApiCall.categorizeExpense "lunch" (fin 12),
          ApiCall.addExpense (fin 12) (some 3) "lunch"]) := by
  have hfalsy : idTruthy form.category_id = false := by
    rcases hcat with h | h <;> simp [h, idTruthy]
  have hreq := handleAddExpense_suggest toLowerCase categorize categories form hdesc hfalsy
  rw [hs] at hreq
  have hex : ∀ (suggested : String) (expected : Option Int),
      (match ([⟨3, "Transport"⟩, ⟨4, "Food"⟩] : List Category).find?
          (fun c => decide (asciiLower c.name = asciiLower suggested)) with
        | some c => if c.id ≠ 0 then some c.id
            else (([⟨3, "Transport"⟩, ⟨4, "Food"⟩] : List Category)[0]?).map Category.id
        | none => (([⟨3, "Transport"⟩, ⟨4, "Food"⟩] : List Category)[0]?).map Category.id)
        = expected →
      handleAddExpense asciiLower (fun _ _ => some suggested)
          [⟨3, "Transport"⟩, ⟨4, "Food"⟩] ⟨fin 12, none, "lunch"⟩ =
        [ApiCall.categorizeExpense "lunch" (fin 12),
          ApiCall.addExpense (fin 12) expected "lunch"] := by
    intro suggested expected h
    rw [handleAddExpense_suggest asciiLower (fun _ _ => some suggested) _
      ⟨fin 12, none, "lunch"⟩ (by decide) rfl]
    simp only [h]
  refine ⟨?_, ?_, ?_, hex "food" (some 4) (by decide), hex "Foo" (some 3) (by decide),
    hex "oo" (some 3) (by decide), hex "Fod" (some 3) (by decide)⟩
  · intro c
    rw [List.find?_eq_some]
    simp
  · intro c hc h0
    rw [hreq]
    simp only [hc, h0, ne_eq, not_false_eq_true, if_true]
  · intro hno
    have hfind : categories.find?
        (fun c => decide (toLowerCase c.name = toLowerCase suggestion)) = none := by
      rw [List.find?_eq_none]
      intro c hc
      simpa using hno c hc
    refine ⟨hfind, ?_⟩
    rw [hreq]
    simp only [hfind]

theorem C16_suggestion_matching_witness :
    handleAddExpense asciiLower (fun _ _ => some "TRANSPORT")
        [⟨3, "Food"⟩, ⟨4, "Transport"⟩, ⟨5, "transport"⟩] ⟨fin 12, none, "bus ticket"⟩ =
      [ApiCall.categorizeExpense "bus ticket" (fin 12),
        ApiCall.addExpense (fin 12) (some (4 : Int)) "bus ticket"] :=
  (C16_suggestion_matching asciiLower (fun _ _ => some "TRANSPORT")
    [⟨3, "Food"⟩, ⟨4, "Transport"⟩, ⟨5, "transport"⟩] ⟨fin 12, none, "bus ticket"⟩
    "TRANSPORT" (Or.inl rfl) (by decide) rfl).2.1 ⟨4, "Transport"⟩ (by decide) (by decide)

end ExpenseTracker

/-! ## Messages, thresholds and zero divisors -/

namespace Insights

/-- The momentum block on a series of at least two entries, in terms of the
two means. -/
theorem spendingTrendInsight_eq (acc : List Insight) (daily_totals : List DailyTotal)
    (h2 : 2 ≤ daily_totals.length) :
    spendingTrendInsight acc daily_totals =
      if 1.2 * earlierMean daily_totals < recentMean daily_totals then
        acc ++ [{
          type := "warning"
          icon := Icon.TrendingUp
          title := "Spending Increasing"
          message := "Your daily spending has increased by " ++
            toFixed ((fin (recentMean daily_totals) / fin (earlierMean daily_totals) - fin 1)
              * fin 100) 0 ++
            "% recently. Consider reviewing your expenses." }]
      else if recentMean daily_totals < 0.8 * earlierMean daily_totals then
        acc ++ [{
          type := "success"
          icon := Icon.TrendingDown
          title := "Great Job!"
          message := "Your spending has decreased by " ++
            toFixed ((fin 1 - fin (recentMean daily_totals) / fin (earlierMean daily_totals))
              * fin 100) 0 ++ "%. Keep it up!" }]
      else acc := by
  obtain ⟨h1, h3⟩ := momentum_averages daily_totals h2
  unfold spendingTrendInsight
  rw [if_pos (by omega)]
  simp only [h1, h3, recentMean, earlierMean, JSNum.mul_fin, JSNum.gt_fin, JSNum.lt_fin,
    decide_eq_true_eq, mul_comm _ (1.2 : ℚ), mul_comm _ (0.8 : ℚ)]

theorem spendingTrendInsight_short (acc : List Insight) (daily_totals : List DailyTotal)
    (h : daily_totals.length < 2) : spendingTrendInsight acc daily_totals = acc := by
  unfold spendingTrendInsight
  rw [if_neg (by omega)]

/-- The result of `generateInsights` as the four blocks run on an empty array
and concatenated. -/
theorem generateInsights_eq_append (trendsData : Trend) (summaryData : Summary) :
    generateInsights trendsData summaryData =
      spendingTrendInsight [] trendsData.daily_totals
        ++ budgetInsights [] summaryData.category_spending summaryData.category_budgets
        ++ topCategoryInsight [] trendsData.category_trends
        ++ savingsInsight [] summaryData.total_income summaryData.total_expenses := by
  unfold generateInsights
  simp only []
  rw [savingsInsight_append, topCategoryInsight_append, budgetInsights_eq_flatMap,
    budgetInsights_eq_flatMap [], List.nil_append]

end Insights

namespace JSNum

theorem digitChar_isDigit (m : Nat) (h : m < 10) : (Nat.digitChar m).isDigit = true := by
  interval_cases m <;> decide

theorem toDigitsCore_isDigit (fuel : Nat) : ∀ (n : Nat) (ds : List Char),
    (∀ c ∈ ds, c.isDigit = true) → ∀ c ∈ Nat.toDigitsCore 10 fuel n ds, c.isDigit = true := by
  induction fuel with
  | zero => intro n ds h; simpa [Nat.toDigitsCore] using h
  | succ fuel ih =>
    intro n ds h
    have hd : (Nat.digitChar (n % 10)).isDigit = true :=
      digitChar_isDigit _ (Nat.mod_lt _ (by norm_num))
    have hds : ∀ c ∈ Nat.digitChar (n % 10) :: ds, c.isDigit = true := by
      intro c hc
      rcases List.mem_cons.mp hc with rfl | hc
      · exact hd
      · exact h c hc
    simp only [Nat.toDigitsCore]
    split_ifs
    · exact hds
    · exact ih _ _ hds

theorem toDigits_isDigit (n : Nat) : ∀ c ∈ Nat.toDigits 10 n, c.isDigit = true :=
  toDigitsCore_isDigit _ _ _ (by simp)

/-- With no decimals asked for, the digits hold no decimal point. -/
theorem fixedDigits_zero (n : Nat) : ∀ c ∈ fixedDigits n 0, c.isDigit = true := by
  intro c hc
  simp only [fixedDigits, if_true] at hc
  rcases List.mem_append.mp hc with h | h
  · rw [List.mem_replicate] at h
    rw [h.2]; decide
  · exact toDigits_isDigit n c h

/-- With `f > 0` decimals asked for, the digits are an integer part, a point,
and exactly `f` digits. -/
theorem fixedDigits_point (n f : Nat) (hf : 0 < f) :
    ∃ ip fp : List Char, fixedDigits n f = ip ++ '.' :: fp ∧ fp.length = f ∧ 0 < ip.length
      ∧ (∀ c ∈ ip, c.isDigit = true) ∧ (∀ c ∈ fp, c.isDigit = true) := by
  obtain ⟨m, hm⟩ : ∃ m, m = List.replicate (f + 1 - (Nat.toDigits 10 n).length) '0'
      ++ Nat.toDigits 10 n := ⟨_, rfl⟩
  have hlen : f + 1 ≤ m.length := by
    rw [hm, List.length_append, List.length_replicate]; omega
  have hdig : ∀ c ∈ m, c.isDigit = true := by
    intro c hc
    rw [hm] at hc
    rcases List.mem_append.mp hc with h | h
    · rw [List.mem_replicate] at h
      rw [h.2]; decide
    · exact toDigits_isDigit n c h
  refine ⟨m.take (m.length - f), m.drop (m.length - f), ?_, ?_, ?_, ?_, ?_⟩
  · simp only [fixedDigits, if_neg (Nat.pos_iff_ne_zero.mp hf), ← hm]
  · rw [List.length_drop]; omega
  · rw [List.length_take]; omega
  · intro c hc
    exact hdig c (List.mem_of_mem_take hc)
  · intro c hc
    exact hdig c (List.mem_of_mem_drop hc)

/-- The text of `toFixed(f)` on a finite number, for `f > 0`: an optional minus
sign, digits, a point, and exactly `f` digits. -/
theorem toFixed_decimals (q : ℚ) (f : Nat) (hf : 0 < f) :
    ∃ (sign : String) (ip fp : List Char),
      toFixed (fin q) f = sign ++ String.mk (ip ++ '.' :: fp) ∧ (sign = "" ∨ sign = "-")
        ∧ fp.length = f ∧ 0 < ip.length
        ∧ (∀ c ∈ ip, c.isDigit = true) ∧ (∀ c ∈ fp, c.isDigit = true) := by
  obtain ⟨ip, fp, h, h1, h2, h3, h4⟩ := fixedDigits_point ⌊|q| * 10 ^ f + 1 / 2⌋.toNat f hf
  refine ⟨if q < 0 then "-" else "", ip, fp, ?_, ?_, h1, h2, h3, h4⟩
  · simp only [toFixed, h]
  · split_ifs
    · exact Or.inr rfl
    · exact Or.inl rfl

/-- The text of `toFixed(0)` on a finite number: an optional minus sign and
digits, with no decimal point. -/
theorem toFixed_integer (q : ℚ) :
    ∃ (sign : String) (ds : List Char),
      toFixed (fin q) 0 = sign ++ String.mk ds ∧ (sign = "" ∨ sign = "-")
        ∧ (∀ c ∈ ds, c.isDigit = true) := by
  refine ⟨if q < 0 then "-" else "", _, rfl, ?_, fixedDigits_zero _⟩
  split_ifs
  · exact Or.inr rfl
  · exact Or.inl rfl

/-- The text of `toFixed(f)` on a number `q >= 0`, from the integer `n` nearest
to `q * 10^f`. -/
theorem toFixed_nonneg (q : ℚ) (f n : Nat) (hq : 0 ≤ q) (h1 : (n : ℚ) ≤ q * 10 ^ f + 1 / 2)
    (h2 : q * 10 ^ f + 1 / 2 < n + 1) : toFixed (fin q) f = String.mk (fixedDigits n f) := by
  have hfloor : ⌊|q| * 10 ^ f + 1 / 2⌋ = (n : ℤ) := by
    rw [abs_of_nonneg hq, Int.floor_eq_iff]
    exact ⟨by exact_mod_cast h1, by exact_mod_cast h2⟩
  simp only [toFixed, hfloor, Int.toNat_ofNat, if_neg (not_lt.mpr hq)]
  rfl

end JSNum

namespace Insights

/-- C20: no short-circuit between insight rules.  For the input below
`generateInsights` emits a momentum insight, a budget insight, the Top
Spending insight and a savings insight together, in this order; and for every
input the output is the concatenation of what the four rules emit on their own,
so that the firing of one rule never suppresses another. -/
theorem C20_no_short_circuit :
    generateInsights
        ⟨[⟨"Food", 250, 3⟩],
          [⟨"05-01", 10⟩, ⟨"05-02", 0⟩, ⟨"05-03", 0⟩, ⟨"05-04", 0⟩, ⟨"05-05", 0⟩,
            ⟨"05-06", 0⟩, ⟨"05-07", 0⟩, ⟨"05-08", 50⟩]⟩
        ⟨1000, 250, [("Food", 250)], [("Food", 200)]⟩ =
      [{ type := "warning"
         icon := Icon.TrendingUp
         title := "Spending Increasing"
         message :=
          "Your daily spending has increased by 400% recently. Consider reviewing your expenses." },
       { type := "alert"
         icon := Icon.AlertCircle
         title := "Over Budget"
         message := "You've exceeded your Food budget by $50.00" },
       { type := "info"
         icon := Icon.Lightbulb
         title := "Top Spending"
         message := "Food is your biggest expense at $250.00 (3 transactions)" },
       { type := "success"
         icon := Icon.TrendingUp
         title := "Excellent Savings!"
         message := "You're saving 75.0% of your income. That's fantastic!" }]
    ∧ ∀ (trendsData : Trend) (summaryData : Summary),
        generateInsights trendsData summaryData =
          spendingTrendInsight [] trendsData.daily_totals
            ++ budgetInsights [] summaryData.category_spending summaryData.category_budgets
            ++ topCategoryInsight [] trendsData.category_trends
            ++ savingsInsight [] summaryData.total_income summaryData.total_expenses := by
  refine ⟨?_, generateInsights_eq_append⟩
  have he : earlierMean [⟨"05-01", 10⟩, ⟨"05-02", 0⟩, ⟨"05-03", 0⟩, ⟨"05-04", 0⟩,
      ⟨"05-05", 0⟩, ⟨"05-06", 0⟩, ⟨"05-07", 0⟩, ⟨"05-08", 50⟩] = 10 / 7 := by
    norm_num [earlierMean]
  have hr : recentMean [⟨"05-01", 10⟩, ⟨"05-02", 0⟩, ⟨"05-03", 0⟩, ⟨"05-04", 0⟩,
      ⟨"05-05", 0⟩, ⟨"05-06", 0⟩, ⟨"05-07", 0⟩, ⟨"05-08", 50⟩] = 50 / 7 := by
    norm_num [recentMean]
  have hpct : (fin (50 / 7) / fin (10 / 7) - fin 1) * fin 100 = fin 400 := by
    rw [JSNum.div_fin_of_ne _ (by norm_num), JSNum.sub_fin, JSNum.mul_fin]
    norm_num
  have h400 : toFixed (fin 400) 0 = "400" :=
    (JSNum.toFixed_nonneg _ 0 400 (by norm_num) (by norm_num) (by norm_num)).trans (by decide)
  have h250 : toFixed (fin 250) 2 = "250.00" :=
    (JSNum.toFixed_nonneg _ 2 25000 (by norm_num) (by norm_num) (by norm_num)).trans
      (by decide)
  have h75 : toFixed (fin ((1000 - 250) / 1000 * 100)) 1 = "75.0" :=
    (JSNum.toFixed_nonneg _ 1 750 (by norm_num) (by norm_num) (by norm_num)).trans (by decide)
  rw [generateInsights_eq_append]
  simp only []
  rw [spendingTrendInsight_eq _ _ (by simp), he, hr, if_pos (by norm_num), hpct, h400,
    budgetInsights, List.foldl_cons, List.foldl_nil,
    budgetInsight_over [("Food", 200)] [] "Food" 250 200 (by simp [List.lookup])
      (by norm_num) (by norm_num), toFixed_overage_50,
    topCategoryInsight_cons, h250,
    savingsInsight_eq, if_pos (by norm_num), if_neg (by norm_num), if_pos (by norm_num), h75]
  decide

end Insights

/-! ## Income, flags and banners -/

theorem totalIncome_foldl (income : List BudgetManager.IncomeEntry) (a : ℚ) :
    income.foldl (fun sum item => sum + fin item.amount) (fin a)
      = fin (a + (income.map BudgetManager.IncomeEntry.amount).sum) := by
  induction income generalizing a with
  | nil => simp
  | cons x xs ih =>
    rw [List.foldl_cons, JSNum.add_fin, ih, List.map_cons, List.sum_cons, add_assoc]

/-- C22: income is always in-window and un-normalized.  `totalIncome` is the
plain sum of the amounts of the income entries the store returned: it depends
on the amounts alone, not on the recurrence period or the source of an entry,
so that a weekly entry counts like a monthly entry of equal amount.  The
request `api.getIncome()` has no window token. -/
theorem C22_total_income (income income' : List BudgetManager.IncomeEntry)
    (h : income'.map BudgetManager.IncomeEntry.amount
      = income.map BudgetManager.IncomeEntry.amount) :
    BudgetManager.totalIncome income
        = fin (income.map BudgetManager.IncomeEntry.amount).sum
    ∧ BudgetManager.totalIncome income' = BudgetManager.totalIncome income
    ∧ BudgetManager.totalIncome [⟨100, "Job", "weekly"⟩, ⟨250, "Rent", "monthly"⟩]
        = BudgetManager.totalIncome [⟨100, "Job", "monthly"⟩, ⟨250, "Rent", "monthly"⟩]
    ∧ BudgetManager.totalIncome [⟨100, "Job", "weekly"⟩, ⟨250, "Rent", "monthly"⟩] = fin 350
    ∧ BudgetManager.getIncome = "/api/income" := by
  have hsum : ∀ l, BudgetManager.totalIncome l
      = fin (l.map BudgetManager.IncomeEntry.amount).sum :=
    fun l => (totalIncome_foldl l 0).trans (by rw [zero_add])
  refine ⟨hsum income, by rw [hsum, hsum, h], by rw [hsum, hsum]; rfl, ?_, by decide⟩
  rw [hsum]
  norm_num

theorem C22_total_income_witness :
    BudgetManager.totalIncome [⟨100, "Job", "weekly"⟩]
      = BudgetManager.totalIncome [⟨100, "Salary", "monthly"⟩] :=
  (C22_total_income [⟨100, "Salary", "monthly"⟩] [⟨100, "Job", "weekly"⟩] rfl).2.1

/-! ## Momentum on short and on positive series -/

namespace Insights

theorem means_short (daily_totals : List DailyTotal) (h7 : daily_totals.length ≤ 7) :
    recentMean daily_totals = earlierMean daily_totals := by
  unfold recentMean earlierMean
  have hmin : min 7 daily_totals.length = daily_totals.length := by omega
  rw [hmin, Nat.sub_self, List.drop_zero, List.take_length]

theorem earlierMean_nonneg (daily_totals : List DailyTotal)
    (h : ∀ x ∈ daily_totals, 0 ≤ x.amount) : 0 ≤ earlierMean daily_totals := by
  unfold earlierMean
  apply div_nonneg _ (Nat.cast_nonneg _)
  apply List.sum_nonneg
  intro a ha
  obtain ⟨x, hx, rfl⟩ := List.mem_map.mp ha
  exact h x (List.mem_of_mem_take hx)

/-- C23: momentum is silent on short series.  For a series of 2 to 7 entries
with non-negative amounts the windows `slice(-7)` and `slice(0, 7)` are both
the whole series, the two averages are equal, and no momentum insight is
emitted: `generateInsights` returns what it returns with no daily totals. -/
theorem C23_momentum_silent_on_short_series (acc : List Insight)
    (daily_totals : List DailyTotal) (category_trends : List CategoryTrend)
    (summaryData : Summary) (h2 : 2 ≤ daily_totals.length) (h7 : daily_totals.length ≤ 7)
    (hnn : ∀ x ∈ daily_totals, 0 ≤ x.amount) :
    slice daily_totals (-7) none = slice daily_totals 0 (some 7)
    ∧ slice daily_totals (-7) none = daily_totals
    ∧ sumAmounts (slice daily_totals (-7) none) / fin (slice daily_totals (-7) none).length
        = sumAmounts (slice daily_totals 0 (some 7))
            / fin (slice daily_totals 0 (some 7)).length
    ∧ spendingTrendInsight acc daily_totals = acc
    ∧ generateInsights ⟨category_trends, daily_totals⟩ summaryData
        = generateInsights ⟨category_trends, []⟩ summaryData := by
  have hmin : min 7 daily_totals.length = daily_totals.length := by omega
  have hs1 : slice daily_totals (-7) none = daily_totals := by
    rw [slice_last7, hmin, Nat.sub_self, List.drop_zero]
  have hs2 : slice daily_totals 0 (some 7) = daily_totals := by
    rw [slice_first7, hmin, List.take_length]
  have hsilent : ∀ acc', spendingTrendInsight acc' daily_totals = acc' := by
    intro acc'
    have hE := earlierMean_nonneg daily_totals hnn
    rw [spendingTrendInsight_eq _ _ h2, means_short _ h7, if_neg (by linarith),
      if_neg (by linarith)]
  refine ⟨by rw [hs1, hs2], hs1, by rw [hs1, hs2], hsilent acc, ?_⟩
  rw [generateInsights_eq_append, generateInsights_eq_append, hsilent]
  rfl

theorem C23_momentum_silent_on_short_series_witness :
    spendingTrendInsight [] [⟨"05-01", 10⟩, ⟨"05-02", 500⟩, ⟨"05-03", 0⟩] = [] :=
  (C23_momentum_silent_on_short_series [] [⟨"05-01", 10⟩, ⟨"05-02", 500⟩, ⟨"05-03", 0⟩] []
    ⟨0, 0, [], []⟩ (by decide) (by decide)
    (by
      intro x hx
      simp only [List.mem_cons, List.mem_singleton, List.not_mem_nil, or_false] at hx
      rcases hx with rfl | rfl | rfl <;> norm_num)).2.2.2.1

end Insights

/-! ## Overdue flag, banners and portfolio return -/

theorem ceil_days_le_seven (target now : Int) :
    ⌈((target - now : ℤ) : ℚ) / 86400000⌉ ≤ 7 ↔ target - now ≤ 7 * 86400000 := by
  rw [Int.ceil_le, div_le_iff₀ (by norm_num : (0 : ℚ) < 86400000)]
  constructor
  · intro h
    have : ((target - now : ℤ) : ℚ) ≤ ((7 * 86400000 : ℤ) : ℚ) := by
      push_cast at h ⊢; linarith
    exact_mod_cast this
  · intro h
    have : ((target - now : ℤ) : ℚ) ≤ ((7 * 86400000 : ℤ) : ℚ) := by exact_mod_cast h
    push_cast at this ⊢; linarith

theorem isOverdue_some_fin (c : Int) :
    Debts.isOverdue (some (fin c)) = true ↔ c < 0 := by
  simp [Debts.isOverdue]

theorem isDueSoon_some_fin (c : Int) :
    RecurringExpenses.isDueSoon (some (fin c)) = true ↔ c ≤ 7 ∧ 0 ≤ c := by
  simp only [RecurringExpenses.isDueSoon, JSNum.le_fin, JSNum.ge_fin, Bool.and_eq_true,
    decide_eq_true_eq]
  constructor
  · rintro ⟨h1, h2⟩
    exact ⟨by exact_mod_cast h1, by exact_mod_cast h2⟩
  · rintro ⟨h1, h2⟩
    exact ⟨by exact_mod_cast h1, by exact_mod_cast h2⟩

/-- C26: the overdue flag lags by up to a day.  For a debt whose due date is
the instant `target`, `isOverdue` holds exactly when `target` is at least one
full day (86400000 ms) before `now`; a due date that passed less than 24 hours
ago yields 0 and is not flagged.  A recurring item is "Due Soon" exactly when
`-1 day < due - now <= 7 days`. -/
theorem C26_overdue_flag_lags (env : DateEnv) (dueDate : String) (target : Int)
    (hd : dueDate ≠ "") (hp : env.parse dueDate = fin target) :
    (Debts.isOverdue (Debts.getDaysRemaining env (some dueDate)) = true
        ↔ target + 86400000 ≤ env.now)
    ∧ (target < env.now → env.now < target + 86400000 →
        Debts.getDaysRemaining env (some dueDate) = some (fin 0)
        ∧ Debts.isOverdue (Debts.getDaysRemaining env (some dueDate)) = false)
    ∧ (RecurringExpenses.isDueSoon (RecurringExpenses.getDaysUntilDue env (some dueDate)) = true
        ↔ -86400000 < target - env.now ∧ target - env.now ≤ 7 * 86400000)
    ∧ Debts.isOverdue (Debts.getDaysRemaining env none) = false
    ∧ RecurringExpenses.isDueSoon (RecurringExpenses.getDaysUntilDue env none) = false := by
  have hneg := ceil_days_neg target env.now
  have hzero := ceil_days_zero target env.now
  have hle := ceil_days_le_seven target env.now
  rw [getDaysRemaining_debts_eq env dueDate target hd hp,
    getDaysUntilDue_eq env dueDate target hd hp, isOverdue_some_fin, isDueSoon_some_fin]
  refine ⟨hneg, ?_, ?_, rfl, rfl⟩
  · intro h1 h2
    have h0 : ⌈((target - env.now : ℤ) : ℚ) / 86400000⌉ = 0 := hzero.mpr ⟨by omega, h2⟩
    rw [h0]
    exact ⟨by simp, by simp [Debts.isOverdue]⟩
  · constructor
    · rintro ⟨h1, h2⟩
      exact ⟨by omega, hle.mp h1⟩
    · rintro ⟨h1, h2⟩
      exact ⟨hle.mpr h2, by omega⟩

theorem C26_overdue_flag_lags_witness :
    Debts.getDaysRemaining ⟨1704070800000, fun _ => fin ((1704067200000 : ℤ) : ℚ)⟩
        (some "2024-01-01") = some (fin 0)
    ∧ Debts.isOverdue (Debts.getDaysRemaining
        ⟨1704070800000, fun _ => fin ((1704067200000 : ℤ) : ℚ)⟩ (some "2024-01-01")) = false :=
  (C26_overdue_flag_lags ⟨1704070800000, fun _ => fin ((1704067200000 : ℤ) : ℚ)⟩ "2024-01-01"
    1704067200000 (by decide) rfl).2.1 (by norm_num) (by norm_num)

theorem goal_progress_eq (current target : ℚ) (ht : 0 < target) :
    SavingsGoals.calculateProgress (fin current) (fin target)
      = fin (min (current / target * 100) 100) := by
  simp [SavingsGoals.calculateProgress, JSNum.div_fin_of_ne _ (ne_of_gt ht), JSNum.min_fin]

theorem addOnBlur_nonneg (goal : SavingsGoals.Goal) (added : ℚ) (h : 0 ≤ added) :
    SavingsGoals.addOnBlur goal (fin added)
      = some ⟨goal.id, fin (goal.current_amount + added)⟩ := by
  simp [SavingsGoals.addOnBlur, h, SavingsGoals.handleUpdateProgress, parseFloat]

/-- C28: the banner "Goal Achieved!".  For a goal with `target > 0` the banner
condition `progress >= 100` holds exactly when `current >= target`.  Adding a
non-negative amount sends `current + added` as the new current amount: the
progress does not decrease, and a current amount that was not negative stays
so.  A negative or non-numeric entry sends nothing. -/
theorem C28_goal_achieved_banner (goal : SavingsGoals.Goal) (added : ℚ)
    (ht : 0 < goal.target_amount) :
    (SavingsGoals.goalAchieved
        (SavingsGoals.calculateProgress (fin goal.current_amount) (fin goal.target_amount))
          = true ↔ goal.target_amount ≤ goal.current_amount)
    ∧ (0 ≤ added →
        SavingsGoals.addOnBlur goal (fin added)
          = some ⟨goal.id, fin (goal.current_amount + added)⟩
        ∧ SavingsGoals.addOnKeyDown "Enter" goal (fin added)
          = some ⟨goal.id, fin (goal.current_amount + added)⟩
        ∧ SavingsGoals.currentAfter goal (SavingsGoals.addOnBlur goal (fin added))
          = fin (goal.current_amount + added)
        ∧ goal.current_amount ≤ goal.current_amount + added
        ∧ (0 ≤ goal.current_amount → 0 ≤ goal.current_amount + added)
        ∧ ∃ p p' : ℚ,
            SavingsGoals.calculateProgress (fin goal.current_amount) (fin goal.target_amount)
              = fin p
            ∧ SavingsGoals.calculateProgress
                (SavingsGoals.currentAfter goal (SavingsGoals.addOnBlur goal (fin added)))
                (fin goal.target_amount) = fin p'
            ∧ p ≤ p')
    ∧ (added < 0 → SavingsGoals.addOnBlur goal (fin added) = none
        ∧ SavingsGoals.addOnKeyDown "Enter" goal (fin added) = none)
    ∧ SavingsGoals.addOnBlur goal nan = none := by
  have htne : goal.target_amount ≠ 0 := ne_of_gt ht
  refine ⟨?_, ?_, ?_, rfl⟩
  · rw [goal_progress_eq _ _ ht]
    simp only [SavingsGoals.goalAchieved, JSNum.ge_fin, decide_eq_true_eq, le_min_iff,
      le_refl, and_true]
    constructor
    · intro h
      have h1 : 1 ≤ goal.current_amount / goal.target_amount := by linarith
      exact (one_le_div ht).mp h1
    · intro h
      have h1 : 1 ≤ goal.current_amount / goal.target_amount := (one_le_div ht).mpr h
      linarith
  · intro ha
    have hblur := addOnBlur_nonneg goal added ha
    refine ⟨hblur, ?_, ?_, by linarith, fun h => by linarith, ?_⟩
    · simp [SavingsGoals.addOnKeyDown, ha, SavingsGoals.handleUpdateProgress, parseFloat]
    · rw [hblur]; rfl
    · refine ⟨min (goal.current_amount / goal.target_amount * 100) 100,
        min ((goal.current_amount + added) / goal.target_amount * 100) 100,
        goal_progress_eq _ _ ht, ?_, ?_⟩
      · rw [hblur]
        exact goal_progress_eq _ _ ht
      · apply min_le_min _ (le_refl _)
        have : goal.current_amount / goal.target_amount
            ≤ (goal.current_amount + added) / goal.target_amount :=
          div_le_div_of_nonneg_right (by linarith) ht.le
        linarith
  · intro ha
    constructor
    · simp [SavingsGoals.addOnBlur, not_le.mpr ha]
    · simp [SavingsGoals.addOnKeyDown, not_le.mpr ha]

theorem C28_goal_achieved_banner_witness :
    SavingsGoals.goalAchieved
        (SavingsGoals.calculateProgress (fin 1200) (fin 1000)) = true ↔ (1000 : ℚ) ≤ 1200 :=
  (C28_goal_achieved_banner ⟨1, "Holiday", 1000, 1200⟩ 0 (by norm_num)).1

/-- C29: the three duplicated days-until helpers agree.  For every date,
present or absent, and every instant `now`, `getDaysRemaining` of `Debts.jsx`,
`getDaysRemaining` of `SavingsGoals.jsx` and `getDaysUntilDue` of
`RecurringExpenses.jsx` return the same value. -/
theorem C29_days_until_helpers_agree (env : DateEnv) (date : Option String) :
    Debts.getDaysRemaining env date = SavingsGoals.getDaysRemaining env date
    ∧ SavingsGoals.getDaysRemaining env date = RecurringExpenses.getDaysUntilDue env date
    ∧ Debts.getDaysRemaining env date = RecurringExpenses.getDaysUntilDue env date := by
  cases date with
  | none => exact ⟨rfl, rfl, rfl⟩
  | some d => exact ⟨rfl, rfl, rfl⟩

/-! ## Rounding to the nearest double -/

namespace F64

theorem roundHalfEven_le (y : ℚ) : (roundHalfEven y : ℚ) ≤ y + 1 / 2 := by
  have h1 := Int.floor_le y
  have h2 := Int.lt_floor_add_one y
  unfold roundHalfEven
  split_ifs <;> push_cast <;> linarith

theorem le_roundHalfEven (y : ℚ) : y - 1 / 2 ≤ (roundHalfEven y : ℚ) := by
  have h1 := Int.floor_le y
  have h2 := Int.lt_floor_add_one y
  unfold roundHalfEven
  split_ifs <;> push_cast <;> linarith

theorem roundHalfEven_eq (y : ℚ) (n : ℤ) (h1 : (n : ℚ) - 1 / 2 < y) (h2 : y < n + 1 / 2) :
    roundHalfEven y = n := by
  have h3 := roundHalfEven_le y
  have h4 := le_roundHalfEven y
  have h5 : (roundHalfEven y : ℚ) < n + 1 := by linarith
  have h6 : (n : ℚ) - 1 < roundHalfEven y := by linarith
  have h7 : roundHalfEven y < n + 1 := by exact_mod_cast h5
  have h8 : n - 1 < roundHalfEven y := by exact_mod_cast h6
  omega

theorem roundHalfEven_intCast (n : ℤ) : roundHalfEven (n : ℚ) = n :=
  roundHalfEven_eq _ n (by linarith) (by linarith)

theorem roundHalfEven_mono {y z : ℚ} (h : y ≤ z) : roundHalfEven y ≤ roundHalfEven z := by
  by_contra hlt
  push_neg at hlt
  have h1 : (roundHalfEven z : ℚ) + 1 ≤ roundHalfEven y := by exact_mod_cast hlt
  have h2 := roundHalfEven_le y
  have h3 := le_roundHalfEven z
  have h4 : y = z := by linarith
  rw [h4] at hlt
  exact lt_irrefl _ hlt

theorem two_zpow_pos (e : ℤ) : (0 : ℚ) < 2 ^ e := zpow_pos (by norm_num) e

theorem lt_two_zpow_ulpExp {x : ℚ} : |x| < 2 ^ (ulpExp x + 53) := by
  have h := Int.lt_zpow_succ_log_self (b := 2) (by norm_num) |x|
  have h2 : Int.log 2 |x| + 1 ≤ ulpExp x + 53 := by
    unfold ulpExp
    have := le_max_left (Int.log 2 |x| - 52) (-1074)
    omega
  calc |x| < ((2 : ℕ) : ℚ) ^ (Int.log 2 |x| + 1) := h
    _ = (2 : ℚ) ^ (Int.log 2 |x| + 1) := by norm_num
    _ ≤ 2 ^ (ulpExp x + 53) := zpow_le_zpow_right₀ (by norm_num) h2

theorem two_zpow_ulpExp_le {x : ℚ} (hx : x ≠ 0) (h : -1074 < ulpExp x) :
    (2 : ℚ) ^ (ulpExp x + 52) ≤ |x| := by
  have h0 : 0 < |x| := abs_pos.mpr hx
  have h1 := Int.zpow_log_le_self (b := 2) (by norm_num) h0
  have h2 : ulpExp x = Int.log 2 |x| - 52 := by
    unfold ulpExp at h ⊢
    rcases max_cases (Int.log 2 |x| - 52) (-1074) with ⟨h3, _⟩ | ⟨h3, _⟩
    · exact h3
    · rw [h3] at h; exact absurd h (lt_irrefl _)
  rw [h2]
  have : Int.log 2 |x| - 52 + 52 = Int.log 2 |x| := by ring
  rw [this]
  calc (2 : ℚ) ^ Int.log 2 |x| = ((2 : ℕ) : ℚ) ^ Int.log 2 |x| := by norm_num
    _ ≤ |x| := h1

theorem ulpExp_mono {x y : ℚ} (hx : x ≠ 0) (h : |x| ≤ |y|) : ulpExp x ≤ ulpExp y := by
  unfold ulpExp
  have := Int.log_mono_right (b := 2) (abs_pos.mpr hx) h
  exact max_le_max (by omega) le_rfl

theorem ulpExp_ge (x : ℚ) : -1074 ≤ ulpExp x := le_max_right _ _

theorem ulpExp_le_of_lt {x : ℚ} {e : ℤ} (hx : x ≠ 0) (he : -1074 ≤ e) (h : |x| < 2 ^ (e + 53)) :
    ulpExp x ≤ e := by
  unfold ulpExp
  have h0 : 0 < |x| := abs_pos.mpr hx
  have h1 : |x| < ((2 : ℕ) : ℚ) ^ (e + 53) := by
    calc |x| < (2 : ℚ) ^ (e + 53) := h
      _ = ((2 : ℕ) : ℚ) ^ (e + 53) := by norm_num
  have h2 := (Int.lt_zpow_iff_log_lt (b := 2) (by norm_num) h0).mp h1
  exact max_le (by omega) he

theorem ulpExp_eq {x : ℚ} {e : ℤ} (he : -1074 ≤ e) (h1 : (2 : ℚ) ^ (e + 52) ≤ |x|)
    (h2 : |x| < 2 ^ (e + 53)) : ulpExp x = e := by
  have hx : x ≠ 0 := by
    intro h0
    rw [h0, abs_zero] at h1
    exact absurd h1 (not_le.mpr (two_zpow_pos _))
  apply le_antisymm (ulpExp_le_of_lt hx he h2)
  unfold ulpExp
  have h0 : 0 < |x| := abs_pos.mpr hx
  have h3 : ((2 : ℕ) : ℚ) ^ (e + 52) ≤ |x| := by
    calc ((2 : ℕ) : ℚ) ^ (e + 52) = (2 : ℚ) ^ (e + 52) := by norm_num
      _ ≤ |x| := h1
  have h4 := (Int.zpow_le_iff_le_log (b := 2) (by norm_num) h0).mp h3
  exact le_max_of_le_left (by omega)

theorem roundAbs_zero : roundAbs 0 = 0 := by
  unfold roundAbs
  rw [zero_div]
  have := roundHalfEven_intCast 0
  simp only [Int.cast_zero] at this
  rw [this]; simp

theorem roundAbs_nonneg {x : ℚ} (hx : 0 ≤ x) : 0 ≤ roundAbs x := by
  unfold roundAbs
  have h1 : 0 ≤ x / 2 ^ ulpExp x := div_nonneg hx (two_zpow_pos _).le
  have h2 : roundHalfEven 0 ≤ roundHalfEven (x / 2 ^ ulpExp x) := roundHalfEven_mono h1
  have h3 := roundHalfEven_intCast 0
  simp only [Int.cast_zero] at h3
  rw [h3] at h2
  have h4 : (0 : ℚ) ≤ roundHalfEven (x / 2 ^ ulpExp x) := by exact_mod_cast h2
  exact mul_nonneg h4 (two_zpow_pos _).le

theorem roundAbs_le_top {x : ℚ} (hx : 0 ≤ x) : roundAbs x ≤ 2 ^ (ulpExp x + 53) := by
  unfold roundAbs
  have h1 : x / 2 ^ ulpExp x ≤ ((2 ^ 53 : ℤ) : ℚ) := by
    rw [div_le_iff₀ (two_zpow_pos _)]
    have := lt_two_zpow_ulpExp (x := x)
    rw [abs_of_nonneg hx, add_comm, zpow_add₀ (by norm_num : (2 : ℚ) ≠ 0)] at this
    push_cast
    have h53 : (2 : ℚ) ^ (53 : ℤ) = 2 ^ 53 := by norm_num
    rw [h53] at this
    exact this.le
  have h2 := roundHalfEven_mono h1
  rw [roundHalfEven_intCast] at h2
  have h3 : (roundHalfEven (x / 2 ^ ulpExp x) : ℚ) ≤ ((2 ^ 53 : ℤ) : ℚ) := by exact_mod_cast h2
  calc (roundHalfEven (x / 2 ^ ulpExp x) : ℚ) * 2 ^ ulpExp x
      ≤ ((2 ^ 53 : ℤ) : ℚ) * 2 ^ ulpExp x := mul_le_mul_of_nonneg_right h3 (two_zpow_pos _).le
    _ = 2 ^ (ulpExp x + 53) := by
      rw [add_comm, zpow_add₀ (by norm_num : (2 : ℚ) ≠ 0)]
      norm_num

theorem bottom_le_roundAbs {x : ℚ} (hx : 0 < x) (h : -1074 < ulpExp x) :
    2 ^ (ulpExp x + 52) ≤ roundAbs x := by
  unfold roundAbs
  have h0 := two_zpow_ulpExp_le hx.ne' h
  rw [abs_of_pos hx] at h0
  have h1 : ((2 ^ 52 : ℤ) : ℚ) ≤ x / 2 ^ ulpExp x := by
    rw [le_div_iff₀ (two_zpow_pos _)]
    rw [add_comm, zpow_add₀ (by norm_num : (2 : ℚ) ≠ 0)] at h0
    push_cast
    have h52 : (2 : ℚ) ^ (52 : ℤ) = 2 ^ 52 := by norm_num
    rw [h52] at h0
    exact h0
  have h2 := roundHalfEven_mono h1
  rw [roundHalfEven_intCast] at h2
  have h3 : ((2 ^ 52 : ℤ) : ℚ) ≤ (roundHalfEven (x / 2 ^ ulpExp x) : ℚ) := by exact_mod_cast h2
  calc (2 : ℚ) ^ (ulpExp x + 52) = ((2 ^ 52 : ℤ) : ℚ) * 2 ^ ulpExp x := by
        rw [add_comm, zpow_add₀ (by norm_num : (2 : ℚ) ≠ 0)]
        norm_num
    _ ≤ _ := mul_le_mul_of_nonneg_right h3 (two_zpow_pos _).le

theorem roundAbs_mono {x y : ℚ} (hx : 0 ≤ x) (h : x ≤ y) : roundAbs x ≤ roundAbs y := by
  rcases hx.eq_or_lt with h0 | h0
  · rw [← h0, roundAbs_zero]; exact roundAbs_nonneg (hx.trans h)
  have hy : 0 < y := h0.trans_le h
  have hf : ulpExp x ≤ ulpExp y :=
    ulpExp_mono h0.ne' (by rw [abs_of_pos h0, abs_of_pos hy]; exact h)
  rcases hf.eq_or_lt with he | hlt
  · unfold roundAbs
    rw [he]
    have h1 : x / 2 ^ ulpExp y ≤ y / 2 ^ ulpExp y :=
      div_le_div_of_nonneg_right h (two_zpow_pos _).le
    have h2 : (roundHalfEven (x / 2 ^ ulpExp y) : ℚ) ≤ roundHalfEven (y / 2 ^ ulpExp y) := by
      exact_mod_cast roundHalfEven_mono h1
    exact mul_le_mul_of_nonneg_right h2 (two_zpow_pos _).le
  · have h1 := roundAbs_le_top hx
    have h2 := bottom_le_roundAbs hy (lt_of_le_of_lt (ulpExp_ge x) hlt)
    have h3 : (2 : ℚ) ^ (ulpExp x + 53) ≤ 2 ^ (ulpExp y + 52) :=
      zpow_le_zpow_right₀ (by norm_num) (by omega)
    exact h1.trans (h3.trans h2)

/-- A binary64 number of non-negative value: `m * 2^e` with `m < 2^53` and
`e ≥ -1074`, is left as it is. -/
theorem roundAbs_exact (m : ℕ) (e : ℤ) (hm : m < 2 ^ 53) (he : -1074 ≤ e) :
    roundAbs ((m : ℚ) * 2 ^ e) = (m : ℚ) * 2 ^ e := by
  rcases Nat.eq_zero_or_pos m with h0 | hpos
  · rw [h0]; simp [roundAbs_zero]
  have hx : (0 : ℚ) < (m : ℚ) * 2 ^ e := mul_pos (by exact_mod_cast hpos) (two_zpow_pos _)
  have hlt : |(m : ℚ) * 2 ^ e| < 2 ^ (e + 53) := by
    rw [abs_of_pos hx, add_comm, zpow_add₀ (by norm_num : (2 : ℚ) ≠ 0)]
    have h53 : (2 : ℚ) ^ (53 : ℤ) = 2 ^ 53 := by norm_num
    rw [h53]
    have : (m : ℚ) < 2 ^ 53 := by exact_mod_cast hm
    exact mul_lt_mul_of_pos_right this (two_zpow_pos _)
  have hf := ulpExp_le_of_lt hx.ne' he hlt
  unfold roundAbs
  obtain ⟨d, hd⟩ := Int.eq_ofNat_of_zero_le (sub_nonneg.mpr hf)
  have he2 : e = ulpExp ((m : ℚ) * 2 ^ e) + d := by omega
  have hq : (m : ℚ) * 2 ^ e / 2 ^ ulpExp ((m : ℚ) * 2 ^ e) = ((m * 2 ^ d : ℕ) : ℤ) := by
    rw [div_eq_iff (two_zpow_pos _).ne']
    nth_rewrite 1 [he2]
    rw [zpow_add₀ (by norm_num : (2 : ℚ) ≠ 0)]
    push_cast
    rw [zpow_natCast]
    ring
  rw [hq, roundHalfEven_intCast]
  rw [← hq]
  exact div_mul_cancel₀ _ (two_zpow_pos _).ne'

theorem roundAbs_idem {x : ℚ} (hx : 0 ≤ x) : roundAbs (roundAbs x) = roundAbs x := by
  have h1 : roundAbs x = (roundHalfEven (x / 2 ^ ulpExp x) : ℚ) * 2 ^ ulpExp x := rfl
  have h0 : 0 ≤ roundHalfEven (x / 2 ^ ulpExp x) := by
    have := roundHalfEven_mono (div_nonneg hx (two_zpow_pos (ulpExp x)).le)
    have h3 := roundHalfEven_intCast 0
    simp only [Int.cast_zero] at h3
    rwa [h3] at this
  obtain ⟨n, hn⟩ := Int.eq_ofNat_of_zero_le h0
  have htop := roundAbs_le_top hx
  rw [h1, hn] at htop ⊢
  have hle : n ≤ 2 ^ 53 := by
    rw [add_comm, zpow_add₀ (by norm_num : (2 : ℚ) ≠ 0)] at htop
    have h53 : (2 : ℚ) ^ (53 : ℤ) = 2 ^ 53 := by norm_num
    rw [h53] at htop
    have := le_of_mul_le_mul_right htop (two_zpow_pos _)
    exact_mod_cast this
  rcases hle.eq_or_lt with heq | hlt
  · have : ((n : ℤ) : ℚ) * 2 ^ ulpExp x = ((2 ^ 52 : ℕ) : ℚ) * 2 ^ (ulpExp x + 1) := by
      rw [heq, zpow_add₀ (by norm_num : (2 : ℚ) ≠ 0)]
      push_cast
      ring
    rw [this]
    exact roundAbs_exact _ _ (by norm_num) (by have := ulpExp_ge x; omega)
  · have := roundAbs_exact n (ulpExp x) hlt (ulpExp_ge x)
    simpa using this

theorem fl_zero : fl 0 = 0 := by
  unfold fl; simp [roundAbs_zero]

theorem fl_of_nonneg {x : ℚ} (hx : 0 ≤ x) : fl x = roundAbs x := by
  unfold fl; rw [if_pos hx]

theorem fl_neg (x : ℚ) : fl (-x) = -fl x := by
  unfold fl
  rcases lt_trichotomy x 0 with h | h | h
  · rw [if_pos (by linarith), if_neg (by linarith)]; simp
  · rw [h]; simp [roundAbs_zero]
  · rw [if_neg (by linarith), if_pos h.le]; simp

theorem fl_nonneg {x : ℚ} (hx : 0 ≤ x) : 0 ≤ fl x := by
  rw [fl_of_nonneg hx]; exact roundAbs_nonneg hx

theorem fl_nonpos {x : ℚ} (hx : x ≤ 0) : fl x ≤ 0 := by
  have := fl_nonneg (x := -x) (by linarith)
  rw [fl_neg] at this
  linarith

theorem fl_mono {x y : ℚ} (h : x ≤ y) : fl x ≤ fl y := by
  rcases le_or_lt 0 x with hx | hx
  · rw [fl_of_nonneg hx, fl_of_nonneg (hx.trans h)]
    exact roundAbs_mono hx h
  · rcases le_or_lt 0 y with hy | hy
    · exact (fl_nonpos hx.le).trans (fl_nonneg hy)
    · have h1 := roundAbs_mono (x := -y) (y := -x) (by linarith) (by linarith)
      have hx' := fl_neg (-x)
      have hy' := fl_neg (-y)
      rw [neg_neg] at hx' hy'
      rw [hx', hy', fl_of_nonneg (by linarith : (0 : ℚ) ≤ -x),
        fl_of_nonneg (by linarith : (0 : ℚ) ≤ -y)]
      linarith

theorem fl_idem (x : ℚ) : fl (fl x) = fl x := by
  rcases le_or_lt 0 x with hx | hx
  · rw [fl_of_nonneg hx, fl_of_nonneg (roundAbs_nonneg hx)]
    exact roundAbs_idem hx
  · have hx' := fl_neg (-x)
    rw [neg_neg] at hx'
    rw [hx', fl_neg, fl_of_nonneg (by linarith : (0 : ℚ) ≤ -x),
      fl_of_nonneg (roundAbs_nonneg (by linarith : (0 : ℚ) ≤ -x)),
      roundAbs_idem (by linarith : (0 : ℚ) ≤ -x)]

/-- Evaluation of the rounding of a positive number below `2^53`, with `p` the
number of binary digits after the point (`2^52 ≤ x * 2^p < 2^53`): the double
is `m / 2^p` for `m` the rounding of `x * 2^p` to an integer. -/
theorem fl_eval_of_round (x : ℚ) (m : ℤ) (p : ℕ) (hp : p ≤ 1074) (h1 : 2 ^ 52 ≤ x * 2 ^ p)
    (h2 : x * 2 ^ p < 2 ^ 53) (hm : roundHalfEven (x * 2 ^ p) = m) : fl x = m / 2 ^ p := by
  have hpp : (0 : ℚ) < 2 ^ p := by positivity
  have hx : 0 < x := by
    by_contra h
    push_neg at h
    have : x * 2 ^ p ≤ 0 := mul_nonpos_of_nonpos_of_nonneg h hpp.le
    have : (0 : ℚ) < 2 ^ 52 := by norm_num
    linarith
  have hz : (2 : ℚ) ^ (-(p : ℤ)) = 1 / 2 ^ p := by
    rw [zpow_neg, zpow_natCast, one_div]
  have he : ulpExp x = -(p : ℤ) := by
    apply ulpExp_eq (by omega)
    · rw [abs_of_pos hx, zpow_add₀ (by norm_num : (2 : ℚ) ≠ 0), hz]
      have h52 : (2 : ℚ) ^ (52 : ℤ) = 2 ^ 52 := by norm_num
      rw [h52, one_div, ← div_eq_inv_mul, div_le_iff₀ hpp]
      exact h1
    · rw [abs_of_pos hx, zpow_add₀ (by norm_num : (2 : ℚ) ≠ 0), hz]
      have h53 : (2 : ℚ) ^ (53 : ℤ) = 2 ^ 53 := by norm_num
      rw [h53, one_div, ← div_eq_inv_mul, lt_div_iff₀ hpp]
      exact h2
  rw [fl_of_nonneg hx.le]
  unfold roundAbs
  rw [he, hz]
  have : x / (1 / 2 ^ p) = x * 2 ^ p := by field_simp
  rw [this, hm]
  field_simp

/-- Evaluation of the rounding when `x * 2^p` is within `1/2` of the integer
`n`: the double is `n / 2^p`. -/
theorem fl_eval (x : ℚ) (n : ℤ) (p : ℕ) (hp : p ≤ 1074) (h1 : 2 ^ 52 ≤ x * 2 ^ p)
    (h2 : x * 2 ^ p < 2 ^ 53) (h3 : (n : ℚ) - 1 / 2 < x * 2 ^ p)
    (h4 : x * 2 ^ p < n + 1 / 2) : fl x = n / 2 ^ p :=
  fl_eval_of_round x n p hp h1 h2 (roundHalfEven_eq _ n h3 h4)

/-- Evaluation of the rounding on a tie: when `x * 2^p` lies halfway between
`n - 1` and `n` and `n` is even, the double is `n / 2^p`. -/
theorem fl_eval_tie (x : ℚ) (n : ℤ) (p : ℕ) (hp : p ≤ 1074) (h1 : 2 ^ 52 ≤ x * 2 ^ p)
    (h2 : x * 2 ^ p < 2 ^ 53) (h3 : x * 2 ^ p = n - 1 / 2) (hn : n % 2 = 0) :
    fl x = n / 2 ^ p := by
  apply fl_eval_of_round x n p hp h1 h2
  have hf : ⌊x * 2 ^ p⌋ = n - 1 := by
    rw [h3, Int.floor_eq_iff]
    push_cast
    constructor <;> linarith
  unfold roundHalfEven
  rw [hf, h3]
  have e1 : ¬ ((n : ℚ) - 1 / 2 - ((n - 1 : ℤ) : ℚ) < 1 / 2) := by
    push_cast; norm_num
  have e2 : ¬ ((1 : ℚ) / 2 < (n : ℚ) - 1 / 2 - ((n - 1 : ℤ) : ℚ)) := by
    push_cast; norm_num
  have e3 : ¬ ((n - 1) % 2 = 0) := by omega
  rw [if_neg e1, if_neg e2, if_neg e3]
  ring

theorem fl_natCast (n : ℕ) (h : n < 2 ^ 53) : fl (n : ℚ) = n := by
  rw [fl_of_nonneg (Nat.cast_nonneg n)]
  have := roundAbs_exact n 0 h (by norm_num)
  simpa using this

theorem fl_one : fl 1 = 1 := by
  have := fl_natCast 1 (by norm_num)
  simpa using this

theorem fl_ofNat (n : ℕ) [n.AtLeastTwo] (h : n < 2 ^ 53) :
    fl (OfNat.ofNat n : ℚ) = OfNat.ofNat n := by
  have := fl_natCast n h
  simpa using this

/-- A double `r` is above the rounding of `z` only if it is above `z`. -/
theorem lt_of_fl_lt {r z : ℚ} (hr : fl r = r) (h : fl z < r) : z < r := by
  by_contra hle
  push_neg at hle
  have := fl_mono hle
  rw [hr] at this
  exact absurd h (not_lt.mpr this)

/-- A double `r` is below the rounding of `z` only if it is below `z`. -/
theorem lt_of_lt_fl {r z : ℚ} (hr : fl r = r) (h : r < fl z) : r < z := by
  by_contra hle
  push_neg at hle
  have := fl_mono hle
  rw [hr] at this
  exact absurd h (not_lt.mpr this)

/-- Rounding does not cross a double: `x ≤ r` gives `fl x ≤ r`. -/
theorem fl_le_of_le {x r : ℚ} (hr : fl r = r) (h : x ≤ r) : fl x ≤ r := by
  have := fl_mono h
  rwa [hr] at this

/-- Rounding does not cross a double: `r ≤ x` gives `r ≤ fl x`. -/
theorem le_fl_of_le {x r : ℚ} (hr : fl r = r) (h : r ≤ x) : r ≤ fl x := by
  have := fl_mono h
  rwa [hr] at this

theorem abs_roundHalfEven_sub_le (y : ℚ) : |(roundHalfEven y : ℚ) - y| ≤ 1 / 2 := by
  rw [abs_le]
  constructor
  · linarith [le_roundHalfEven y]
  · linarith [roundHalfEven_le y]

/-- The relative error of rounding a number of the normal range is at most
`2^-53`. -/
theorem abs_fl_sub_le {x : ℚ} (hx : (2 : ℚ) ^ (-1022 : ℤ) ≤ x) :
    |fl x - x| ≤ x * 2 ^ (-53 : ℤ) := by
  have hpos : 0 < x := lt_of_lt_of_le (two_zpow_pos _) hx
  have hlog : (-1022 : ℤ) ≤ Int.log 2 |x| := by
    have h1 : ((2 : ℕ) : ℚ) ^ (-1022 : ℤ) ≤ |x| := by
      rw [abs_of_pos hpos]
      calc ((2 : ℕ) : ℚ) ^ (-1022 : ℤ) = (2 : ℚ) ^ (-1022 : ℤ) := by norm_num
        _ ≤ x := hx
    exact (Int.zpow_le_iff_le_log (b := 2) (by norm_num) (abs_pos.mpr hpos.ne')).mp h1
  have he : ulpExp x = Int.log 2 |x| - 52 := by
    unfold ulpExp
    exact max_eq_left (by omega)
  have hb : (2 : ℚ) ^ (ulpExp x + 52) ≤ x := by
    have h1 := Int.zpow_log_le_self (b := 2) (by norm_num) (abs_pos.mpr hpos.ne')
    rw [he]
    have : Int.log 2 |x| - 52 + 52 = Int.log 2 |x| := by ring
    rw [this]
    calc (2 : ℚ) ^ Int.log 2 |x| = ((2 : ℕ) : ℚ) ^ Int.log 2 |x| := by norm_num
      _ ≤ |x| := h1
      _ = x := abs_of_pos hpos
  rw [fl_of_nonneg hpos.le]
  unfold roundAbs
  have hp := two_zpow_pos (ulpExp x)
  have h1 := abs_roundHalfEven_sub_le (x / 2 ^ ulpExp x)
  have h2 : (roundHalfEven (x / 2 ^ ulpExp x) : ℚ) * 2 ^ ulpExp x - x
      = ((roundHalfEven (x / 2 ^ ulpExp x) : ℚ) - x / 2 ^ ulpExp x) * 2 ^ ulpExp x := by
    field_simp
  rw [h2, abs_mul, abs_of_pos hp]
  have h3 : (2 : ℚ) ^ ulpExp x = 2 ^ (ulpExp x + 52) * 2 ^ (-52 : ℤ) := by
    rw [← zpow_add₀ (by norm_num : (2 : ℚ) ≠ 0)]
    congr 1
    ring
  have h4 : (2 : ℚ) ^ ulpExp x ≤ x * 2 ^ (-52 : ℤ) := by
    rw [h3]
    exact mul_le_mul_of_nonneg_right hb (two_zpow_pos _).le
  calc |(roundHalfEven (x / 2 ^ ulpExp x) : ℚ) - x / 2 ^ ulpExp x| * 2 ^ ulpExp x
      ≤ 1 / 2 * 2 ^ ulpExp x := mul_le_mul_of_nonneg_right h1 hp.le
    _ ≤ 1 / 2 * (x * 2 ^ (-52 : ℤ)) := mul_le_mul_of_nonneg_left h4 (by norm_num)
    _ = x * 2 ^ (-53 : ℤ) := by
      have : (2 : ℚ) ^ (-52 : ℤ) = 2 * 2 ^ (-53 : ℤ) := by
        rw [show (-52 : ℤ) = 1 + (-53) from by norm_num, zpow_add₀ (by norm_num : (2 : ℚ) ≠ 0)]
        norm_num
      rw [this]
      ring

theorem fl_1_2 : fl 1.2 = 5404319552844595 / 2 ^ 52 :=
  fl_eval _ _ _ (by norm_num) (by norm_num) (by norm_num) (by norm_num) (by norm_num)

theorem fl_0_8 : fl 0.8 = 7205759403792794 / 2 ^ 53 :=
  fl_eval _ _ _ (by norm_num) (by norm_num) (by norm_num) (by norm_num) (by norm_num)

end F64

/-! ## Evaluation lemmas for `Double` -/

namespace F64

namespace Double

theorem add_mk (a b : ℚ) : (⟨fin a⟩ + ⟨fin b⟩ : Double) = ⟨fin (fl (a + b))⟩ := rfl

theorem sub_mk (a b : ℚ) : (⟨fin a⟩ - ⟨fin b⟩ : Double) = ⟨fin (fl (a - b))⟩ := by
  show Double.round (fin a - fin b) = _
  rw [JSNum.sub_fin]
  rfl

theorem mul_mk (a b : ℚ) : (⟨fin a⟩ * ⟨fin b⟩ : Double) = ⟨fin (fl (a * b))⟩ := rfl

theorem div_mk (a : ℚ) {b : ℚ} (hb : b ≠ 0) :
    (⟨fin a⟩ / ⟨fin b⟩ : Double) = ⟨fin (fl (a / b))⟩ := by
  show Double.round (fin a / fin b) = _
  rw [JSNum.div_fin_of_ne a hb]
  rfl

theorem div_mk_zero {a : ℚ} (ha : 0 < a) : (⟨fin a⟩ / ⟨fin 0⟩ : Double) = ⟨posInf⟩ := by
  show Double.round (fin a / fin 0) = _
  rw [JSNum.div_fin, if_pos rfl]
  simp [JSNum.infOfSign, ha, Double.round]

theorem div_mk_zero_neg {a : ℚ} (ha : a < 0) : (⟨fin a⟩ / ⟨fin 0⟩ : Double) = ⟨negInf⟩ := by
  show Double.round (fin a / fin 0) = _
  rw [JSNum.div_fin, if_pos rfl]
  simp [JSNum.infOfSign, ha, not_lt.mpr ha.le, Double.round]

theorem div_zero_zero : (⟨fin 0⟩ / ⟨fin 0⟩ : Double) = ⟨nan⟩ := by
  show Double.round (fin 0 / fin 0) = _
  rw [JSNum.div_fin, if_pos rfl]
  simp [JSNum.infOfSign, Double.round]

theorem nan_mul_mk (x : Double) : (⟨nan⟩ * x : Double) = ⟨nan⟩ := by
  show Double.round (nan * x.val) = _
  rw [JSNum.nan_mul]
  rfl

theorem posInf_sub_mk (a : ℚ) : (⟨posInf⟩ - ⟨fin a⟩ : Double) = ⟨posInf⟩ := rfl

theorem posInf_mul_hundred_mk : (⟨posInf⟩ * ⟨fin 100⟩ : Double) = ⟨posInf⟩ := by
  show Double.round (posInf * fin 100) = _
  rw [JSNum.posInf_mul_hundred]
  rfl

theorem negInf_mul_hundred_mk : (⟨negInf⟩ * ⟨fin 100⟩ : Double) = ⟨negInf⟩ := by
  show Double.round (negInf * fin 100) = _
  rw [JSNum.negInf_mul_hundred]
  rfl

theorem gt_mk (a b : ℚ) : (⟨fin a⟩ : Double).gt ⟨fin b⟩ = decide (b < a) := rfl

theorem lt_mk (a b : ℚ) : (⟨fin a⟩ : Double).lt ⟨fin b⟩ = decide (a < b) := rfl

theorem le_mk (a b : ℚ) : (⟨fin a⟩ : Double).le ⟨fin b⟩ = decide (a ≤ b) := rfl

theorem ge_mk (a b : ℚ) : (⟨fin a⟩ : Double).ge ⟨fin b⟩ = decide (b ≤ a) := rfl

theorem lit_eq (q : ℚ) : lit q = ⟨fin (fl q)⟩ := rfl

theorem lit_of_eq {q r : ℚ} (h : fl q = r) : lit q = ⟨fin r⟩ := by
  rw [lit_eq, h]

theorem lit_natCast (n : ℕ) (h : n < 2 ^ 53) : lit (n : ℚ) = ⟨fin n⟩ :=
  lit_of_eq (fl_natCast n h)

theorem zero_eq : (0 : Double) = ⟨fin 0⟩ := by
  show lit ((0 : ℕ) : ℚ) = _
  rw [lit_natCast 0 (by norm_num)]
  simp

theorem one_eq : (1 : Double) = ⟨fin 1⟩ := by
  show lit ((1 : ℕ) : ℚ) = _
  rw [lit_natCast 1 (by norm_num)]
  simp

theorem ofNat_eq (n : ℕ) [n.AtLeastTwo] (h : n < 2 ^ 53) :
    (OfNat.ofNat n : Double) = ⟨fin (OfNat.ofNat n)⟩ := by
  show lit (n : ℚ) = _
  rw [lit_natCast n h]
  rfl

theorem ten_eq : (10 : Double) = ⟨fin 10⟩ := ofNat_eq 10 (by norm_num)

theorem twenty_eq : (20 : Double) = ⟨fin 20⟩ := ofNat_eq 20 (by norm_num)

theorem eighty_eq : (80 : Double) = ⟨fin 80⟩ := ofNat_eq 80 (by norm_num)

theorem hundred_eq : (100 : Double) = ⟨fin 100⟩ := ofNat_eq 100 (by norm_num)

/-- The literal `1.2` is the double `5404319552844595 / 2^52`, just below
`1.2`. -/
theorem lit_1_2 : (1.2 : Double) = ⟨fin (5404319552844595 / 2 ^ 52)⟩ :=
  lit_of_eq fl_1_2

/-- The literal `0.8` is the double `7205759403792794 / 2^53`, just above
`0.8`. -/
theorem lit_0_8 : (0.8 : Double) = ⟨fin (7205759403792794 / 2 ^ 53)⟩ :=
  lit_of_eq fl_0_8

theorem toFixed_mk (q : ℚ) (f : Nat) : (⟨fin q⟩ : Double).toFixed f = JSNum.toFixed (fin q) f :=
  rfl

end Double

end F64

/-! ## The insight rules on doubles -/

namespace F64

open Double

namespace Insights

theorem dbl_budgetInsight_append (budgets : List (String × ℚ)) (acc : List Insight)
    (e : String × ℚ) : budgetInsight budgets acc e = acc ++ budgetInsight budgets [] e := by
  unfold budgetInsight
  simp only []
  split_ifs <;> simp

theorem dbl_budgetInsights_eq_flatMap (acc : List Insight)
    (spending budgets : List (String × ℚ)) :
    budgetInsights acc spending budgets = acc ++ spending.flatMap (budgetInsight budgets []) := by
  unfold budgetInsights
  induction spending generalizing acc with
  | nil => simp
  | cons e es ih =>
    rw [List.foldl_cons, ih, dbl_budgetInsight_append, List.flatMap_cons, List.append_assoc]

theorem dbl_spendingTrendInsight_append (acc : List Insight) (daily_totals : List DailyTotal) :
    spendingTrendInsight acc daily_totals = acc ++ spendingTrendInsight [] daily_totals := by
  unfold spendingTrendInsight
  simp only []
  split_ifs <;> simp

theorem dbl_topCategoryInsight_append (acc : List Insight)
    (category_trends : List CategoryTrend) :
    topCategoryInsight acc category_trends = acc ++ topCategoryInsight [] category_trends := by
  unfold topCategoryInsight
  cases category_trends <;> simp

theorem dbl_savingsInsight_append (acc : List Insight) (income expenses : ℚ) :
    savingsInsight acc income expenses = acc ++ savingsInsight [] income expenses := by
  unfold savingsInsight
  simp only []
  split_ifs <;> simp

/-- The result of `generateInsights` as the four blocks run on an empty array
and concatenated. -/
theorem dbl_generateInsights_eq_append (trendsData : Trend) (summaryData : Summary) :
    generateInsights trendsData summaryData =
      spendingTrendInsight [] trendsData.daily_totals
        ++ budgetInsights [] summaryData.category_spending summaryData.category_budgets
        ++ topCategoryInsight [] trendsData.category_trends
        ++ savingsInsight [] summaryData.total_income summaryData.total_expenses := by
  unfold generateInsights
  simp only []
  rw [dbl_savingsInsight_append, dbl_topCategoryInsight_append, dbl_budgetInsights_eq_flatMap,
    dbl_budgetInsights_eq_flatMap [], List.nil_append]

theorem dbl_topCategoryInsight_cons (acc : List Insight) (top : CategoryTrend)
    (rest : List CategoryTrend) :
    topCategoryInsight acc (top :: rest) = acc ++ [{
      type := "info"
      icon := Icon.Lightbulb
      title := "Top Spending"
      message := top.name ++ " is your biggest expense at $" ++ (lit top.total).toFixed 2 ++
        " (" ++ toString top.count ++ " transactions)" }] := by
  simp [topCategoryInsight]

/-- The momentum block on a series of at least two entries, in terms of the
constants `recentAvg` and `earlierAvg`. -/
theorem dbl_spendingTrendInsight_eq (acc : List Insight) (daily_totals : List DailyTotal)
    (h2 : 2 ≤ daily_totals.length) :
    spendingTrendInsight acc daily_totals =
      if (recentAvg daily_totals).gt (earlierAvg daily_totals * 1.2) then
        acc ++ [{
          type := "warning"
          icon := Icon.TrendingUp
          title := "Spending Increasing"
          message := "Your daily spending has increased by " ++
            ((recentAvg daily_totals / earlierAvg daily_totals - 1) * 100).toFixed 0 ++
            "% recently. Consider reviewing your expenses." }]
      else if (recentAvg daily_totals).lt (earlierAvg daily_totals * 0.8) then
        acc ++ [{
          type := "success"
          icon := Icon.TrendingDown
          title := "Great Job!"
          message := "Your spending has decreased by " ++
            ((1 - recentAvg daily_totals / earlierAvg daily_totals) * 100).toFixed 0 ++
            "%. Keep it up!" }]
      else acc := by
  unfold spendingTrendInsight
  rw [if_pos (by omega)]
  rfl

theorem dbl_spendingTrendInsight_short (acc : List Insight) (daily_totals : List DailyTotal)
    (h : daily_totals.length < 2) : spendingTrendInsight acc daily_totals = acc := by
  unfold spendingTrendInsight
  rw [if_neg (by omega)]

/-- The savings block in terms of the constant `savingsRate`. -/
theorem dbl_savingsInsight_eq (acc : List Insight) (income expenses : ℚ) :
    savingsInsight acc income expenses =
      if (lit income).gt 0 then
        if (savingsRate income expenses).lt 10 then
          acc ++ [{
            type := "warning"
            icon := Icon.Lightbulb
            title := "Low Savings Rate"
            message := "You're saving only " ++ (savingsRate income expenses).toFixed 1 ++
              "% of your income. Aim for at least 20%!" }]
        else if (savingsRate income expenses).ge 20 then
          acc ++ [{
            type := "success"
            icon := Icon.TrendingUp
            title := "Excellent Savings!"
            message := "You're saving " ++ (savingsRate income expenses).toFixed 1 ++
              "% of your income. That's fantastic!" }]
        else acc
      else acc := rfl

/-- The budget block on one entry, in terms of the budget and the
percentage. -/
theorem dbl_budgetInsight_eq (budgets : List (String × ℚ)) (acc : List Insight)
    (category : String) (spent : ℚ) :
    budgetInsight budgets acc (category, spent) =
      if (budgetOf budgets category).gt 0 then
        if ((lit spent / budgetOf budgets category) * 100).gt 100 then
          acc ++ [{
            type := "alert"
            icon := Icon.AlertCircle
            title := "Over Budget"
            message := "You've exceeded your " ++ category ++ " budget by $" ++
              (lit spent - budgetOf budgets category).toFixed 2 }]
        else if ((lit spent / budgetOf budgets category) * 100).gt 80 then
          acc ++ [{
            type := "warning"
            icon := Icon.AlertCircle
            title := "Approaching Limit"
            message := "You've used " ++
              ((lit spent / budgetOf budgets category) * 100).toFixed 0 ++ "% of your " ++
              category ++ " budget" }]
        else acc
      else acc := rfl

/-- The budget of a category is a finite double, `0` when the category has no
budget. -/
theorem dbl_budgetOf_eq (budgets : List (String × ℚ)) (category : String) :
    budgetOf budgets category = ⟨fin (fl ((budgets.lookup category).getD 0))⟩ := by
  unfold budgetOf
  cases h : budgets.lookup category with
  | none => simp [zero_eq, fl_zero]
  | some b =>
    by_cases hb : fl b = 0
    · simp [hb, lit_eq, truthy, zero_eq]
    · simp [hb, lit_eq, truthy]

end Insights

end F64

namespace F64

open Double

/-- C1 as stated fails: for spent 80.68 and budget 100.85 the percentage
`spent/b*100` is exactly 80, for which the claim says that nothing is emitted;
the code computes the quotient and the product in doubles, gets
`5629499534213121 / 2^46 = 80.00000000000001...`, which is above 80, and emits
the warning "Approaching Limit". -/
theorem C1_budget_threshold_counterexample :
    (80.68 : ℚ) / 100.85 * 100 = 80
    ∧ (lit 80.68 / Insights.budgetOf [("Food", 100.85)] "Food") * 100
        = ⟨fin (5629499534213121 / 2 ^ 46)⟩
    ∧ (80 : ℚ) < 5629499534213121 / 2 ^ 46
    ∧ Insights.budgetInsight [("Food", 100.85)] [] ("Food", 80.68) = [{
        type := "warning"
        icon := Icon.AlertCircle
        title := "Approaching Limit"
        message := "You've used 80% of your Food budget" }] := by
  have h1 : fl 80.68 = 5677350280253932 / 2 ^ 46 :=
    fl_eval _ _ _ (by norm_num) (by norm_num) (by norm_num) (by norm_num) (by norm_num)
  have h2 : fl 100.85 = 7096687850317414 / 2 ^ 46 :=
    fl_eval _ _ _ (by norm_num) (by norm_num) (by norm_num) (by norm_num) (by norm_num)
  have h3 : fl (5677350280253932 / 2 ^ 46 / (7096687850317414 / 2 ^ 46))
      = 7205759403792795 / 2 ^ 53 :=
    fl_eval _ _ _ (by norm_num) (by norm_num) (by norm_num) (by norm_num) (by norm_num)
  have h4 : fl (7205759403792795 / 2 ^ 53 * 100) = 5629499534213121 / 2 ^ 46 :=
    fl_eval _ _ _ (by norm_num) (by norm_num) (by norm_num) (by norm_num) (by norm_num)
  have hb : Insights.budgetOf [("Food", 100.85)] "Food"
      = ⟨fin (7096687850317414 / 2 ^ 46)⟩ := by
    rw [Insights.dbl_budgetOf_eq]
    simp only [List.lookup, beq_self_eq_true, Option.getD_some, h2]
  have hp : (lit 80.68 / Insights.budgetOf [("Food", 100.85)] "Food") * 100
      = ⟨fin (5629499534213121 / 2 ^ 46)⟩ := by
    rw [hb, lit_of_eq h1, hundred_eq, div_mk _ (by norm_num), h3, mul_mk, h4]
  refine ⟨by norm_num, hp, by norm_num, ?_⟩
  rw [Insights.dbl_budgetInsight_eq, hp, hb]
  simp only [zero_eq, hundred_eq, eighty_eq, gt_mk, toFixed_mk]
  rw [if_pos (by norm_num), if_neg (by norm_num), if_pos (by norm_num),
    JSNum.toFixed_nonneg _ 0 80 (by norm_num) (by norm_num) (by norm_num)]
  decide

/-- C1 (amended): budget threshold rule of `generateInsights`, with the
percentage as the code computes it.  The block visits the entries of
`category_spending` once each, in order.  For an entry with budget `b`
(`category_budgets[key]`, `0` when missing) and `percentage = (spent/b)*100`,
the quotient and the product each rounded to the nearest double: when `b > 0`
it pushes the alert "Over Budget" if `percentage > 100`, otherwise the warning
"Approaching Limit" if `percentage > 80`, otherwise nothing; when `b` is not
above 0 (budget 0, or category absent) it pushes nothing.  A computed
percentage of exactly 100 gives the warning, of exactly 80 nothing.  The budget
is a finite number, and so is the percentage when `b > 0`. -/
theorem C1_budget_threshold_rule (budgets spending : List (String × ℚ)) (acc : List Insight)
    (category : String) (spent : ℚ) (b percentage : Double)
    (hb : b = Insights.budgetOf budgets category) (hp : percentage = (lit spent / b) * 100) :
    Insights.budgetInsights acc spending budgets
        = acc ++ spending.flatMap (Insights.budgetInsight budgets [])
    ∧ (b.gt 0 = true → percentage.gt 100 = true →
        Insights.budgetInsight budgets acc (category, spent) = acc ++ [{
          type := "alert"
          icon := Icon.AlertCircle
          title := "Over Budget"
          message := "You've exceeded your " ++ category ++ " budget by $" ++
            (lit spent - b).toFixed 2 }])
    ∧ (b.gt 0 = true → percentage.gt 100 = false → percentage.gt 80 = true →
        Insights.budgetInsight budgets acc (category, spent) = acc ++ [{
          type := "warning"
          icon := Icon.AlertCircle
          title := "Approaching Limit"
          message := "You've used " ++ percentage.toFixed 0 ++ "% of your " ++
            category ++ " budget" }])
    ∧ (b.gt 0 = true → percentage.gt 100 = false → percentage.gt 80 = false →
        Insights.budgetInsight budgets acc (category, spent) = acc)
    ∧ (b.gt 0 = false → Insights.budgetInsight budgets acc (category, spent) = acc)
    ∧ (budgets.lookup category = none ∨ budgets.lookup category = some 0 →
        b = 0 ∧ b.gt 0 = false)
    ∧ (b.gt 0 = true → percentage = 100 →
        Insights.budgetInsight budgets acc (category, spent) = acc ++ [{
          type := "warning"
          icon := Icon.AlertCircle
          title := "Approaching Limit"
          message := "You've used " ++ (100 : Double).toFixed 0 ++ "% of your " ++
            category ++ " budget" }])
    ∧ (b.gt 0 = true → percentage = 80 →
        Insights.budgetInsight budgets acc (category, spent) = acc)
    ∧ (∃ x : ℚ, b = ⟨fin x⟩ ∧ (0 < x → ∃ p : ℚ, percentage = ⟨fin p⟩)) := by
  have key := Insights.dbl_budgetInsight_eq budgets acc category spent
  rw [← hb, ← hp] at key
  have h100 : (100 : Double).gt 100 = false := by
    rw [hundred_eq, gt_mk]; simp
  have h100' : (100 : Double).gt 80 = true := by
    rw [hundred_eq, eighty_eq, gt_mk]; norm_num
  have h80 : (80 : Double).gt 100 = false := by
    rw [hundred_eq, eighty_eq, gt_mk]; norm_num
  have h80' : (80 : Double).gt 80 = false := by
    rw [eighty_eq, gt_mk]; simp
  refine ⟨Insights.dbl_budgetInsights_eq_flatMap acc spending budgets, ?_, ?_, ?_, ?_, ?_, ?_,
    ?_, ?_⟩
  · intro h0 h1
    rw [key, if_pos h0, if_pos h1]
  · intro h0 h1 h2
    rw [key, if_pos h0, if_neg (by rw [h1]; simp), if_pos h2]
  · intro h0 h1 h2
    rw [key, if_pos h0, if_neg (by rw [h1]; simp), if_neg (by rw [h2]; simp)]
  · intro h0
    rw [key, if_neg (by rw [h0]; simp)]
  · intro h
    have hb0 : b = 0 := by
      rw [hb, Insights.dbl_budgetOf_eq, zero_eq]
      rcases h with h | h <;> simp [h, fl_zero]
    refine ⟨hb0, ?_⟩
    rw [hb0, zero_eq, gt_mk]
    simp
  · intro h0 h1
    rw [key, if_pos h0, h1, if_neg (by rw [h100]; simp), if_pos h100']
  · intro h0 h1
    rw [key, if_pos h0, h1, if_neg (by rw [h80]; simp), if_neg (by rw [h80']; simp)]
  · refine ⟨_, by rw [hb, Insights.dbl_budgetOf_eq], ?_⟩
    intro hx
    exact ⟨fl (fl (fl spent / fl ((budgets.lookup category).getD 0)) * 100), by
      rw [hp, hb, Insights.dbl_budgetOf_eq, lit_eq, hundred_eq, div_mk _ (ne_of_gt hx), mul_mk]⟩

theorem C1_budget_threshold_rule_witness :
    Insights.budgetInsight [("Food", 200)] [] ("Food", 250) = [] ++ [{
      type := "alert"
      icon := Icon.AlertCircle
      title := "Over Budget"
      message := "You've exceeded your " ++ "Food" ++ " budget by $" ++
        (lit 250 - Insights.budgetOf [("Food", 200)] "Food").toFixed 2 }] := by
  have hb : Insights.budgetOf [("Food", 200)] "Food" = ⟨fin 200⟩ := by
    rw [Insights.dbl_budgetOf_eq]
    simp only [List.lookup, beq_self_eq_true, Option.getD_some, fl_ofNat 200 (by norm_num)]
  have hq : fl (250 / 200) = 5 / 4 := by
    have := fl_eval (250 / 200) 5629499534213120 52 (by norm_num) (by norm_num) (by norm_num)
      (by norm_num) (by norm_num)
    rw [this]; norm_num
  have hm : fl (5 / 4 * 100) = 125 := by
    have := fl_ofNat 125 (by norm_num)
    rw [← this]; norm_num
  exact (C1_budget_threshold_rule [("Food", 200)] [] [] "Food" 250 _ _ rfl rfl).2.1
    (by rw [hb, zero_eq, gt_mk]; norm_num)
    (by
      rw [hb, lit_of_eq (fl_ofNat 250 (by norm_num)), hundred_eq, div_mk _ (by norm_num), hq,
        mul_mk, hm, gt_mk]
      norm_num)

end F64

namespace F64

open Double

/-- C2 as stated fails: for income 1000.25 and expenses 800.2 the rate
`(income - expenses)/income*100` is exactly 20, for which the claim says that
"Excellent Savings!" is emitted; the code computes the rate in doubles, gets
`5629499534213119 / 2^48 = 19.999999999999996...`, and emits nothing. -/
theorem C2_savings_rate_counterexample :
    ((1000.25 : ℚ) - 800.2) / 1000.25 * 100 = 20
    ∧ Insights.savingsRate 1000.25 800.2 = ⟨fin (5629499534213119 / 2 ^ 48)⟩
    ∧ (5629499534213119 / 2 ^ 48 : ℚ) < 20
    ∧ Insights.savingsInsight [] 1000.25 800.2 = [] := by
  have h1 : fl (1000.25) = 8798292045463552 / 2 ^ 43 :=
    fl_eval _ 8798292045463552 43 (by norm_num) (by norm_num) (by norm_num) (by norm_num)
      (by norm_num)
  have h2 : fl (800.2) = 7038633636370842 / 2 ^ 43 :=
    fl_eval _ 7038633636370842 43 (by norm_num) (by norm_num) (by norm_num) (by norm_num)
      (by norm_num)
  have h3 : fl (8798292045463552 / 2 ^ 43 - 7038633636370842 / 2 ^ 43)
      = 7038633636370840 / 2 ^ 45 :=
    fl_eval _ 7038633636370840 45 (by norm_num) (by norm_num) (by norm_num) (by norm_num)
      (by norm_num)
  have h4 : fl (7038633636370840 / 2 ^ 45 / (8798292045463552 / 2 ^ 43))
      = 7205759403792792 / 2 ^ 55 :=
    fl_eval _ 7205759403792792 55 (by norm_num) (by norm_num) (by norm_num) (by norm_num)
      (by norm_num)
  have h5 : fl (7205759403792792 / 2 ^ 55 * 100) = 5629499534213119 / 2 ^ 48 :=
    fl_eval _ 5629499534213119 48 (by norm_num) (by norm_num) (by norm_num) (by norm_num)
      (by norm_num)
  have hr : Insights.savingsRate 1000.25 800.2 = ⟨fin (5629499534213119 / 2 ^ 48)⟩ := by
    unfold Insights.savingsRate
    rw [lit_of_eq h1, lit_of_eq h2, hundred_eq, sub_mk, h3, div_mk _ (by norm_num), h4, mul_mk,
      h5]
  refine ⟨by norm_num, hr, by norm_num, ?_⟩
  rw [Insights.dbl_savingsInsight_eq, hr, lit_of_eq h1]
  simp only [zero_eq, ten_eq, twenty_eq, gt_mk, lt_mk, ge_mk]
  rw [if_pos (by norm_num), if_neg (by norm_num), if_neg (by norm_num)]

/-- C2 (amended): savings-rate rule of `generateInsights`, with the rate as the
code computes it.  With `total_income > 0` and
`rate = ((total_income - total_expenses)/total_income)*100`, the difference,
the quotient and the product each rounded to the nearest double, the block
pushes exactly the warning "Low Savings Rate" when `rate < 10`, exactly the
success "Excellent Savings!" when `rate >= 20`, and nothing when
`10 <= rate < 20` (so nothing for income 1000 and expenses 850, whose computed
rate is 15); with `total_income = 0` it pushes nothing.  The rate is a finite
number when `total_income > 0`. -/
theorem C2_savings_rate_rule (acc : List Insight) (income expenses : ℚ) (rate : Double)
    (hrate : rate = Insights.savingsRate income expenses) :
    ((lit income).gt 0 = true → rate.lt 10 = true →
      Insights.savingsInsight acc income expenses = acc ++ [{
        type := "warning"
        icon := Icon.Lightbulb
        title := "Low Savings Rate"
        message := "You're saving only " ++ rate.toFixed 1 ++
          "% of your income. Aim for at least 20%!" }])
    ∧ ((lit income).gt 0 = true → rate.lt 10 = false → rate.ge 20 = true →
      Insights.savingsInsight acc income expenses = acc ++ [{
        type := "success"
        icon := Icon.TrendingUp
        title := "Excellent Savings!"
        message := "You're saving " ++ rate.toFixed 1 ++
          "% of your income. That's fantastic!" }])
    ∧ ((lit income).gt 0 = true → rate.lt 10 = false → rate.ge 20 = false →
      Insights.savingsInsight acc income expenses = acc)
    ∧ ((lit income).gt 0 = false → Insights.savingsInsight acc income expenses = acc)
    ∧ Insights.savingsInsight acc 0 expenses = acc
    ∧ (Insights.savingsRate 1000 850 = ⟨fin 15⟩ ∧ Insights.savingsInsight acc 1000 850 = acc)
    ∧ ((lit income).gt 0 = true → ∃ r : ℚ, rate = ⟨fin r⟩) := by
  have key := Insights.dbl_savingsInsight_eq acc income expenses
  rw [← hrate] at key
  have h6 : fl ((1000 - 850) / 1000) = 5404319552844595 / 2 ^ 55 :=
    fl_eval _ 5404319552844595 55 (by norm_num) (by norm_num) (by norm_num) (by norm_num)
      (by norm_num)
  have h7 : fl (5404319552844595 / 2 ^ 55 * 100) = 15 := by
    have := fl_eval (5404319552844595 / 2 ^ 55 * 100) 8444249301319680 49 (by norm_num)
      (by norm_num) (by norm_num) (by norm_num) (by norm_num)
    rw [this]; norm_num
  have h8 : fl (1000 - 850) = 150 := by
    have := fl_ofNat 150 (by norm_num)
    rw [← this]; norm_num
  have h15 : Insights.savingsRate 1000 850 = ⟨fin 15⟩ := by
    unfold Insights.savingsRate
    rw [lit_of_eq (fl_ofNat 1000 (by norm_num)), lit_of_eq (fl_ofNat 850 (by norm_num)),
      hundred_eq, sub_mk, h8, div_mk _ (by norm_num)]
    have : (150 : ℚ) / 1000 = (1000 - 850) / 1000 := by norm_num
    rw [this, h6, mul_mk, h7]
  refine ⟨?_, ?_, ?_, ?_, ?_, ⟨h15, ?_⟩, ?_⟩
  · intro h0 h1
    rw [key, if_pos h0, if_pos h1]
  · intro h0 h1 h2
    rw [key, if_pos h0, if_neg (by rw [h1]; simp), if_pos h2]
  · intro h0 h1 h2
    rw [key, if_pos h0, if_neg (by rw [h1]; simp), if_neg (by rw [h2]; simp)]
  · intro h0
    rw [key, if_neg (by rw [h0]; simp)]
  · rw [Insights.dbl_savingsInsight_eq, lit_of_eq fl_zero, zero_eq, gt_mk]
    simp
  · rw [Insights.dbl_savingsInsight_eq, h15, lit_of_eq (fl_ofNat 1000 (by norm_num))]
    simp only [zero_eq, ten_eq, twenty_eq, gt_mk, lt_mk, ge_mk]
    rw [if_pos (by norm_num), if_neg (by norm_num), if_neg (by norm_num)]
  · intro h0
    rw [lit_eq, zero_eq, gt_mk, decide_eq_true_eq] at h0
    exact ⟨fl (fl (fl (fl income - fl expenses) / fl income) * 100), by
      rw [hrate]
      unfold Insights.savingsRate
      rw [lit_eq, lit_eq, hundred_eq, sub_mk, div_mk _ (ne_of_gt h0), mul_mk]⟩

theorem C2_savings_rate_rule_witness :
    Insights.savingsInsight [] 1024 1000 = [] ++ [{
      type := "warning"
      icon := Icon.Lightbulb
      title := "Low Savings Rate"
      message := "You're saving only " ++ (Insights.savingsRate 1024 1000).toFixed 1 ++
        "% of your income. Aim for at least 20%!" }] := by
  have w0 : fl (1024 - 1000) = 24 := by
    have := fl_ofNat 24 (by norm_num)
    rw [← this]; norm_num
  have w1 : fl (24 / 1024) = 6755399441055744 / 2 ^ 58 :=
    fl_eval _ 6755399441055744 58 (by norm_num) (by norm_num) (by norm_num) (by norm_num)
      (by norm_num)
  have w2 : fl (6755399441055744 / 2 ^ 58 * 100) = 5277655813324800 / 2 ^ 51 :=
    fl_eval _ 5277655813324800 51 (by norm_num) (by norm_num) (by norm_num) (by norm_num)
      (by norm_num)
  have hr : Insights.savingsRate 1024 1000 = ⟨fin (5277655813324800 / 2 ^ 51)⟩ := by
    unfold Insights.savingsRate
    rw [lit_of_eq (fl_ofNat 1024 (by norm_num)), lit_of_eq (fl_ofNat 1000 (by norm_num)),
      hundred_eq, sub_mk, w0, div_mk _ (by norm_num), w1, mul_mk, w2]
  exact (C2_savings_rate_rule [] 1024 1000 _ rfl).1
    (by rw [lit_of_eq (fl_ofNat 1024 (by norm_num)), zero_eq, gt_mk]; norm_num)
    (by rw [hr, ten_eq, lt_mk]; norm_num)

end F64

namespace F64

open Double

namespace Insights

/-- The two averages of the momentum block, for a series of at least two
entries: both windows hold `min 7 n` entries. -/
theorem dbl_momentum_averages (daily_totals : List DailyTotal) (h : 2 ≤ daily_totals.length) :
    recentAvg daily_totals
      = sumAmounts (daily_totals.drop (daily_totals.length - min 7 daily_totals.length))
          / lit ((min 7 daily_totals.length : ℕ) : ℚ)
    ∧ earlierAvg daily_totals
      = sumAmounts (daily_totals.take (min 7 daily_totals.length))
          / lit ((min 7 daily_totals.length : ℕ) : ℚ) := by
  have hl1 : (daily_totals.drop (daily_totals.length - min 7 daily_totals.length)).length
      = min 7 daily_totals.length := by
    rw [List.length_drop]; omega
  have hl2 : (daily_totals.take (min 7 daily_totals.length)).length
      = min 7 daily_totals.length := by
    rw [List.length_take]; omega
  unfold recentAvg earlierAvg
  rw [BudgetAI.Insights.slice_last7, BudgetAI.Insights.slice_first7, hl1, hl2]
  exact ⟨rfl, rfl⟩

/-- A sum of whole amounts is exact as long as it stays below `2^53`. -/
theorem dbl_foldl_whole (xs : List DailyTotal) : ∀ (ns : List ℕ) (a : ℕ),
    xs.map DailyTotal.amount = ns.map (Nat.cast : ℕ → ℚ) → a + ns.sum < 2 ^ 53 →
    xs.foldl (fun sum d => sum + lit d.amount) ⟨fin (a : ℚ)⟩
      = ⟨fin ((a + ns.sum : ℕ) : ℚ)⟩ := by
  induction xs with
  | nil =>
    intro ns a h _
    cases ns with
    | nil => simp
    | cons n ns => simp at h
  | cons x xs ih =>
    intro ns a h hb
    cases ns with
    | nil => simp at h
    | cons n ns =>
      simp only [List.map_cons, List.cons.injEq] at h
      simp only [List.sum_cons] at hb
      have hn : fl x.amount = n := by rw [h.1]; exact fl_natCast n (by omega)
      have hstep : (⟨fin (a : ℚ)⟩ + lit x.amount : Double) = ⟨fin ((a + n : ℕ) : ℚ)⟩ := by
        rw [lit_of_eq hn, add_mk]
        have : ((a : ℚ) + n) = ((a + n : ℕ) : ℚ) := by push_cast; ring
        rw [this, fl_natCast _ (by omega)]
      rw [List.foldl_cons, hstep, ih ns (a + n) h.2 (by omega), List.sum_cons]
      congr 3
      omega

theorem dbl_sumAmounts_whole (xs : List DailyTotal) (ns : List ℕ)
    (h : xs.map DailyTotal.amount = ns.map (Nat.cast : ℕ → ℚ)) (hb : ns.sum < 2 ^ 53) :
    sumAmounts xs = ⟨fin (ns.sum : ℚ)⟩ := by
  have := dbl_foldl_whole xs ns 0 h (by omega)
  unfold sumAmounts
  rw [zero_eq]
  simpa using this

/-- A sum of amounts that are not negative is a finite double that is not
negative. -/
theorem dbl_foldl_nonneg (xs : List DailyTotal) : ∀ (a : ℚ),
    (∀ x ∈ xs, 0 ≤ x.amount) → 0 ≤ a → fl a = a →
    ∃ s : ℚ, xs.foldl (fun sum d => sum + lit d.amount) ⟨fin a⟩ = ⟨fin s⟩ ∧ 0 ≤ s
      ∧ fl s = s := by
  induction xs with
  | nil =>
    intro a _ ha hfa
    exact ⟨a, rfl, ha, hfa⟩
  | cons x xs ih =>
    intro a h ha _
    have hx : 0 ≤ fl x.amount := fl_nonneg (h x (List.mem_cons_self _ _))
    rw [List.foldl_cons, lit_eq, add_mk]
    exact ih _ (fun y hy => h y (List.mem_cons_of_mem _ hy)) (fl_nonneg (by linarith))
      (fl_idem _)

theorem dbl_sumAmounts_nonneg (xs : List DailyTotal) (h : ∀ x ∈ xs, 0 ≤ x.amount) :
    ∃ s : ℚ, sumAmounts xs = ⟨fin s⟩ ∧ 0 ≤ s ∧ fl s = s := by
  unfold sumAmounts
  rw [zero_eq]
  exact dbl_foldl_nonneg xs 0 h le_rfl fl_zero

/-- The averages of a series of at least two amounts that are not negative are
finite doubles that are not negative. -/
theorem dbl_averages_nonneg (daily_totals : List DailyTotal) (h2 : 2 ≤ daily_totals.length)
    (h : ∀ x ∈ daily_totals, 0 ≤ x.amount) :
    ∃ r e : ℚ, recentAvg daily_totals = ⟨fin r⟩ ∧ earlierAvg daily_totals = ⟨fin e⟩
      ∧ 0 ≤ r ∧ 0 ≤ e ∧ fl r = r ∧ fl e = e := by
  obtain ⟨h1, h3⟩ := dbl_momentum_averages daily_totals h2
  obtain ⟨sr, hsr, hsr0, -⟩ := dbl_sumAmounts_nonneg
    (daily_totals.drop (daily_totals.length - min 7 daily_totals.length))
    (fun x hx => h x (List.mem_of_mem_drop hx))
  obtain ⟨se, hse, hse0, -⟩ := dbl_sumAmounts_nonneg
    (daily_totals.take (min 7 daily_totals.length))
    (fun x hx => h x (List.mem_of_mem_take hx))
  have hk : fl ((min 7 daily_totals.length : ℕ) : ℚ) = (min 7 daily_totals.length : ℕ) :=
    fl_natCast _ (lt_of_le_of_lt (min_le_left _ _) (by norm_num))
  have hkpos : (0 : ℚ) < (min 7 daily_totals.length : ℕ) := by
    have : 0 < min 7 daily_totals.length := by omega
    exact_mod_cast this
  refine ⟨fl (sr / (min 7 daily_totals.length : ℕ)), fl (se / (min 7 daily_totals.length : ℕ)),
    ?_, ?_, fl_nonneg (div_nonneg hsr0 hkpos.le), fl_nonneg (div_nonneg hse0 hkpos.le),
    fl_idem _, fl_idem _⟩
  · rw [h1, hsr, lit_of_eq hk, div_mk _ hkpos.ne']
  · rw [h3, hse, lit_of_eq hk, div_mk _ hkpos.ne']

end Insights

/-- C3 as stated fails: for the daily amounts 3, 2, 2, 2, 2, 2, 2, 6 the recent
mean is `18/7` and the earlier mean `15/7`, so `recent = 1.2 * earlier`
exactly and the claim says that no momentum insight is emitted; the code
computes `15/7`, the product with the double `1.2` and `18/7` in doubles, finds
`recent > 1.2 * earlier`, and emits the warning "Spending Increasing". -/
theorem C3_spending_momentum_counterexample :
    ((2 + 2 + 2 + 2 + 2 + 2 + 6 : ℚ) / 7 = 1.2 * ((3 + 2 + 2 + 2 + 2 + 2 + 2) / 7))
    ∧ ¬ ((2 + 2 + 2 + 2 + 2 + 2 + 6 : ℚ) / 7 < 0.8 * ((3 + 2 + 2 + 2 + 2 + 2 + 2) / 7))
    ∧ Insights.spendingTrendInsight []
        [⟨"05-01", 3⟩, ⟨"05-02", 2⟩, ⟨"05-03", 2⟩, ⟨"05-04", 2⟩, ⟨"05-05", 2⟩, ⟨"05-06", 2⟩,
          ⟨"05-07", 2⟩, ⟨"05-08", 6⟩] = [{
        type := "warning"
        icon := Icon.TrendingUp
        title := "Spending Increasing"
        message :=
          "Your daily spending has increased by 20% recently. Consider reviewing your expenses." }]
    := by
  have hR : fl (18 / 7) = 5790342378047781 / 2 ^ 51 :=
    fl_eval _ 5790342378047781 51 (by norm_num) (by norm_num) (by norm_num) (by norm_num)
      (by norm_num)
  have hE : fl (15 / 7) = 4825285315039817 / 2 ^ 51 :=
    fl_eval _ 4825285315039817 51 (by norm_num) (by norm_num) (by norm_num) (by norm_num)
      (by norm_num)
  have hT : fl (4825285315039817 / 2 ^ 51 * (5404319552844595 / 2 ^ 52))
      = 5790342378047780 / 2 ^ 51 :=
    fl_eval _ 5790342378047780 51 (by norm_num) (by norm_num) (by norm_num) (by norm_num)
      (by norm_num)
  have hQ : fl (5790342378047781 / 2 ^ 51 / (4825285315039817 / 2 ^ 51))
      = 5404319552844596 / 2 ^ 52 :=
    fl_eval _ 5404319552844596 52 (by norm_num) (by norm_num) (by norm_num) (by norm_num)
      (by norm_num)
  have hD : fl (5404319552844596 / 2 ^ 52 - 1) = 7205759403792800 / 2 ^ 55 :=
    fl_eval _ 7205759403792800 55 (by norm_num) (by norm_num) (by norm_num) (by norm_num)
      (by norm_num)
  have hP : fl (7205759403792800 / 2 ^ 55 * 100) = 5629499534213125 / 2 ^ 48 :=
    fl_eval _ 5629499534213125 48 (by norm_num) (by norm_num) (by norm_num) (by norm_num)
      (by norm_num)
  have h7 : lit ((7 : ℕ) : ℚ) = ⟨fin 7⟩ := by
    rw [lit_natCast 7 (by norm_num)]; norm_num
  obtain ⟨h1, h3⟩ := Insights.dbl_momentum_averages
    [⟨"05-01", 3⟩, ⟨"05-02", 2⟩, ⟨"05-03", 2⟩, ⟨"05-04", 2⟩, ⟨"05-05", 2⟩, ⟨"05-06", 2⟩,
      ⟨"05-07", 2⟩, ⟨"05-08", 6⟩] (by simp)
  have hsr : Insights.sumAmounts [⟨"05-02", 2⟩, ⟨"05-03", 2⟩, ⟨"05-04", 2⟩, ⟨"05-05", 2⟩,
      ⟨"05-06", 2⟩, ⟨"05-07", 2⟩, ⟨"05-08", 6⟩] = ⟨fin 18⟩ := by
    rw [Insights.dbl_sumAmounts_whole _ [2, 2, 2, 2, 2, 2, 6] (by simp) (by norm_num)]
    norm_num
  have hse : Insights.sumAmounts [⟨"05-01", 3⟩, ⟨"05-02", 2⟩, ⟨"05-03", 2⟩, ⟨"05-04", 2⟩,
      ⟨"05-05", 2⟩, ⟨"05-06", 2⟩, ⟨"05-07", 2⟩] = ⟨fin 15⟩ := by
    rw [Insights.dbl_sumAmounts_whole _ [3, 2, 2, 2, 2, 2, 2] (by simp) (by norm_num)]
    norm_num
  simp only [List.length_cons, List.length_nil, List.drop, List.take,
    show min 7 (0 + 1 + 1 + 1 + 1 + 1 + 1 + 1 + 1) = 7 from rfl,
    show 0 + 1 + 1 + 1 + 1 + 1 + 1 + 1 + 1 - 7 = 1 from rfl, hsr, hse, h7] at h1 h3
  rw [div_mk _ (by norm_num), hR] at h1
  rw [div_mk _ (by norm_num), hE] at h3
  refine ⟨by norm_num, by norm_num, ?_⟩
  rw [Insights.dbl_spendingTrendInsight_eq _ _ (by simp), h1, h3, lit_1_2, one_eq, hundred_eq,
    mul_mk, hT, div_mk _ (by norm_num), hQ, sub_mk, hD, mul_mk, hP, gt_mk,
    if_pos (by norm_num), toFixed_mk,
    JSNum.toFixed_nonneg _ 0 20 (by norm_num) (by norm_num) (by norm_num)]
  decide

/-- C3 (amended): spending-momentum rule of `generateInsights`, with the means
and the thresholds as the code computes them.  For a series of `n >= 2`
entries, `recent` is the sum of the amounts of the last `min 7 n` entries
divided by `min 7 n`, `earlier` the same for the first `min 7 n` entries, each
addition and division rounded to the nearest double.  The block pushes the
warning "Spending Increasing" with percentage `(recent/earlier - 1)*100` when
`recent > earlier * 1.2`, otherwise the success "Great Job!" with percentage
`(1 - recent/earlier)*100` when `recent < earlier * 0.8`, otherwise nothing;
the products are rounded, and `1.2`, `0.8` are the doubles nearest to these
decimals.  With fewer than 2 entries it pushes nothing. -/
theorem C3_spending_momentum_rule (acc : List Insight) (daily_totals : List DailyTotal)
    (n : ℕ) (recent earlier : Double) (hn : n = daily_totals.length)
    (hrecent : recent =
      Insights.sumAmounts (daily_totals.drop (n - min 7 n)) / lit ((min 7 n : ℕ) : ℚ))
    (hearlier : earlier =
      Insights.sumAmounts (daily_totals.take (min 7 n)) / lit ((min 7 n : ℕ) : ℚ)) :
    (2 ≤ n → recent.gt (earlier * 1.2) = true →
      Insights.spendingTrendInsight acc daily_totals = acc ++ [{
        type := "warning"
        icon := Icon.TrendingUp
        title := "Spending Increasing"
        message := "Your daily spending has increased by " ++
          ((recent / earlier - 1) * 100).toFixed 0 ++
          "% recently. Consider reviewing your expenses." }])
    ∧ (2 ≤ n → recent.gt (earlier * 1.2) = false → recent.lt (earlier * 0.8) = true →
      Insights.spendingTrendInsight acc daily_totals = acc ++ [{
        type := "success"
        icon := Icon.TrendingDown
        title := "Great Job!"
        message := "Your spending has decreased by " ++
          ((1 - recent / earlier) * 100).toFixed 0 ++ "%. Keep it up!" }])
    ∧ (2 ≤ n → recent.gt (earlier * 1.2) = false → recent.lt (earlier * 0.8) = false →
      Insights.spendingTrendInsight acc daily_totals = acc)
    ∧ (n < 2 → Insights.spendingTrendInsight acc daily_totals = acc)
    ∧ (2 ≤ n → recent = Insights.recentAvg daily_totals
        ∧ earlier = Insights.earlierAvg daily_totals) := by
  subst hn
  have hav : 2 ≤ daily_totals.length → recent = Insights.recentAvg daily_totals
      ∧ earlier = Insights.earlierAvg daily_totals := by
    intro h2
    obtain ⟨h1, h3⟩ := Insights.dbl_momentum_averages daily_totals h2
    exact ⟨by rw [hrecent, h1], by rw [hearlier, h3]⟩
  refine ⟨?_, ?_, ?_, ?_, hav⟩
  · intro h2 h
    obtain ⟨hr, he⟩ := hav h2
    rw [Insights.dbl_spendingTrendInsight_eq _ _ h2, ← hr, ← he, if_pos h]
  · intro h2 h h'
    obtain ⟨hr, he⟩ := hav h2
    rw [Insights.dbl_spendingTrendInsight_eq _ _ h2, ← hr, ← he, if_neg (by rw [h]; simp),
      if_pos h']
  · intro h2 h h'
    obtain ⟨hr, he⟩ := hav h2
    rw [Insights.dbl_spendingTrendInsight_eq _ _ h2, ← hr, ← he, if_neg (by rw [h]; simp),
      if_neg (by rw [h']; simp)]
  · intro h2
    exact Insights.dbl_spendingTrendInsight_short _ _ h2

end F64

namespace F64

open Double

namespace Insights

/-- The averages of the series 1, 1, 1, 1, 1, 1, 1, 8: the last seven amounts
sum to 14 and the first seven to 7. -/
theorem dbl_example_averages :
    recentAvg [⟨"05-01", 1⟩, ⟨"05-02", 1⟩, ⟨"05-03", 1⟩, ⟨"05-04", 1⟩, ⟨"05-05", 1⟩,
        ⟨"05-06", 1⟩, ⟨"05-07", 1⟩, ⟨"05-08", 8⟩] = ⟨fin 2⟩
    ∧ earlierAvg [⟨"05-01", 1⟩, ⟨"05-02", 1⟩, ⟨"05-03", 1⟩, ⟨"05-04", 1⟩, ⟨"05-05", 1⟩,
        ⟨"05-06", 1⟩, ⟨"05-07", 1⟩, ⟨"05-08", 8⟩] = ⟨fin 1⟩ := by
  have h7 : lit ((7 : ℕ) : ℚ) = ⟨fin 7⟩ := by
    rw [lit_natCast 7 (by norm_num)]; norm_num
  have hsr : sumAmounts [⟨"05-02", 1⟩, ⟨"05-03", 1⟩, ⟨"05-04", 1⟩, ⟨"05-05", 1⟩,
      ⟨"05-06", 1⟩, ⟨"05-07", 1⟩, ⟨"05-08", 8⟩] = ⟨fin 14⟩ := by
    rw [dbl_sumAmounts_whole _ [1, 1, 1, 1, 1, 1, 8] (by simp) (by norm_num)]
    norm_num
  have hse : sumAmounts [⟨"05-01", 1⟩, ⟨"05-02", 1⟩, ⟨"05-03", 1⟩, ⟨"05-04", 1⟩,
      ⟨"05-05", 1⟩, ⟨"05-06", 1⟩, ⟨"05-07", 1⟩] = ⟨fin 7⟩ := by
    rw [dbl_sumAmounts_whole _ [1, 1, 1, 1, 1, 1, 1] (by simp) (by norm_num)]
    norm_num
  have hR : fl (14 / 7) = 2 := by
    have := fl_ofNat 2 (by norm_num)
    rw [← this]; norm_num
  have hE : fl (7 / 7) = 1 := by
    rw [← fl_one]; norm_num
  obtain ⟨h1, h3⟩ := dbl_momentum_averages
    [⟨"05-01", 1⟩, ⟨"05-02", 1⟩, ⟨"05-03", 1⟩, ⟨"05-04", 1⟩, ⟨"05-05", 1⟩, ⟨"05-06", 1⟩,
      ⟨"05-07", 1⟩, ⟨"05-08", 8⟩] (by simp)
  simp only [List.length_cons, List.length_nil, List.drop, List.take,
    show min 7 (0 + 1 + 1 + 1 + 1 + 1 + 1 + 1 + 1) = 7 from rfl,
    show 0 + 1 + 1 + 1 + 1 + 1 + 1 + 1 + 1 - 7 = 1 from rfl, hsr, hse, h7] at h1 h3
  rw [div_mk _ (by norm_num), hR] at h1
  rw [div_mk _ (by norm_num), hE] at h3
  exact ⟨h1, h3⟩

/-- On the series 1, 1, 1, 1, 1, 1, 1, 8 the recent average 2 is above the
rounded product of the earlier average 1 and `1.2`. -/
theorem dbl_example_rises :
    (recentAvg [⟨"05-01", 1⟩, ⟨"05-02", 1⟩, ⟨"05-03", 1⟩, ⟨"05-04", 1⟩, ⟨"05-05", 1⟩,
        ⟨"05-06", 1⟩, ⟨"05-07", 1⟩, ⟨"05-08", 8⟩]).gt
      (earlierAvg [⟨"05-01", 1⟩, ⟨"05-02", 1⟩, ⟨"05-03", 1⟩, ⟨"05-04", 1⟩, ⟨"05-05", 1⟩,
        ⟨"05-06", 1⟩, ⟨"05-07", 1⟩, ⟨"05-08", 8⟩] * 1.2) = true := by
  have hT : fl (1 * (5404319552844595 / 2 ^ 52)) = 5404319552844595 / 2 ^ 52 := by
    rw [one_mul, ← fl_1_2, fl_idem]
  rw [dbl_example_averages.1, dbl_example_averages.2, lit_1_2, mul_mk, hT, gt_mk]
  norm_num

end Insights

end F64

namespace F64

open Double

theorem C3_spending_momentum_rule_witness :
    Insights.spendingTrendInsight []
      [⟨"05-01", 1⟩, ⟨"05-02", 1⟩, ⟨"05-03", 1⟩, ⟨"05-04", 1⟩, ⟨"05-05", 1⟩, ⟨"05-06", 1⟩,
        ⟨"05-07", 1⟩, ⟨"05-08", 8⟩] = [] ++ [{
      type := "warning"
      icon := Icon.TrendingUp
      title := "Spending Increasing"
      message := "Your daily spending has increased by " ++
        (((⟨fin 2⟩ : Double) / ⟨fin 1⟩ - 1) * 100).toFixed 0 ++
        "% recently. Consider reviewing your expenses." }] := by
  obtain ⟨h1, h3⟩ := Insights.dbl_momentum_averages
    [⟨"05-01", 1⟩, ⟨"05-02", 1⟩, ⟨"05-03", 1⟩, ⟨"05-04", 1⟩, ⟨"05-05", 1⟩, ⟨"05-06", 1⟩,
      ⟨"05-07", 1⟩, ⟨"05-08", 8⟩] (by simp)
  rw [Insights.dbl_example_averages.1] at h1
  rw [Insights.dbl_example_averages.2] at h3
  have hgt := Insights.dbl_example_rises
  rw [Insights.dbl_example_averages.1, Insights.dbl_example_averages.2] at hgt
  exact (C3_spending_momentum_rule []
    [⟨"05-01", 1⟩, ⟨"05-02", 1⟩, ⟨"05-03", 1⟩, ⟨"05-04", 1⟩, ⟨"05-05", 1⟩, ⟨"05-06", 1⟩,
      ⟨"05-07", 1⟩, ⟨"05-08", 8⟩] 8 ⟨fin 2⟩ ⟨fin 1⟩ rfl h1 h3).1 (by norm_num) hgt

end F64

namespace F64

open Double

/-- C6: top-category rule of `generateInsights`.  `category_trends` arrives
ranked by total in descending order (the Trend of the data model).  For a
non-empty `category_trends` exactly one insight "Top Spending" of type info is
pushed; it names the first entry, whose total is maximal among all entries,
together with that entry's total (two decimals) and transaction count.  For an
empty `category_trends` nothing is pushed. -/
theorem C6_top_category_rule (acc : List Insight) (category_trends : List CategoryTrend)
    (top : CategoryTrend) (rest : List CategoryTrend) (h : category_trends = top :: rest)
    (hranked : category_trends.Pairwise (fun a b => b.total ≤ a.total)) :
    Insights.topCategoryInsight acc category_trends = acc ++ [{
        type := "info"
        icon := Icon.Lightbulb
        title := "Top Spending"
        message := top.name ++ " is your biggest expense at $" ++ (lit top.total).toFixed 2 ++
          " (" ++ toString top.count ++ " transactions)" }]
    ∧ top ∈ category_trends
    ∧ (∀ c ∈ category_trends, c.total ≤ top.total)
    ∧ Insights.generateInsights ⟨category_trends, []⟩ ⟨0, 0, [], []⟩ = [{
        type := "info"
        icon := Icon.Lightbulb
        title := "Top Spending"
        message := top.name ++ " is your biggest expense at $" ++ (lit top.total).toFixed 2 ++
          " (" ++ toString top.count ++ " transactions)" }]
    ∧ Insights.topCategoryInsight acc [] = acc
    ∧ Insights.generateInsights ⟨[], []⟩ ⟨0, 0, [], []⟩ = [] := by
  subst h
  have hsav : Insights.savingsInsight [] 0 0 = [] := by
    rw [Insights.dbl_savingsInsight_eq, lit_of_eq fl_zero, zero_eq, gt_mk]
    simp
  refine ⟨Insights.dbl_topCategoryInsight_cons acc top rest, List.mem_cons_self _ _, ?_, ?_,
    by simp [Insights.topCategoryInsight], ?_⟩
  · intro c hc
    rw [List.pairwise_cons] at hranked
    rcases List.mem_cons.mp hc with rfl | hc
    · exact le_refl _
    · exact hranked.1 c hc
  · rw [Insights.dbl_generateInsights_eq_append, Insights.dbl_topCategoryInsight_cons, hsav]
    simp [Insights.spendingTrendInsight, Insights.budgetInsights]
  · rw [Insights.dbl_generateInsights_eq_append, hsav]
    simp [Insights.spendingTrendInsight, Insights.budgetInsights, Insights.topCategoryInsight]

theorem C6_top_category_rule_witness :
    Insights.topCategoryInsight [] [⟨"Rent", 900, 2⟩, ⟨"Food", 250.5, 7⟩] = [] ++ [{
      type := "info"
      icon := Icon.Lightbulb
      title := "Top Spending"
      message := "Rent" ++ " is your biggest expense at $" ++ (lit 900).toFixed 2 ++
        " (" ++ toString 2 ++ " transactions)" }]
    ∧ ∀ c ∈ [(⟨"Rent", 900, 2⟩ : CategoryTrend), ⟨"Food", 250.5, 7⟩], c.total ≤ 900 :=
  ⟨(C6_top_category_rule [] [⟨"Rent", 900, 2⟩, ⟨"Food", 250.5, 7⟩] ⟨"Rent", 900, 2⟩
      [⟨"Food", 250.5, 7⟩] rfl (by simp; norm_num)).1,
   (C6_top_category_rule [] [⟨"Rent", 900, 2⟩, ⟨"Food", 250.5, 7⟩] ⟨"Rent", 900, 2⟩
      [⟨"Food", 250.5, 7⟩] rfl (by simp; norm_num)).2.2.1⟩

end F64

namespace F64

open Double

/-- C17 as stated fails: a budget usage of 171 of 200 is computed as the double
85.5 and shown as "86", with no decimal, where rounding to one decimal gives
"85.5". -/
theorem C17_display_precision_counterexample :
    Insights.generateInsights ⟨[], []⟩ ⟨0, 0, [("Food", 171)], [("Food", 200)]⟩ = [{
        type := "warning"
        icon := Icon.AlertCircle
        title := "Approaching Limit"
        message := "You've used 86% of your Food budget" }]
    ∧ (lit 171 / Insights.budgetOf [("Food", 200)] "Food") * 100 = ⟨fin (171 / 2)⟩
    ∧ ((lit 171 / Insights.budgetOf [("Food", 200)] "Food") * 100).toFixed 1 = "85.5"
    ∧ ((lit 171 / Insights.budgetOf [("Food", 200)] "Food") * 100).toFixed 0 = "86" := by
  have h1 : fl (171 / 200) = 7701155362803548 / 2 ^ 53 :=
    fl_eval _ 7701155362803548 53 (by norm_num) (by norm_num) (by norm_num) (by norm_num)
      (by norm_num)
  have h2 : fl (7701155362803548 / 2 ^ 53 * 100) = 171 / 2 := by
    have := fl_eval (7701155362803548 / 2 ^ 53 * 100) 6016527627190272 46 (by norm_num)
      (by norm_num) (by norm_num) (by norm_num) (by norm_num)
    rw [this]; norm_num
  have hb : Insights.budgetOf [("Food", 200)] "Food" = ⟨fin 200⟩ := by
    rw [Insights.dbl_budgetOf_eq]
    simp only [List.lookup, beq_self_eq_true, Option.getD_some, fl_ofNat 200 (by norm_num)]
  have hp : (lit 171 / Insights.budgetOf [("Food", 200)] "Food") * 100 = ⟨fin (171 / 2)⟩ := by
    rw [hb, lit_of_eq (fl_ofNat 171 (by norm_num)), hundred_eq, div_mk _ (by norm_num), h1,
      mul_mk, h2]
  have h86 : (⟨fin (171 / 2)⟩ : Double).toFixed 0 = "86" :=
    (JSNum.toFixed_nonneg _ 0 86 (by norm_num) (by norm_num) (by norm_num)).trans (by decide)
  have h855 : (⟨fin (171 / 2)⟩ : Double).toFixed 1 = "85.5" :=
    (JSNum.toFixed_nonneg _ 1 855 (by norm_num) (by norm_num) (by norm_num)).trans (by decide)
  have hsav : Insights.savingsInsight [] 0 0 = [] := by
    rw [Insights.dbl_savingsInsight_eq, lit_of_eq fl_zero, zero_eq, gt_mk]
    simp
  refine ⟨?_, hp, by rw [hp, h855], by rw [hp, h86]⟩
  rw [Insights.dbl_generateInsights_eq_append, hsav, Insights.dbl_budgetInsights_eq_flatMap]
  simp only [Insights.spendingTrendInsight, Insights.topCategoryInsight, List.length_nil,
    gt_iff_lt, Nat.not_lt_zero, if_false, List.nil_append, List.append_nil, List.flatMap_cons,
    List.flatMap_nil, lt_self_iff_false]
  rw [Insights.dbl_budgetInsight_eq, hp, hb]
  simp only [zero_eq, hundred_eq, eighty_eq, gt_mk]
  rw [if_pos (by norm_num), if_neg (by norm_num), if_pos (by norm_num), h86]
  decide

/-- C17 (amended): display precision of insight messages.  Every insight that
`generateInsights` emits is one of seven messages, and the number in it is the
value the code computed, written as follows: the momentum percentages
`(recentAvg/earlierAvg - 1)*100` and `(1 - recentAvg/earlierAvg)*100` and the
budget usage `(spent/budget)*100` with `toFixed(0)`, the savings rate with
`toFixed(1)`, and the currency values (the overage `spent - budget`, the total
of the top category) with `toFixed(2)`.  On a finite number `toFixed(f)` writes
exactly `f` digits after the point for `f > 0`, and no point for `f = 0`. -/
theorem C17_display_precision (trendsData : Trend) (summaryData : Summary) (i : Insight)
    (hi : i ∈ Insights.generateInsights trendsData summaryData) :
    ((i.title = "Spending Increasing" ∧ i.message =
        "Your daily spending has increased by " ++
          ((Insights.recentAvg trendsData.daily_totals
              / Insights.earlierAvg trendsData.daily_totals - 1) * 100).toFixed 0 ++
          "% recently. Consider reviewing your expenses.")
      ∨ (i.title = "Great Job!" ∧ i.message =
        "Your spending has decreased by " ++
          ((1 - Insights.recentAvg trendsData.daily_totals
              / Insights.earlierAvg trendsData.daily_totals) * 100).toFixed 0 ++
          "%. Keep it up!")
      ∨ (i.title = "Over Budget" ∧ ∃ entry ∈ summaryData.category_spending, i.message =
        "You've exceeded your " ++ entry.1 ++ " budget by $" ++
          (lit entry.2 - Insights.budgetOf summaryData.category_budgets entry.1).toFixed 2)
      ∨ (i.title = "Approaching Limit" ∧ ∃ entry ∈ summaryData.category_spending, i.message =
        "You've used " ++
          ((lit entry.2 / Insights.budgetOf summaryData.category_budgets entry.1)
            * 100).toFixed 0 ++ "% of your " ++ entry.1 ++ " budget")
      ∨ (i.title = "Top Spending" ∧ ∃ (top : CategoryTrend) (rest : List CategoryTrend),
        trendsData.category_trends = top :: rest ∧ i.message =
          top.name ++ " is your biggest expense at $" ++ (lit top.total).toFixed 2 ++ " (" ++
            toString top.count ++ " transactions)")
      ∨ (i.title = "Low Savings Rate" ∧ i.message =
        "You're saving only " ++
          (Insights.savingsRate summaryData.total_income summaryData.total_expenses).toFixed 1
          ++ "% of your income. Aim for at least 20%!")
      ∨ (i.title = "Excellent Savings!" ∧ i.message =
        "You're saving " ++
          (Insights.savingsRate summaryData.total_income summaryData.total_expenses).toFixed 1
          ++ "% of your income. That's fantastic!"))
    ∧ (∀ (q : ℚ) (f : Nat), 0 < f →
        ∃ (sign : String) (ip fp : List Char),
          (⟨fin q⟩ : Double).toFixed f = sign ++ String.mk (ip ++ '.' :: fp)
            ∧ (sign = "" ∨ sign = "-")
            ∧ fp.length = f ∧ 0 < ip.length
            ∧ (∀ c ∈ ip, c.isDigit = true) ∧ (∀ c ∈ fp, c.isDigit = true))
    ∧ (∀ q : ℚ, ∃ (sign : String) (ds : List Char),
          (⟨fin q⟩ : Double).toFixed 0 = sign ++ String.mk ds ∧ (sign = "" ∨ sign = "-")
            ∧ (∀ c ∈ ds, c.isDigit = true)) := by
  refine ⟨?_, JSNum.toFixed_decimals, JSNum.toFixed_integer⟩
  rw [Insights.dbl_generateInsights_eq_append, Insights.dbl_budgetInsights_eq_flatMap,
    List.nil_append] at hi
  simp only [List.mem_append, List.mem_flatMap] at hi
  rcases hi with ((h | ⟨e, he, h⟩) | h) | h
  · have h2 : 2 ≤ trendsData.daily_totals.length := by
      by_contra hlt
      rw [Insights.dbl_spendingTrendInsight_short _ _ (by omega)] at h
      simp at h
    rw [Insights.dbl_spendingTrendInsight_eq _ _ h2] at h
    split_ifs at h
    · rw [List.nil_append, List.mem_singleton] at h
      subst h
      exact Or.inl ⟨rfl, rfl⟩
    · rw [List.nil_append, List.mem_singleton] at h
      subst h
      exact Or.inr (Or.inl ⟨rfl, rfl⟩)
    · simp at h
  · obtain ⟨category, spent⟩ := e
    rw [Insights.dbl_budgetInsight_eq] at h
    split_ifs at h
    · rw [List.nil_append, List.mem_singleton] at h
      subst h
      exact Or.inr (Or.inr (Or.inl ⟨rfl, (category, spent), he, rfl⟩))
    · rw [List.nil_append, List.mem_singleton] at h
      subst h
      exact Or.inr (Or.inr (Or.inr (Or.inl ⟨rfl, (category, spent), he, rfl⟩)))
    · simp at h
    · simp at h
  · cases hc : trendsData.category_trends with
    | nil => rw [hc] at h; simp [Insights.topCategoryInsight] at h
    | cons top rest =>
      rw [hc, Insights.dbl_topCategoryInsight_cons, List.nil_append, List.mem_singleton] at h
      subst h
      exact Or.inr (Or.inr (Or.inr (Or.inr (Or.inl ⟨rfl, top, rest, rfl, rfl⟩))))
  · rw [Insights.dbl_savingsInsight_eq] at h
    split_ifs at h
    · rw [List.nil_append, List.mem_singleton] at h
      subst h
      exact Or.inr (Or.inr (Or.inr (Or.inr (Or.inr (Or.inl ⟨rfl, rfl⟩)))))
    · rw [List.nil_append, List.mem_singleton] at h
      subst h
      exact Or.inr (Or.inr (Or.inr (Or.inr (Or.inr (Or.inr ⟨rfl, rfl⟩)))))
    · simp at h
    · simp at h

theorem C17_display_precision_witness :
    ∃ (top : CategoryTrend) (rest : List CategoryTrend),
      [(⟨"Rent", 900, 2⟩ : CategoryTrend)] = top :: rest
      ∧ "Rent" ++ " is your biggest expense at $" ++ (lit 900).toFixed 2 ++ " (" ++
          toString 2 ++ " transactions)" =
        top.name ++ " is your biggest expense at $" ++ (lit top.total).toFixed 2 ++ " (" ++
          toString top.count ++ " transactions)" := by
  have hsav : Insights.savingsInsight [] 0 0 = [] := by
    rw [Insights.dbl_savingsInsight_eq, lit_of_eq fl_zero, zero_eq, gt_mk]
    simp
  have h := (C17_display_precision ⟨[⟨"Rent", 900, 2⟩], []⟩ ⟨0, 0, [], []⟩
    ⟨"info", Icon.Lightbulb, "Top Spending",
      "Rent" ++ " is your biggest expense at $" ++ (lit 900).toFixed 2 ++ " (" ++
        toString 2 ++ " transactions)"⟩
    (by
      rw [Insights.dbl_generateInsights_eq_append, Insights.dbl_topCategoryInsight_cons, hsav]
      simp [Insights.spendingTrendInsight, Insights.budgetInsights])).1
  rcases h with h | h | h | h | h | h | h
  · exact absurd h.1 (by decide)
  · exact absurd h.1 (by decide)
  · exact absurd h.1 (by decide)
  · exact absurd h.1 (by decide)
  · exact h.2
  · exact absurd h.1 (by decide)
  · exact absurd h.1 (by decide)

end F64

namespace F64

open Double

/-- C18 as stated fails: for income 120 and expenses 108.06 the savings rate
`(income - expenses)/income*100` is exactly 9.95, which lies in `[9.95, 10)`;
the code computes the double `5601352036542053 / 2^49 = 9.949999999999998...`
and the warning shows "9.9", not "10.0".  And for income 6.3 and expenses 5.67
the exact rate of the two doubles the code holds lies in `[9.95, 10)`, while
the rate the code computes is 10 and no warning is emitted. -/
theorem C18_rounding_thresholds_counterexample :
    ((120 : ℚ) - 108.06) / 120 * 100 = 9.95
    ∧ Insights.savingsRate 120 108.06 = ⟨fin (5601352036542053 / 2 ^ 49)⟩
    ∧ (5601352036542053 / 2 ^ 49 : ℚ) < 9.95
    ∧ Insights.savingsInsight [] 120 108.06 = [{
        type := "warning"
        icon := Icon.Lightbulb
        title := "Low Savings Rate"
        message := "You're saving only 9.9% of your income. Aim for at least 20%!" }]
    ∧ (9.95 ≤ (fl 6.3 - fl 5.67) / fl 6.3 * 100 ∧ (fl 6.3 - fl 5.67) / fl 6.3 * 100 < 10)
    ∧ Insights.savingsRate 6.3 5.67 = ⟨fin 10⟩
    ∧ Insights.savingsInsight [] 6.3 5.67 = [] := by
  have g1 : fl (6.3) = 7093169413108531 / 2 ^ 50 :=
    fl_eval _ 7093169413108531 50 (by norm_num) (by norm_num) (by norm_num) (by norm_num)
      (by norm_num)
  have g2 : fl (5.67) = 6383852471797678 / 2 ^ 50 :=
    fl_eval _ 6383852471797678 50 (by norm_num) (by norm_num) (by norm_num) (by norm_num)
      (by norm_num)
  have g3 : fl (7093169413108531 / 2 ^ 50 - 6383852471797678 / 2 ^ 50)
      = 5674535530486824 / 2 ^ 53 :=
    fl_eval _ 5674535530486824 53 (by norm_num) (by norm_num) (by norm_num) (by norm_num)
      (by norm_num)
  have g4 : fl (5674535530486824 / 2 ^ 53 / (7093169413108531 / 2 ^ 50))
      = 7205759403792793 / 2 ^ 56 :=
    fl_eval _ 7205759403792793 56 (by norm_num) (by norm_num) (by norm_num) (by norm_num)
      (by norm_num)
  have g5 : fl (7205759403792793 / 2 ^ 56 * 100) = 10 := by
    have := fl_eval (7205759403792793 / 2 ^ 56 * 100) 5629499534213120 49 (by norm_num)
      (by norm_num) (by norm_num) (by norm_num) (by norm_num)
    rw [this]; norm_num
  have gr : Insights.savingsRate 6.3 5.67 = ⟨fin 10⟩ := by
    unfold Insights.savingsRate
    rw [lit_of_eq g1, lit_of_eq g2, hundred_eq, sub_mk, g3, div_mk _ (by norm_num), g4, mul_mk,
      g5]
  have h1 : fl (108.06) = 7604046495838372 / 2 ^ 46 :=
    fl_eval _ 7604046495838372 46 (by norm_num) (by norm_num) (by norm_num) (by norm_num)
      (by norm_num)
  have h2 : fl (120 - 7604046495838372 / 2 ^ 46) = 6721622443850464 / 2 ^ 49 :=
    fl_eval _ 6721622443850464 49 (by norm_num) (by norm_num) (by norm_num) (by norm_num)
      (by norm_num)
  have h3 : fl (6721622443850464 / 2 ^ 49 / 120) = 7169730606773828 / 2 ^ 56 :=
    fl_eval _ 7169730606773828 56 (by norm_num) (by norm_num) (by norm_num) (by norm_num)
      (by norm_num)
  have h4 : fl (7169730606773828 / 2 ^ 56 * 100) = 5601352036542053 / 2 ^ 49 :=
    fl_eval _ 5601352036542053 49 (by norm_num) (by norm_num) (by norm_num) (by norm_num)
      (by norm_num)
  have hr : Insights.savingsRate 120 108.06 = ⟨fin (5601352036542053 / 2 ^ 49)⟩ := by
    unfold Insights.savingsRate
    rw [lit_of_eq (fl_ofNat 120 (by norm_num)), lit_of_eq h1, hundred_eq, sub_mk, h2,
      div_mk _ (by norm_num), h3, mul_mk, h4]
  refine ⟨by norm_num, hr, by norm_num, ?_, ?_, gr, ?_⟩
  · rw [Insights.dbl_savingsInsight_eq, hr, lit_of_eq (fl_ofNat 120 (by norm_num))]
    simp only [zero_eq, ten_eq, gt_mk, lt_mk]
    rw [if_pos (by norm_num), if_pos (by norm_num), toFixed_mk,
      JSNum.toFixed_nonneg _ 1 99 (by norm_num) (by norm_num) (by norm_num)]
    decide
  · rw [g1, g2]
    constructor <;> norm_num
  · rw [Insights.dbl_savingsInsight_eq, gr, lit_of_eq g1]
    simp only [zero_eq, ten_eq, twenty_eq, gt_mk, lt_mk, ge_mk]
    rw [if_pos (by norm_num), if_neg (by norm_num), if_neg (by norm_num)]

/-- C18 (amended): rounding for display never affects the rule thresholds of
`generateInsights`.  The comparisons are made on the values the code computed
(doubles), before `toFixed`: when `total_income > 0` and the computed savings
rate `r` satisfies `9.95 <= r < 10`, the warning "Low Savings Rate" is emitted
although `r` is displayed as "10.0", and when the computed budget percentage is
strictly above 100 the alert "Over Budget" is emitted although a percentage
below 100.5 rounds to "100". -/
theorem C18_rounding_never_affects_thresholds (acc : List Insight)
    (income expenses r : ℚ) (budgets : List (String × ℚ)) (category : String)
    (spent b percentage : ℚ)
    (hr : Insights.savingsRate income expenses = ⟨fin r⟩)
    (hb : Insights.budgetOf budgets category = ⟨fin b⟩)
    (hp : (lit spent / Insights.budgetOf budgets category) * 100 = ⟨fin percentage⟩) :
    ((lit income).gt 0 = true → 9.95 ≤ r → r < 10 →
      Insights.savingsInsight acc income expenses = acc ++ [{
        type := "warning"
        icon := Icon.Lightbulb
        title := "Low Savings Rate"
        message := "You're saving only " ++ (⟨fin r⟩ : Double).toFixed 1 ++
          "% of your income. Aim for at least 20%!" }]
      ∧ (⟨fin r⟩ : Double).toFixed 1 = "10.0")
    ∧ (0 < b → 100 < percentage →
      Insights.budgetInsight budgets acc (category, spent) = acc ++ [{
        type := "alert"
        icon := Icon.AlertCircle
        title := "Over Budget"
        message := "You've exceeded your " ++ category ++ " budget by $" ++
          (lit spent - ⟨fin b⟩).toFixed 2 }])
    ∧ (100 < percentage → percentage < 100.5 →
        (⟨fin percentage⟩ : Double).toFixed 0 = "100") := by
  refine ⟨?_, ?_, ?_⟩
  · intro h0 h1 h2
    constructor
    · rw [Insights.dbl_savingsInsight_eq, if_pos h0, hr, ten_eq, lt_mk,
        if_pos (by simpa using h2)]
    · refine (JSNum.toFixed_nonneg r 1 100 (by linarith) ?_ ?_).trans (by decide)
      · norm_num at h1 ⊢; linarith
      · norm_num; linarith
  · intro h0 h1
    rw [Insights.dbl_budgetInsight_eq, hp, hb, zero_eq, hundred_eq, gt_mk, gt_mk,
      if_pos (by simpa using h0), if_pos (by simpa using h1)]
  · intro h1 h2
    refine (JSNum.toFixed_nonneg percentage 0 100 (by linarith) ?_ ?_).trans (by decide)
    · norm_num; linarith
    · norm_num at h2 ⊢; linarith

theorem C18_rounding_never_affects_thresholds_witness :
    (Insights.savingsInsight [] 1024 922 = [] ++ [{
        type := "warning"
        icon := Icon.Lightbulb
        title := "Low Savings Rate"
        message := "You're saving only " ++ (⟨fin (1275 / 128)⟩ : Double).toFixed 1 ++
          "% of your income. Aim for at least 20%!" }]
      ∧ (⟨fin (1275 / 128)⟩ : Double).toFixed 1 = "10.0")
    ∧ Insights.budgetInsight [("Food", 1024)] [] ("Food", 1025) = [] ++ [{
        type := "alert"
        icon := Icon.AlertCircle
        title := "Over Budget"
        message := "You've exceeded your " ++ "Food" ++ " budget by $" ++
          (lit 1025 - ⟨fin 1024⟩).toFixed 2 }]
    ∧ (⟨fin (25625 / 256)⟩ : Double).toFixed 0 = "100" := by
  have w0 : fl (1024 - 922) = 102 := by
    have := fl_ofNat 102 (by norm_num)
    rw [← this]; norm_num
  have w1 : fl (102 / 1024) = 7177611906121728 / 2 ^ 56 :=
    fl_eval _ 7177611906121728 56 (by norm_num) (by norm_num) (by norm_num) (by norm_num)
      (by norm_num)
  have w2 : fl (7177611906121728 / 2 ^ 56 * 100) = 1275 / 128 := by
    have := fl_eval (7177611906121728 / 2 ^ 56 * 100) 5607509301657600 49 (by norm_num)
      (by norm_num) (by norm_num) (by norm_num) (by norm_num)
    rw [this]; norm_num
  have w3 : fl (1025 / 1024) = 4507997673881600 / 2 ^ 52 :=
    fl_eval _ 4507997673881600 52 (by norm_num) (by norm_num) (by norm_num) (by norm_num)
      (by norm_num)
  have w4 : fl (4507997673881600 / 2 ^ 52 * 100) = 25625 / 256 := by
    have := fl_eval (4507997673881600 / 2 ^ 52 * 100) 7043746365440000 46 (by norm_num)
      (by norm_num) (by norm_num) (by norm_num) (by norm_num)
    rw [this]; norm_num
  have hr : Insights.savingsRate 1024 922 = ⟨fin (1275 / 128)⟩ := by
    unfold Insights.savingsRate
    rw [lit_of_eq (fl_ofNat 1024 (by norm_num)), lit_of_eq (fl_ofNat 922 (by norm_num)),
      hundred_eq, sub_mk, w0, div_mk _ (by norm_num), w1, mul_mk, w2]
  have hb : Insights.budgetOf [("Food", 1024)] "Food" = ⟨fin 1024⟩ := by
    rw [Insights.dbl_budgetOf_eq]
    simp only [List.lookup, beq_self_eq_true, Option.getD_some, fl_ofNat 1024 (by norm_num)]
  have hp : (lit 1025 / Insights.budgetOf [("Food", 1024)] "Food") * 100
      = ⟨fin (25625 / 256)⟩ := by
    rw [hb, lit_of_eq (fl_ofNat 1025 (by norm_num)), hundred_eq, div_mk _ (by norm_num), w3,
      mul_mk, w4]
  have h := C18_rounding_never_affects_thresholds [] 1024 922 (1275 / 128) [("Food", 1024)]
    "Food" 1025 1024 (25625 / 256) hr hb hp
  exact ⟨h.1 (by rw [lit_of_eq (fl_ofNat 1024 (by norm_num)), zero_eq, gt_mk]; norm_num)
      (by norm_num) (by norm_num),
    h.2.1 (by norm_num) (by norm_num), h.2.2 (by norm_num) (by norm_num)⟩

end F64

namespace F64

open Double

/-- C19: the divisions that carry no guard are performed on a divisor of 0.
A series whose first seven daily amounts are 0 has `earlierAvg = 0`, and
`generateInsights` divides by it and emits "increased by Infinity%"; a debt
with `total_amount = 0` has the progress `NaN` (or `-Infinity` when something
remains), and a goal with `target_amount = 0` the progress `NaN`.  The sibling
computations are guarded: a budget of 0, an income of 0, a purchase price of 0
and an empty portfolio skip the division. -/
theorem C19_division_by_zero_unguarded :
    Insights.earlierAvg [⟨"05-01", 0⟩, ⟨"05-02", 0⟩, ⟨"05-03", 0⟩, ⟨"05-04", 0⟩,
        ⟨"05-05", 0⟩, ⟨"05-06", 0⟩, ⟨"05-07", 0⟩, ⟨"05-08", 7⟩] = 0
    ∧ Insights.generateInsights
        ⟨[], [⟨"05-01", 0⟩, ⟨"05-02", 0⟩, ⟨"05-03", 0⟩, ⟨"05-04", 0⟩,
          ⟨"05-05", 0⟩, ⟨"05-06", 0⟩, ⟨"05-07", 0⟩, ⟨"05-08", 7⟩]⟩ ⟨0, 0, [], []⟩ = [{
        type := "warning"
        icon := Icon.TrendingUp
        title := "Spending Increasing"
        message :=
          "Your daily spending has increased by Infinity% recently. Consider reviewing your expenses." }]
    ∧ Debts.calculateProgress (lit 0) (lit 0) = ⟨nan⟩
    ∧ (Debts.calculateProgress (lit 0) (lit 0)).toFixed 1 = "NaN"
    ∧ Debts.calculateProgress (lit 50) (lit 0) = ⟨negInf⟩
    ∧ SavingsGoals.calculateProgress (fin 0) (fin 0) = nan
    ∧ Insights.budgetInsight [("Food", 0)] [] ("Food", 40) = []
    ∧ Insights.savingsInsight [] 0 40 = []
    ∧ Investments.calculateReturn (lit 0) (lit 40) = 0
    ∧ Investments.totalReturnPercent [] = 0
    ∧ Dashboard.percentageUsed 0 40 = 0 := by
  have h7 : lit ((7 : ℕ) : ℚ) = ⟨fin 7⟩ := by
    rw [lit_natCast 7 (by norm_num)]; norm_num
  have hsr : Insights.sumAmounts [⟨"05-02", 0⟩, ⟨"05-03", 0⟩, ⟨"05-04", 0⟩, ⟨"05-05", 0⟩,
      ⟨"05-06", 0⟩, ⟨"05-07", 0⟩, ⟨"05-08", 7⟩] = ⟨fin 7⟩ := by
    rw [Insights.dbl_sumAmounts_whole _ [0, 0, 0, 0, 0, 0, 7] (by simp) (by norm_num)]
    norm_num
  have hse : Insights.sumAmounts [⟨"05-01", 0⟩, ⟨"05-02", 0⟩, ⟨"05-03", 0⟩, ⟨"05-04", 0⟩,
      ⟨"05-05", 0⟩, ⟨"05-06", 0⟩, ⟨"05-07", 0⟩] = ⟨fin 0⟩ := by
    rw [Insights.dbl_sumAmounts_whole _ [0, 0, 0, 0, 0, 0, 0] (by simp) (by norm_num)]
    norm_num
  have hR : fl (7 / 7) = 1 := by
    rw [← fl_one]; norm_num
  have hE : fl (0 / 7) = 0 := by
    rw [zero_div, fl_zero]
  obtain ⟨h1, h3⟩ := Insights.dbl_momentum_averages
    [⟨"05-01", 0⟩, ⟨"05-02", 0⟩, ⟨"05-03", 0⟩, ⟨"05-04", 0⟩, ⟨"05-05", 0⟩, ⟨"05-06", 0⟩,
      ⟨"05-07", 0⟩, ⟨"05-08", 7⟩] (by simp)
  simp only [List.length_cons, List.length_nil, List.drop, List.take,
    show min 7 (0 + 1 + 1 + 1 + 1 + 1 + 1 + 1 + 1) = 7 from rfl,
    show 0 + 1 + 1 + 1 + 1 + 1 + 1 + 1 + 1 - 7 = 1 from rfl, hsr, hse, h7] at h1 h3
  rw [div_mk _ (by norm_num), hR] at h1
  rw [div_mk _ (by norm_num), hE] at h3
  have hT : fl (0 * (5404319552844595 / 2 ^ 52)) = 0 := by
    rw [zero_mul, fl_zero]
  have hinf : ((⟨fin 1⟩ : Double) / ⟨fin 0⟩ - 1) * 100 = ⟨posInf⟩ := by
    rw [div_mk_zero (by norm_num), one_eq, hundred_eq, posInf_sub_mk, posInf_mul_hundred_mk]
  have hsav : ∀ e : ℚ, Insights.savingsInsight [] 0 e = [] := by
    intro e
    rw [Insights.dbl_savingsInsight_eq, lit_of_eq fl_zero, zero_eq, gt_mk]
    simp
  have hl0 : lit 0 = ⟨fin 0⟩ := lit_of_eq fl_zero
  have hl50 : lit 50 = ⟨fin 50⟩ := lit_of_eq (fl_ofNat 50 (by norm_num))
  have hnan : Debts.calculateProgress (lit 0) (lit 0) = ⟨nan⟩ := by
    unfold Debts.calculateProgress
    rw [hl0, sub_mk, sub_zero, fl_zero, div_zero_zero, nan_mul_mk]
  refine ⟨by rw [h3, zero_eq], ?_, hnan, by rw [hnan]; rfl, ?_, ?_, ?_, hsav 40, ?_, ?_, ?_⟩
  · rw [Insights.dbl_generateInsights_eq_append, hsav]
    simp only [Insights.budgetInsights, List.foldl_nil, Insights.topCategoryInsight,
      List.length_nil, gt_iff_lt, lt_self_iff_false, if_false, List.append_nil]
    rw [Insights.dbl_spendingTrendInsight_eq _ _ (by simp), h1, h3, lit_1_2, mul_mk, hT,
      gt_mk, if_pos (by norm_num), hinf]
    decide
  · unfold Debts.calculateProgress
    rw [hl0, hl50, sub_mk]
    have h50 : fl (0 - 50) = -50 := by
      have := fl_neg 50
      rw [fl_ofNat 50 (by norm_num)] at this
      rw [← this]; norm_num
    rw [h50, div_mk_zero_neg (by norm_num), hundred_eq, negInf_mul_hundred_mk]
  · show JSNum.min ((fin 0 / fin 0) * fin 100) (fin 100) = nan
    rw [JSNum.div_fin, if_pos rfl]
    norm_num [JSNum.infOfSign]
    rfl
  · rw [Insights.dbl_budgetInsight_eq, Insights.dbl_budgetOf_eq]
    simp only [List.lookup, beq_self_eq_true, Option.getD_some, fl_zero, zero_eq, gt_mk]
    simp
  · unfold Investments.calculateReturn
    rw [hl0]
    simp [truthy, zero_eq]
  · simp [Investments.totalReturnPercent, Investments.totalInvested, zero_eq, gt_mk]
  · unfold Dashboard.percentageUsed
    rw [hl0, zero_eq, gt_mk]
    simp

end F64

namespace F64

open Double

/-- The rounding of `x ≥ 0` is a whole multiple of the spacing at `x`, within
half a spacing of `x`. -/
theorem dbl_round_grid {x : ℚ} (hx : 0 ≤ x) :
    ∃ n : ℤ, fl x = n * 2 ^ ulpExp x ∧ (n : ℚ) ≤ x / 2 ^ ulpExp x + 1 / 2 :=
  ⟨roundHalfEven (x / 2 ^ ulpExp x), by rw [fl_of_nonneg hx]; rfl, roundHalfEven_le _⟩

/-- A quotient below the midpoint under the double `0.8` rounds to a double
below `0.8`. -/
theorem dbl_quotient_below (y : ℚ) (hy : y < 7205759403792794 / 2 ^ 53 - 1 / 2 ^ 54) :
    fl y ≤ 7205759403792793 / 2 ^ 53 := by
  have hhalf : fl (1 / 2) = 4503599627370496 / 2 ^ 53 :=
    fl_eval _ 4503599627370496 53 (by norm_num) (by norm_num) (by norm_num) (by norm_num)
      (by norm_num)
  rcases lt_or_le y (1 / 2) with h | h
  · have := fl_mono h.le
    rw [hhalf] at this
    exact this.trans (by norm_num)
  · have h1 : (2 : ℚ) ^ 52 ≤ y * 2 ^ 53 := by linarith
    have h2 : y * 2 ^ 53 < 2 ^ 53 := by linarith
    rw [fl_eval_of_round y (roundHalfEven (y * 2 ^ 53)) 53 (by norm_num) h1 h2 rfl]
    have h3 := roundHalfEven_le (y * 2 ^ 53)
    have h4 : (roundHalfEven (y * 2 ^ 53) : ℚ) < (7205759403792794 : ℤ) := by
      have h7 : y * 2 ^ 53 < 7205759403792794 - 1 / 2 := by
        have := mul_lt_mul_of_pos_right hy (by norm_num : (0 : ℚ) < 2 ^ 53)
        norm_num at this ⊢
        linarith
      push_cast
      exact lt_of_le_of_lt h3 (by linarith)
    have h5 : roundHalfEven (y * 2 ^ 53) ≤ 7205759403792793 := by
      have : roundHalfEven (y * 2 ^ 53) < 7205759403792794 := by exact_mod_cast h4
      omega
    have h6 : (roundHalfEven (y * 2 ^ 53) : ℚ) ≤ 7205759403792793 := by exact_mod_cast h5
    exact div_le_div_of_nonneg_right h6 (by norm_num)

/-- No double lies just under the rounded product `e * 0.8`: a double `r`
below the product computed for a double `e` is below the exact product by more
than `e / 2^54`. -/
theorem dbl_lt_product (r e : ℚ) (hr0 : 0 ≤ r) (he : 0 < e) (hr : fl r = r) (hE : fl e = e)
    (h : r < fl (e * (7205759403792794 / 2 ^ 53))) :
    r < e * (7205759403792794 / 2 ^ 53 - 1 / 2 ^ 54) := by
  rcases hr0.eq_or_lt with h0 | hrpos
  · rw [← h0]
    exact mul_pos he (by norm_num)
  have hx : 0 < e * (7205759403792794 / 2 ^ 53) := mul_pos he (by norm_num)
  have hrx : r < e * (7205759403792794 / 2 ^ 53) := lt_of_lt_fl hr h
  have habsx : |e * (7205759403792794 / 2 ^ 53)| = e * (7205759403792794 / 2 ^ 53) :=
    abs_of_pos hx
  have habsr : |r| = r := abs_of_pos hrpos
  have hg : ulpExp r ≤ ulpExp (e * (7205759403792794 / 2 ^ 53)) :=
    ulpExp_mono hrpos.ne' (by rw [habsx, habsr]; exact hrx.le)
  have hxtop := lt_two_zpow_ulpExp (x := e * (7205759403792794 / 2 ^ 53))
  rw [habsx] at hxtop
  have hrtop := lt_two_zpow_ulpExp (x := r)
  rw [habsr] at hrtop
  obtain ⟨nr, hnr, -⟩ := dbl_round_grid hrpos.le
  rw [hr] at hnr
  obtain ⟨N, hN, hN2⟩ := dbl_round_grid hx.le
  rw [hN] at h
  generalize hgdef : ulpExp (e * (7205759403792794 / 2 ^ 53)) = g at *
  generalize hgrdef : ulpExp r = gr at *
  have hu : (0 : ℚ) < 2 ^ g := two_zpow_pos g
  have hgr0 : -1074 ≤ gr := by rw [← hgrdef]; exact ulpExp_ge r
  have hB : -1074 < g → (2 : ℚ) ^ g * 2 ^ 52 ≤ e * (7205759403792794 / 2 ^ 53) := by
    intro hlt
    have := two_zpow_ulpExp_le (x := e * (7205759403792794 / 2 ^ 53)) hx.ne'
      (by rw [hgdef]; exact hlt)
    rw [habsx, hgdef, zpow_add₀ (by norm_num : (2 : ℚ) ≠ 0), zpow_ofNat] at this
    exact this
  have htop : e * (7205759403792794 / 2 ^ 53) < 2 ^ g * 2 ^ 53 := by
    rw [zpow_add₀ (by norm_num : (2 : ℚ) ≠ 0), zpow_ofNat] at hxtop
    exact hxtop
  rcases (by omega : gr = g ∨ gr = g - 1 ∨ gr ≤ g - 2) with hc | hc | hc
  · -- the same spacing
    rw [hc] at hnr
    have hlt : nr < N := by
      have : (nr : ℚ) * 2 ^ g < N * 2 ^ g := by rw [← hnr]; exact h
      have := lt_of_mul_lt_mul_right this hu.le
      exact_mod_cast this
    have hle : (nr : ℚ) ≤ N - 1 := by
      have : nr ≤ N - 1 := by omega
      exact_mod_cast this
    have hr1 : r ≤ (N - 1) * 2 ^ g := by
      rw [hnr]
      exact mul_le_mul_of_nonneg_right hle hu.le
    have hN3 : (N : ℚ) * 2 ^ g ≤ e * (7205759403792794 / 2 ^ 53) + 2 ^ g / 2 := by
      have := mul_le_mul_of_nonneg_right hN2 hu.le
      rw [add_mul, div_mul_cancel₀ _ hu.ne'] at this
      linarith
    rcases lt_or_le (e / 2 ^ 54) (2 ^ g / 2) with hs | hs
    · linarith
    · -- the double `e` lies one binade above the product
      have he1 : (2 : ℚ) ^ g * 2 ^ 53 ≤ e := by linarith
      have he2 : e < 2 ^ g * 2 ^ 54 := by linarith
      have hge : ulpExp e = g + 1 := by
        apply ulpExp_eq (by omega)
        · rw [abs_of_pos he, show g + 1 + 52 = g + 53 by ring,
            zpow_add₀ (by norm_num : (2 : ℚ) ≠ 0), zpow_ofNat]
          exact he1
        · rw [abs_of_pos he, show g + 1 + 53 = g + 54 by ring,
            zpow_add₀ (by norm_num : (2 : ℚ) ≠ 0), zpow_ofNat]
          exact he2
      obtain ⟨E, hEe, -⟩ := dbl_round_grid he.le
      rw [hE, hge, zpow_add₀ (by norm_num : (2 : ℚ) ≠ 0), zpow_one] at hEe
      by_contra hcon
      push_neg at hcon
      -- in units of the spacing
      have k1 : (E : ℚ) * 2 * (7205759403792794 / 2 ^ 53 - 1 / 2 ^ 54) ≤ N - 1 := by
        have : (E : ℚ) * 2 * (7205759403792794 / 2 ^ 53 - 1 / 2 ^ 54) * 2 ^ g
            ≤ (N - 1) * 2 ^ g := by
          calc (E : ℚ) * 2 * (7205759403792794 / 2 ^ 53 - 1 / 2 ^ 54) * 2 ^ g
              = (E * (2 ^ g * 2)) * (7205759403792794 / 2 ^ 53 - 1 / 2 ^ 54) := by ring
            _ = e * (7205759403792794 / 2 ^ 53 - 1 / 2 ^ 54) := by rw [← hEe]
            _ ≤ r := hcon
            _ ≤ (N - 1) * 2 ^ g := hr1
        exact le_of_mul_le_mul_right this hu
      have k2 : (N : ℚ) ≤ E * 2 * (7205759403792794 / 2 ^ 53) + 1 / 2 := by
        have : (N : ℚ) * 2 ^ g ≤ (E * 2 * (7205759403792794 / 2 ^ 53) + 1 / 2) * 2 ^ g := by
          calc (N : ℚ) * 2 ^ g ≤ e * (7205759403792794 / 2 ^ 53) + 2 ^ g / 2 := hN3
            _ = (E * (2 ^ g * 2)) * (7205759403792794 / 2 ^ 53) + 2 ^ g / 2 := by rw [← hEe]
            _ = (E * 2 * (7205759403792794 / 2 ^ 53) + 1 / 2) * 2 ^ g := by ring
        exact le_of_mul_le_mul_right this hu
      have k3 : (E : ℚ) * 2 * (7205759403792794 / 2 ^ 53) < 2 ^ 53 := by
        have : (E : ℚ) * 2 * (7205759403792794 / 2 ^ 53) * 2 ^ g < 2 ^ 53 * 2 ^ g := by
          calc (E : ℚ) * 2 * (7205759403792794 / 2 ^ 53) * 2 ^ g
              = (E * (2 ^ g * 2)) * (7205759403792794 / 2 ^ 53) := by ring
            _ = e * (7205759403792794 / 2 ^ 53) := by rw [← hEe]
            _ < 2 ^ g * 2 ^ 53 := htop
            _ = 2 ^ 53 * 2 ^ g := by ring
        exact lt_of_mul_lt_mul_right this hu.le
      have k4 : (4 : ℚ) < 5 * N - 8 * E := by linarith
      have k5 : (5 : ℚ) * N - 8 * E < 5 := by linarith
      have k6 : (4 : ℤ) < 5 * N - 8 * E := by exact_mod_cast k4
      have k7 : 5 * N - 8 * E < (5 : ℤ) := by exact_mod_cast k5
      omega
  · -- `r` lies in the binade below the product
    have hgpos : -1074 < g := by omega
    have hB1 := hB hgpos
    rw [hc] at hnr hrtop
    have hrtop2 : r < 2 ^ (g - 1) * 2 ^ 53 := by
      rw [zpow_add₀ (by norm_num : (2 : ℚ) ≠ 0), zpow_ofNat] at hrtop
      exact hrtop
    have hu1 : (0 : ℚ) < 2 ^ (g - 1) := two_zpow_pos _
    have hlt : nr < 2 ^ 53 := by
      have : (nr : ℚ) * 2 ^ (g - 1) < 2 ^ 53 * 2 ^ (g - 1) := by
        rw [← hnr]; linarith
      have := lt_of_mul_lt_mul_right this hu1.le
      exact_mod_cast this
    have hle : (nr : ℚ) ≤ 2 ^ 53 - 1 := by
      have : nr ≤ 2 ^ 53 - 1 := by omega
      exact_mod_cast this
    have hhalf : (2 : ℚ) ^ (g - 1) = 2 ^ g / 2 := by
      rw [zpow_sub₀ (by norm_num : (2 : ℚ) ≠ 0), zpow_one]
    have hr1 : r ≤ (2 ^ 53 - 1) * (2 ^ g / 2) := by
      rw [hnr, hhalf]
      exact mul_le_mul_of_nonneg_right hle (by positivity)
    linarith
  · -- `r` lies further below
    have hgpos : -1074 < g := by omega
    have hB1 := hB hgpos
    have hr1 : r < 2 ^ g * 2 ^ 51 := by
      have : (2 : ℚ) ^ (gr + 53) ≤ 2 ^ (g + 51) :=
        zpow_le_zpow_right₀ (by norm_num) (by omega)
      rw [zpow_add₀ (by norm_num : (2 : ℚ) ≠ 0) g 51, zpow_ofNat] at this
      exact lt_of_lt_of_le hrtop this
    linarith

/-- The percentage of the insight "Spending Increasing": when the rounded
product `earlier * 1.2` is below `recent`, the percentage
`(recent/earlier - 1)*100` is `Infinity` for `earlier = 0` and otherwise a
double not below `20 - 2^-48`. -/
theorem dbl_increase_bound (r e : ℚ) (he0 : 0 ≤ e) (hr : fl r = r)
    (h : fl (e * (5404319552844595 / 2 ^ 52)) < r) :
    ((⟨fin r⟩ : Double) / ⟨fin e⟩ - 1) * 100 = ⟨posInf⟩
    ∨ ∃ p : ℚ, ((⟨fin r⟩ : Double) / ⟨fin e⟩ - 1) * 100 = ⟨fin p⟩
        ∧ 5629499534213119 / 2 ^ 48 ≤ p := by
  have hc : fl (5404319552844595 / 2 ^ 52 : ℚ) = 5404319552844595 / 2 ^ 52 := by
    rw [← fl_1_2, fl_idem]
  have hm12 : fl (5404319552844595 / 2 ^ 52 - 1) = 7205759403792792 / 2 ^ 55 :=
    fl_eval _ 7205759403792792 55 (by norm_num) (by norm_num) (by norm_num) (by norm_num)
      (by norm_num)
  have hm12p : fl (7205759403792792 / 2 ^ 55 * 100) = 5629499534213119 / 2 ^ 48 :=
    fl_eval _ 5629499534213119 48 (by norm_num) (by norm_num) (by norm_num) (by norm_num)
      (by norm_num)
  have hlt : e * (5404319552844595 / 2 ^ 52) < r := lt_of_fl_lt hr h
  rcases he0.eq_or_lt with he | he
  · left
    have hrpos : 0 < r := by
      rw [← he, zero_mul] at hlt
      exact hlt
    rw [← he, div_mk_zero hrpos, one_eq, hundred_eq, posInf_sub_mk, posInf_mul_hundred_mk]
  · right
    have hq : 5404319552844595 / 2 ^ 52 ≤ fl (r / e) :=
      le_fl_of_le hc (by rw [le_div_iff₀ he]; linarith)
    have hd : 7205759403792792 / 2 ^ 55 ≤ fl (fl (r / e) - 1) := by
      rw [← hm12]
      exact fl_mono (by linarith)
    have hp : 5629499534213119 / 2 ^ 48 ≤ fl (fl (fl (r / e) - 1) * 100) := by
      rw [← hm12p]
      exact fl_mono (by linarith)
    exact ⟨_, by rw [one_eq, hundred_eq, div_mk _ he.ne', sub_mk, mul_mk], hp⟩

/-- The percentage of the insight "Great Job!": when the double `recent` is
below the rounded product `earlier * 0.8`, the quotient `recent/earlier` rounds
to a double below `0.8`, and the percentage `(1 - recent/earlier)*100` is a
double above 20 and not above 100. -/
theorem dbl_decrease_bound (r e : ℚ) (hr0 : 0 ≤ r) (he0 : 0 ≤ e) (hr : fl r = r)
    (hE : fl e = e) (h : r < fl (e * (7205759403792794 / 2 ^ 53))) :
    ∃ p : ℚ, ((1 : Double) - ⟨fin r⟩ / ⟨fin e⟩) * 100 = ⟨fin p⟩ ∧ 20 < p ∧ p ≤ 100 := by
  have hm08 : fl (1 - 7205759403792793 / 2 ^ 53) = 7205759403792796 / 2 ^ 55 :=
    fl_eval _ 7205759403792796 55 (by norm_num) (by norm_num) (by norm_num) (by norm_num)
      (by norm_num)
  have hm08p : fl (7205759403792796 / 2 ^ 55 * 100) = 5629499534213122 / 2 ^ 48 :=
    fl_eval _ 5629499534213122 48 (by norm_num) (by norm_num) (by norm_num) (by norm_num)
      (by norm_num)
  have hlt : r < e * (7205759403792794 / 2 ^ 53) := lt_of_lt_fl hr h
  have he : 0 < e := by
    rcases he0.eq_or_lt with he | he
    · rw [← he, zero_mul] at hlt
      exact absurd hlt (not_lt.mpr hr0)
    · exact he
  have hq1 : fl (r / e) ≤ 7205759403792793 / 2 ^ 53 :=
    dbl_quotient_below _ (by
      rw [div_lt_iff₀ he, mul_comm]
      exact dbl_lt_product r e hr0 he hr hE h)
  have hq0 : 0 ≤ fl (r / e) := fl_nonneg (div_nonneg hr0 he.le)
  have hd1 : 7205759403792796 / 2 ^ 55 ≤ fl (1 - fl (r / e)) := by
    rw [← hm08]
    exact fl_mono (by linarith)
  have hd2 : fl (1 - fl (r / e)) ≤ 1 := fl_le_of_le fl_one (by linarith)
  have hp1 : 5629499534213122 / 2 ^ 48 ≤ fl (fl (1 - fl (r / e)) * 100) := by
    rw [← hm08p]
    exact fl_mono (by linarith)
  have hp2 : fl (fl (1 - fl (r / e)) * 100) ≤ 100 :=
    fl_le_of_le (fl_ofNat 100 (by norm_num)) (by linarith)
  have hp3 : (20 : ℚ) < 5629499534213122 / 2 ^ 48 := by norm_num
  exact ⟨_, by rw [one_eq, hundred_eq, div_mk _ he.ne', sub_mk, mul_mk], by linarith, hp2⟩

/-- C24 as stated fails: for the daily amounts 25, 10, 10, 10, 10, 10, 10, 42 the
code emits "Spending Increasing", and the unrounded percentage it computes,
`(recentAvg/earlierAvg - 1)*100`, is the double
`5629499534213119 / 2^48 = 19.999999999999996...`, which is not above 20. -/
theorem C24_momentum_percentage_counterexample :
    Insights.spendingTrendInsight []
        [⟨"05-01", 25⟩, ⟨"05-02", 10⟩, ⟨"05-03", 10⟩, ⟨"05-04", 10⟩, ⟨"05-05", 10⟩,
          ⟨"05-06", 10⟩, ⟨"05-07", 10⟩, ⟨"05-08", 42⟩] = [{
        type := "warning"
        icon := Icon.TrendingUp
        title := "Spending Increasing"
        message :=
          "Your daily spending has increased by 20% recently. Consider reviewing your expenses." }]
    ∧ (Insights.recentAvg
          [⟨"05-01", 25⟩, ⟨"05-02", 10⟩, ⟨"05-03", 10⟩, ⟨"05-04", 10⟩, ⟨"05-05", 10⟩,
            ⟨"05-06", 10⟩, ⟨"05-07", 10⟩, ⟨"05-08", 42⟩]
        / Insights.earlierAvg
          [⟨"05-01", 25⟩, ⟨"05-02", 10⟩, ⟨"05-03", 10⟩, ⟨"05-04", 10⟩, ⟨"05-05", 10⟩,
            ⟨"05-06", 10⟩, ⟨"05-07", 10⟩, ⟨"05-08", 42⟩] - 1) * 100
        = ⟨fin (5629499534213119 / 2 ^ 48)⟩
    ∧ ¬ ((20 : ℚ) < 5629499534213119 / 2 ^ 48) := by
  have gR : fl (102 / 7) = 8202985035567689 / 2 ^ 49 :=
    fl_eval _ 8202985035567689 49 (by norm_num) (by norm_num) (by norm_num) (by norm_num)
      (by norm_num)
  have gE : fl (85 / 7) = 6835820862973074 / 2 ^ 49 :=
    fl_eval _ 6835820862973074 49 (by norm_num) (by norm_num) (by norm_num) (by norm_num)
      (by norm_num)
  have gT : fl (6835820862973074 / 2 ^ 49 * (5404319552844595 / 2 ^ 52))
      = 8202985035567688 / 2 ^ 49 :=
    fl_eval _ 8202985035567688 49 (by norm_num) (by norm_num) (by norm_num) (by norm_num)
      (by norm_num)
  have gQ : fl (8202985035567689 / 2 ^ 49 / (6835820862973074 / 2 ^ 49))
      = 5404319552844595 / 2 ^ 52 :=
    fl_eval _ 5404319552844595 52 (by norm_num) (by norm_num) (by norm_num) (by norm_num)
      (by norm_num)
  have gD : fl (5404319552844595 / 2 ^ 52 - 1) = 7205759403792792 / 2 ^ 55 :=
    fl_eval _ 7205759403792792 55 (by norm_num) (by norm_num) (by norm_num) (by norm_num)
      (by norm_num)
  have gP : fl (7205759403792792 / 2 ^ 55 * 100) = 5629499534213119 / 2 ^ 48 :=
    fl_eval _ 5629499534213119 48 (by norm_num) (by norm_num) (by norm_num) (by norm_num)
      (by norm_num)
  have h7 : lit ((7 : ℕ) : ℚ) = ⟨fin 7⟩ := by
    rw [lit_natCast 7 (by norm_num)]; norm_num
  obtain ⟨h1, h3⟩ := Insights.dbl_momentum_averages
    [⟨"05-01", 25⟩, ⟨"05-02", 10⟩, ⟨"05-03", 10⟩, ⟨"05-04", 10⟩, ⟨"05-05", 10⟩,
      ⟨"05-06", 10⟩, ⟨"05-07", 10⟩, ⟨"05-08", 42⟩] (by simp)
  have hsr : Insights.sumAmounts [⟨"05-02", 10⟩, ⟨"05-03", 10⟩, ⟨"05-04", 10⟩, ⟨"05-05", 10⟩,
      ⟨"05-06", 10⟩, ⟨"05-07", 10⟩, ⟨"05-08", 42⟩] = ⟨fin 102⟩ := by
    rw [Insights.dbl_sumAmounts_whole _ [10, 10, 10, 10, 10, 10, 42] (by simp) (by norm_num)]
    norm_num
  have hse : Insights.sumAmounts [⟨"05-01", 25⟩, ⟨"05-02", 10⟩, ⟨"05-03", 10⟩, ⟨"05-04", 10⟩,
      ⟨"05-05", 10⟩, ⟨"05-06", 10⟩, ⟨"05-07", 10⟩] = ⟨fin 85⟩ := by
    rw [Insights.dbl_sumAmounts_whole _ [25, 10, 10, 10, 10, 10, 10] (by simp) (by norm_num)]
    norm_num
  simp only [List.length_cons, List.length_nil, List.drop, List.take,
    show min 7 (0 + 1 + 1 + 1 + 1 + 1 + 1 + 1 + 1) = 7 from rfl,
    show 0 + 1 + 1 + 1 + 1 + 1 + 1 + 1 + 1 - 7 = 1 from rfl, hsr, hse, h7] at h1 h3
  rw [div_mk _ (by norm_num), gR] at h1
  rw [div_mk _ (by norm_num), gE] at h3
  have hpct : (Insights.recentAvg
        [⟨"05-01", 25⟩, ⟨"05-02", 10⟩, ⟨"05-03", 10⟩, ⟨"05-04", 10⟩, ⟨"05-05", 10⟩,
          ⟨"05-06", 10⟩, ⟨"05-07", 10⟩, ⟨"05-08", 42⟩]
      / Insights.earlierAvg
        [⟨"05-01", 25⟩, ⟨"05-02", 10⟩, ⟨"05-03", 10⟩, ⟨"05-04", 10⟩, ⟨"05-05", 10⟩,
          ⟨"05-06", 10⟩, ⟨"05-07", 10⟩, ⟨"05-08", 42⟩] - 1) * 100
      = ⟨fin (5629499534213119 / 2 ^ 48)⟩ := by
    rw [h1, h3, one_eq, hundred_eq, div_mk _ (by norm_num), gQ, sub_mk, gD, mul_mk, gP]
  refine ⟨?_, hpct, by norm_num⟩
  rw [Insights.dbl_spendingTrendInsight_eq _ _ (by simp), hpct, h1, h3, lit_1_2, mul_mk, gT,
    gt_mk, if_pos (by norm_num), toFixed_mk,
    JSNum.toFixed_nonneg _ 0 20 (by norm_num) (by norm_num) (by norm_num)]
  decide

/-- C24 (amended): bounds on the reported momentum percentages, as the code
computes them.  For a series with strictly positive amounts, an insight
"Spending Increasing" carries the percentage `(recentAvg/earlierAvg - 1)*100`,
which is a double not below `20 - 2^-48 = 19.999999999999996...` (the largest
double below 20), or `Infinity` when `earlierAvg` is 0; an insight "Great Job!"
carries `(1 - recentAvg/earlierAvg)*100`, a double strictly above 20 and at
most 100.  The block emits at most one insight, so the two are never emitted
together. -/
theorem C24_momentum_percentage_bounds (daily_totals : List DailyTotal) (i : Insight)
    (hpos : ∀ x ∈ daily_totals, 0 < x.amount)
    (hi : i ∈ Insights.spendingTrendInsight [] daily_totals) :
    (i.title = "Spending Increasing" →
      i.message = "Your daily spending has increased by " ++
          ((Insights.recentAvg daily_totals / Insights.earlierAvg daily_totals - 1)
            * 100).toFixed 0 ++ "% recently. Consider reviewing your expenses."
      ∧ ((Insights.recentAvg daily_totals / Insights.earlierAvg daily_totals - 1) * 100
            = ⟨posInf⟩
          ∨ ∃ p : ℚ,
              (Insights.recentAvg daily_totals / Insights.earlierAvg daily_totals - 1) * 100
                = ⟨fin p⟩
              ∧ 20 - 1 / 2 ^ 48 ≤ p))
    ∧ (i.title = "Great Job!" →
      i.message = "Your spending has decreased by " ++
          ((1 - Insights.recentAvg daily_totals / Insights.earlierAvg daily_totals)
            * 100).toFixed 0 ++ "%. Keep it up!"
      ∧ ∃ p : ℚ,
          (1 - Insights.recentAvg daily_totals / Insights.earlierAvg daily_totals) * 100
            = ⟨fin p⟩
          ∧ 20 < p ∧ p ≤ 100)
    ∧ (Insights.spendingTrendInsight [] daily_totals).length ≤ 1
    ∧ ¬ (∃ a ∈ Insights.spendingTrendInsight [] daily_totals,
          ∃ b ∈ Insights.spendingTrendInsight [] daily_totals,
            a.title = "Spending Increasing" ∧ b.title = "Great Job!") := by
  have hB : (20 : ℚ) - 1 / 2 ^ 48 = 5629499534213119 / 2 ^ 48 := by norm_num
  have h2 : 2 ≤ daily_totals.length := by
    by_contra hlt
    rw [Insights.dbl_spendingTrendInsight_short _ _ (by omega)] at hi
    simp at hi
  obtain ⟨r, e, hR, hE, hr0, he0, hr, he⟩ :=
    Insights.dbl_averages_nonneg daily_totals h2 (fun x hx => (hpos x hx).le)
  have hs1 : ¬ "Great Job!" = "Spending Increasing" := by decide
  have hs2 : ¬ "Spending Increasing" = "Great Job!" := by decide
  rw [Insights.dbl_spendingTrendInsight_eq _ _ h2] at hi ⊢
  rw [hR, hE, lit_1_2, lit_0_8, mul_mk, mul_mk, gt_mk, lt_mk] at hi ⊢
  simp only [decide_eq_true_eq] at hi ⊢
  split_ifs at hi ⊢ with hinc hdec
  · rw [List.nil_append, List.mem_singleton] at hi
    refine ⟨?_, ?_, by simp, ?_⟩
    · intro _
      refine ⟨by rw [hi], ?_⟩
      rw [hB]
      exact dbl_increase_bound r e he0 hr hinc
    · intro ht
      rw [hi] at ht
      exact absurd ht hs2
    · rintro ⟨a, ha, b, hb, -, hbt⟩
      rw [List.nil_append, List.mem_singleton] at hb
      rw [hb] at hbt
      exact hs2 hbt
  · rw [List.nil_append, List.mem_singleton] at hi
    refine ⟨?_, ?_, by simp, ?_⟩
    · intro ht
      rw [hi] at ht
      exact absurd ht hs1
    · intro _
      refine ⟨by rw [hi], ?_⟩
      exact dbl_decrease_bound r e hr0 he0 hr he hdec
    · rintro ⟨a, ha, b, hb, hat, -⟩
      rw [List.nil_append, List.mem_singleton] at ha
      rw [ha] at hat
      exact hs1 hat
  · simp at hi

theorem C24_momentum_percentage_bounds_witness :
    (Insights.recentAvg
          [⟨"05-01", 1⟩, ⟨"05-02", 1⟩, ⟨"05-03", 1⟩, ⟨"05-04", 1⟩, ⟨"05-05", 1⟩, ⟨"05-06", 1⟩,
            ⟨"05-07", 1⟩, ⟨"05-08", 8⟩]
        / Insights.earlierAvg
          [⟨"05-01", 1⟩, ⟨"05-02", 1⟩, ⟨"05-03", 1⟩, ⟨"05-04", 1⟩, ⟨"05-05", 1⟩, ⟨"05-06", 1⟩,
            ⟨"05-07", 1⟩, ⟨"05-08", 8⟩] - 1) * 100 = ⟨posInf⟩
    ∨ ∃ p : ℚ,
        (Insights.recentAvg
            [⟨"05-01", 1⟩, ⟨"05-02", 1⟩, ⟨"05-03", 1⟩, ⟨"05-04", 1⟩, ⟨"05-05", 1⟩, ⟨"05-06", 1⟩,
              ⟨"05-07", 1⟩, ⟨"05-08", 8⟩]
          / Insights.earlierAvg
            [⟨"05-01", 1⟩, ⟨"05-02", 1⟩, ⟨"05-03", 1⟩, ⟨"05-04", 1⟩, ⟨"05-05", 1⟩, ⟨"05-06", 1⟩,
              ⟨"05-07", 1⟩, ⟨"05-08", 8⟩] - 1) * 100 = ⟨fin p⟩
        ∧ 20 - 1 / 2 ^ 48 ≤ p :=
  ((C24_momentum_percentage_bounds
    [⟨"05-01", 1⟩, ⟨"05-02", 1⟩, ⟨"05-03", 1⟩, ⟨"05-04", 1⟩, ⟨"05-05", 1⟩, ⟨"05-06", 1⟩,
      ⟨"05-07", 1⟩, ⟨"05-08", 8⟩]
    ⟨"warning", Icon.TrendingUp, "Spending Increasing",
      "Your daily spending has increased by " ++
        ((Insights.recentAvg
            [⟨"05-01", 1⟩, ⟨"05-02", 1⟩, ⟨"05-03", 1⟩, ⟨"05-04", 1⟩, ⟨"05-05", 1⟩, ⟨"05-06", 1⟩,
              ⟨"05-07", 1⟩, ⟨"05-08", 8⟩]
          / Insights.earlierAvg
            [⟨"05-01", 1⟩, ⟨"05-02", 1⟩, ⟨"05-03", 1⟩, ⟨"05-04", 1⟩, ⟨"05-05", 1⟩, ⟨"05-06", 1⟩,
              ⟨"05-07", 1⟩, ⟨"05-08", 8⟩] - 1) * 100).toFixed 0 ++
        "% recently. Consider reviewing your expenses."⟩
    (by
      intro x hx
      simp only [List.mem_cons, List.mem_singleton, List.not_mem_nil, or_false] at hx
      rcases hx with rfl | rfl | rfl | rfl | rfl | rfl | rfl | rfl <;> norm_num)
    (by
      rw [Insights.dbl_spendingTrendInsight_eq _ _ (by simp), if_pos Insights.dbl_example_rises]
      simp)).1 rfl).2

end F64

namespace F64

open Double

namespace Insights

theorem dbl_title_of_mem_spendingTrendInsight (daily_totals : List DailyTotal) (i : Insight)
    (h : i ∈ spendingTrendInsight [] daily_totals) :
    i.title = "Spending Increasing" ∨ i.title = "Great Job!" := by
  unfold spendingTrendInsight at h
  simp only [] at h
  split_ifs at h
  · rw [List.nil_append, List.mem_singleton] at h
    exact Or.inl (by rw [h])
  · rw [List.nil_append, List.mem_singleton] at h
    exact Or.inr (by rw [h])
  · simp at h
  · simp at h

theorem dbl_title_of_mem_budgetInsights (spending budgets : List (String × ℚ)) (i : Insight)
    (h : i ∈ budgetInsights [] spending budgets) :
    i.title = "Over Budget" ∨ i.title = "Approaching Limit" := by
  rw [dbl_budgetInsights_eq_flatMap, List.nil_append, List.mem_flatMap] at h
  obtain ⟨e, -, h⟩ := h
  unfold budgetInsight at h
  simp only [] at h
  split_ifs at h
  · rw [List.nil_append, List.mem_singleton] at h
    exact Or.inl (by rw [h])
  · rw [List.nil_append, List.mem_singleton] at h
    exact Or.inr (by rw [h])
  · simp at h
  · simp at h

theorem dbl_title_of_mem_topCategoryInsight (category_trends : List CategoryTrend)
    (i : Insight) (h : i ∈ topCategoryInsight [] category_trends) :
    i.title = "Top Spending" := by
  cases hc : category_trends with
  | nil => rw [hc] at h; simp [topCategoryInsight] at h
  | cons top rest =>
    rw [hc, dbl_topCategoryInsight_cons, List.nil_append, List.mem_singleton] at h
    rw [h]

/-- The insight "Excellent Savings!" is in the output of `generateInsights`
exactly when the income is positive and the computed savings rate is not below
10 and is at least 20. -/
theorem dbl_excellent_savings_iff (trendsData : Trend) (summaryData : Summary) :
    (∃ i ∈ generateInsights trendsData summaryData, i.title = "Excellent Savings!")
      ↔ (lit summaryData.total_income).gt 0 = true
        ∧ (savingsRate summaryData.total_income summaryData.total_expenses).lt 10 = false
        ∧ (savingsRate summaryData.total_income summaryData.total_expenses).ge 20 = true := by
  have s1 : ¬ "Spending Increasing" = "Excellent Savings!" := by decide
  have s2 : ¬ "Great Job!" = "Excellent Savings!" := by decide
  have s3 : ¬ "Over Budget" = "Excellent Savings!" := by decide
  have s4 : ¬ "Approaching Limit" = "Excellent Savings!" := by decide
  have s5 : ¬ "Top Spending" = "Excellent Savings!" := by decide
  have s6 : ¬ "Low Savings Rate" = "Excellent Savings!" := by decide
  rw [dbl_generateInsights_eq_append]
  constructor
  · rintro ⟨i, hi, ht⟩
    simp only [List.mem_append] at hi
    rcases hi with ((h | h) | h) | h
    · rcases dbl_title_of_mem_spendingTrendInsight _ _ h with h' | h' <;> rw [h'] at ht
      · exact absurd ht s1
      · exact absurd ht s2
    · rcases dbl_title_of_mem_budgetInsights _ _ _ h with h' | h' <;> rw [h'] at ht
      · exact absurd ht s3
      · exact absurd ht s4
    · rw [dbl_title_of_mem_topCategoryInsight _ _ h] at ht
      exact absurd ht s5
    · rw [dbl_savingsInsight_eq] at h
      split_ifs at h with h0 h1 h2
      · rw [List.nil_append, List.mem_singleton] at h
        rw [h] at ht
        exact absurd ht s6
      · exact ⟨h0, by simpa using h1, h2⟩
      · simp at h
      · simp at h
  · rintro ⟨h0, h1, h20⟩
    refine ⟨{
      type := "success"
      icon := Icon.TrendingUp
      title := "Excellent Savings!"
      message := "You're saving " ++
        (savingsRate summaryData.total_income summaryData.total_expenses).toFixed 1 ++
        "% of your income. That's fantastic!" }, List.mem_append_right _ ?_, rfl⟩
    rw [dbl_savingsInsight_eq, if_pos h0, if_neg (by rw [h1]; simp), if_pos h20]
    exact List.mem_append_right _ (List.mem_singleton.mpr rfl)

end Insights

theorem fl_ge_mul {x : ℚ} (hx : 1 / 1024 ≤ x) : x * (1 - 1 / 2 ^ 53) ≤ fl x := by
  have h0 : (2 : ℚ) ^ (-1022 : ℤ) ≤ x := by
    have h1 : (2 : ℚ) ^ (-1022 : ℤ) ≤ 2 ^ (-10 : ℤ) :=
      zpow_le_zpow_right₀ (by norm_num) (by norm_num)
    have h2 : (2 : ℚ) ^ (-10 : ℤ) = 1 / 1024 := by
      rw [zpow_neg, one_div, zpow_ofNat]; norm_num
    exact (h1.trans h2.le).trans hx
  have h := abs_fl_sub_le h0
  have hu : (2 : ℚ) ^ (-53 : ℤ) = 1 / 2 ^ 53 := by
    rw [zpow_neg, one_div, zpow_ofNat]
  rw [hu, abs_le] at h
  linarith [h.1]

theorem fl_le_mul {x : ℚ} (hx : 1 / 1024 ≤ x) : fl x ≤ x * (1 + 1 / 2 ^ 53) := by
  have h0 : (2 : ℚ) ^ (-1022 : ℤ) ≤ x := by
    have h1 : (2 : ℚ) ^ (-1022 : ℤ) ≤ 2 ^ (-10 : ℤ) :=
      zpow_le_zpow_right₀ (by norm_num) (by norm_num)
    have h2 : (2 : ℚ) ^ (-10 : ℤ) = 1 / 1024 := by
      rw [zpow_neg, one_div, zpow_ofNat]; norm_num
    exact (h1.trans h2.le).trans hx
  have h := abs_fl_sub_le h0
  have hu : (2 : ℚ) ^ (-53 : ℤ) = 1 / 2 ^ 53 := by
    rw [zpow_neg, one_div, zpow_ofNat]
  rw [hu, abs_le] at h
  linarith [h.2]

theorem fl_one_div_128 : fl (1 / 128) = 1 / 128 := by
  have := fl_eval (1 / 128) (2 ^ 52) 59 (by norm_num) (by norm_num) (by norm_num)
    (by norm_num) (by norm_num)
  rw [this]; norm_num

/-- When the expenses are at least `0.8 + 10^-12` of an income of at least
0.01, the quotient of the two doubles is at least `0.8 + 10^-12 / 2`. -/
theorem dbl_ratio_high (i e : ℚ) (hi : 1 / 100 ≤ i) (he : (0.8 + 1 / 10 ^ 12) * i ≤ e) :
    1 / 128 ≤ fl i ∧ 1600000000001 / 2000000000000 ≤ fl e / fl i := by
  have hI : 1 / 128 ≤ fl i := le_fl_of_le fl_one_div_128 (by linarith)
  have hIpos : 0 < fl i := by linarith
  have h1 : fl i ≤ i * (1 + 1 / 2 ^ 53) := fl_le_mul (by linarith)
  have h2 : (0.8 + 1 / 10 ^ 12) * i * (1 - 1 / 2 ^ 53) ≤ fl ((0.8 + 1 / 10 ^ 12) * i) :=
    fl_ge_mul (by norm_num; linarith)
  have h3 : fl ((0.8 + 1 / 10 ^ 12) * i) ≤ fl e := fl_mono he
  refine ⟨hI, ?_⟩
  rw [le_div_iff₀ hIpos]
  have h4 : (1600000000001 / 2000000000000 : ℚ) * fl i
      ≤ 1600000000001 / 2000000000000 * (i * (1 + 1 / 2 ^ 53)) :=
    mul_le_mul_of_nonneg_left h1 (by norm_num)
  have h5 : (1600000000001 / 2000000000000 : ℚ) * (i * (1 + 1 / 2 ^ 53))
      ≤ (0.8 + 1 / 10 ^ 12) * i * (1 - 1 / 2 ^ 53) := by
    have : (0 : ℚ) ≤ i := by linarith
    have hc : (1600000000001 / 2000000000000 : ℚ) * (1 + 1 / 2 ^ 53)
        ≤ (0.8 + 1 / 10 ^ 12) * (1 - 1 / 2 ^ 53) := by norm_num
    calc (1600000000001 / 2000000000000 : ℚ) * (i * (1 + 1 / 2 ^ 53))
        = (1600000000001 / 2000000000000 * (1 + 1 / 2 ^ 53)) * i := by ring
      _ ≤ ((0.8 + 1 / 10 ^ 12) * (1 - 1 / 2 ^ 53)) * i := mul_le_mul_of_nonneg_right hc this
      _ = (0.8 + 1 / 10 ^ 12) * i * (1 - 1 / 2 ^ 53) := by ring
  linarith

/-- When the expenses are at most `0.8 - 10^-12` of an income of at least 0.01,
the quotient of the two doubles is at most `0.8 - 10^-12 / 2`. -/
theorem dbl_ratio_low (i e : ℚ) (hi : 1 / 100 ≤ i) (he : e ≤ (0.8 - 1 / 10 ^ 12) * i) :
    1 / 128 ≤ fl i ∧ fl e / fl i ≤ 1599999999999 / 2000000000000 := by
  have hI : 1 / 128 ≤ fl i := le_fl_of_le fl_one_div_128 (by linarith)
  have hIpos : 0 < fl i := by linarith
  have h1 : i * (1 - 1 / 2 ^ 53) ≤ fl i := fl_ge_mul (by linarith)
  have h2 : fl ((0.8 - 1 / 10 ^ 12) * i) ≤ (0.8 - 1 / 10 ^ 12) * i * (1 + 1 / 2 ^ 53) :=
    fl_le_mul (by norm_num; linarith)
  have h3 : fl e ≤ fl ((0.8 - 1 / 10 ^ 12) * i) := fl_mono he
  refine ⟨hI, ?_⟩
  rw [div_le_iff₀ hIpos]
  have h4 : (1599999999999 / 2000000000000 : ℚ) * (i * (1 - 1 / 2 ^ 53))
      ≤ 1599999999999 / 2000000000000 * fl i :=
    mul_le_mul_of_nonneg_left h1 (by norm_num)
  have h5 : (0.8 - 1 / 10 ^ 12) * i * (1 + 1 / 2 ^ 53)
      ≤ (1599999999999 / 2000000000000 : ℚ) * (i * (1 - 1 / 2 ^ 53)) := by
    have : (0 : ℚ) ≤ i := by linarith
    have hc : (0.8 - 1 / 10 ^ 12) * (1 + 1 / 2 ^ 53)
        ≤ (1599999999999 / 2000000000000 : ℚ) * (1 - 1 / 2 ^ 53) := by norm_num
    calc (0.8 - 1 / 10 ^ 12) * i * (1 + 1 / 2 ^ 53)
        = ((0.8 - 1 / 10 ^ 12) * (1 + 1 / 2 ^ 53)) * i := by ring
      _ ≤ ((1599999999999 / 2000000000000 : ℚ) * (1 - 1 / 2 ^ 53)) * i :=
        mul_le_mul_of_nonneg_right hc this
      _ = (1599999999999 / 2000000000000 : ℚ) * (i * (1 - 1 / 2 ^ 53)) := by ring
  linarith

/-- A quotient of at least `0.8 + 10^-12 / 2` gives a budget usage above 80. -/
theorem dbl_usage_high (I E : ℚ) (h : 1600000000001 / 2000000000000 ≤ E / I) :
    80 < fl (fl (E / I) * 100) := by
  have ha1 : fl (1600000000001 / 2000000000000) = 7205759403797297 / 2 ^ 53 :=
    fl_eval _ 7205759403797297 53 (by norm_num) (by norm_num) (by norm_num) (by norm_num)
      (by norm_num)
  have ha1p : fl (7205759403797297 / 2 ^ 53 * 100) = 5629499534216638 / 2 ^ 46 :=
    fl_eval _ 5629499534216638 46 (by norm_num) (by norm_num) (by norm_num) (by norm_num)
      (by norm_num)
  have h1 : 7205759403797297 / 2 ^ 53 ≤ fl (E / I) := by
    rw [← ha1]; exact fl_mono h
  have h2 : 5629499534216638 / 2 ^ 46 ≤ fl (fl (E / I) * 100) := by
    rw [← ha1p]; exact fl_mono (by linarith)
  have h3 : (80 : ℚ) < 5629499534216638 / 2 ^ 46 := by norm_num
  linarith

/-- A quotient of at most `0.8 - 10^-12 / 2` gives a budget usage not above
80. -/
theorem dbl_usage_low (I E : ℚ) (h : E / I ≤ 1599999999999 / 2000000000000) :
    fl (fl (E / I) * 100) ≤ 80 := by
  have hb1 : fl (1599999999999 / 2000000000000) = 7205759403788290 / 2 ^ 53 :=
    fl_eval _ 7205759403788290 53 (by norm_num) (by norm_num) (by norm_num) (by norm_num)
      (by norm_num)
  have hb1p : fl (7205759403788290 / 2 ^ 53 * 100) = 5629499534209602 / 2 ^ 46 :=
    fl_eval _ 5629499534209602 46 (by norm_num) (by norm_num) (by norm_num) (by norm_num)
      (by norm_num)
  have h1 : fl (E / I) ≤ 7205759403788290 / 2 ^ 53 := by
    rw [← hb1]; exact fl_mono h
  have h2 : fl (fl (E / I) * 100) ≤ 5629499534209602 / 2 ^ 46 := by
    rw [← hb1p]; exact fl_mono (by linarith)
  have h3 : (5629499534209602 / 2 ^ 46 : ℚ) ≤ 80 := by norm_num
  linarith

/-- A quotient of at least `0.8 + 10^-12 / 2` gives a savings rate below 20. -/
theorem dbl_rate_low (I E : ℚ) (hI : 1 / 128 ≤ I)
    (h : 1600000000001 / 2000000000000 ≤ E / I) :
    fl (fl (fl (I - E) / I) * 100) < 20 := by
  have ha2 : fl (799999999999 / 4000000000000) = 7205759403783786 / 2 ^ 55 :=
    fl_eval _ 7205759403783786 55 (by norm_num) (by norm_num) (by norm_num) (by norm_num)
      (by norm_num)
  have ha2p : fl (7205759403783786 / 2 ^ 55 * 100) = 5629499534206083 / 2 ^ 48 :=
    fl_eval _ 5629499534206083 48 (by norm_num) (by norm_num) (by norm_num) (by norm_num)
      (by norm_num)
  have hIpos : 0 < I := by linarith
  have hE : 1600000000001 / 2000000000000 * I ≤ E := (le_div_iff₀ hIpos).mp h
  have hw : I - E ≤ I * (399999999999 / 2000000000000) := by linarith
  have h1 : fl (I - E) ≤ fl (I * (399999999999 / 2000000000000)) := fl_mono hw
  have h2 : fl (I * (399999999999 / 2000000000000))
      ≤ I * (399999999999 / 2000000000000) * (1 + 1 / 2 ^ 53) :=
    fl_le_mul (by linarith)
  have h3 : fl (I - E) / I ≤ 799999999999 / 4000000000000 := by
    rw [div_le_iff₀ hIpos]
    have hc : (399999999999 / 2000000000000 : ℚ) * (1 + 1 / 2 ^ 53)
        ≤ 799999999999 / 4000000000000 := by norm_num
    calc fl (I - E) ≤ I * (399999999999 / 2000000000000) * (1 + 1 / 2 ^ 53) := h1.trans h2
      _ = (399999999999 / 2000000000000 * (1 + 1 / 2 ^ 53)) * I := by ring
      _ ≤ 799999999999 / 4000000000000 * I := mul_le_mul_of_nonneg_right hc hIpos.le
  have h4 : fl (fl (I - E) / I) ≤ 7205759403783786 / 2 ^ 55 := by
    rw [← ha2]; exact fl_mono h3
  have h5 : fl (fl (fl (I - E) / I) * 100) ≤ 5629499534206083 / 2 ^ 48 := by
    rw [← ha2p]; exact fl_mono (by linarith)
  have h6 : (5629499534206083 / 2 ^ 48 : ℚ) < 20 := by norm_num
  linarith

/-- A quotient of at most `0.8 - 10^-12 / 2` gives a savings rate of at least
20. -/
theorem dbl_rate_high (I E : ℚ) (hI : 1 / 128 ≤ I)
    (h : E / I ≤ 1599999999999 / 2000000000000) :
    20 ≤ fl (fl (fl (I - E) / I) * 100) := by
  have hb2 : fl (800000000001 / 4000000000000) = 7205759403801801 / 2 ^ 55 :=
    fl_eval _ 7205759403801801 55 (by norm_num) (by norm_num) (by norm_num) (by norm_num)
      (by norm_num)
  have hb2p : fl (7205759403801801 / 2 ^ 55 * 100) = 5629499534220157 / 2 ^ 48 :=
    fl_eval _ 5629499534220157 48 (by norm_num) (by norm_num) (by norm_num) (by norm_num)
      (by norm_num)
  have hIpos : 0 < I := by linarith
  have hE : E ≤ 1599999999999 / 2000000000000 * I := (div_le_iff₀ hIpos).mp h
  have hw : I * (400000000001 / 2000000000000) ≤ I - E := by linarith
  have h1 : fl (I * (400000000001 / 2000000000000)) ≤ fl (I - E) := fl_mono hw
  have h2 : I * (400000000001 / 2000000000000) * (1 - 1 / 2 ^ 53)
      ≤ fl (I * (400000000001 / 2000000000000)) :=
    fl_ge_mul (by linarith)
  have h3 : 800000000001 / 4000000000000 ≤ fl (I - E) / I := by
    rw [le_div_iff₀ hIpos]
    have hc : (800000000001 / 4000000000000 : ℚ)
        ≤ 400000000001 / 2000000000000 * (1 - 1 / 2 ^ 53) := by norm_num
    calc (800000000001 / 4000000000000 : ℚ) * I
        ≤ (400000000001 / 2000000000000 * (1 - 1 / 2 ^ 53)) * I :=
          mul_le_mul_of_nonneg_right hc hIpos.le
      _ = I * (400000000001 / 2000000000000) * (1 - 1 / 2 ^ 53) := by ring
      _ ≤ fl (I - E) := h2.trans h1
  have h4 : 7205759403801801 / 2 ^ 55 ≤ fl (fl (I - E) / I) := by
    rw [← hb2]; exact fl_mono h3
  have h5 : 5629499534220157 / 2 ^ 48 ≤ fl (fl (fl (I - E) / I) * 100) := by
    rw [← hb2p]; exact fl_mono (by linarith)
  have h6 : (20 : ℚ) ≤ 5629499534220157 / 2 ^ 48 := by norm_num
  linarith

theorem dbl_percentageUsed_pos (income expenses : ℚ) (h : 0 < fl income) :
    Dashboard.percentageUsed income expenses
      = ⟨fin (fl (fl (fl expenses / fl income) * 100))⟩ := by
  unfold Dashboard.percentageUsed
  rw [lit_eq, lit_eq, zero_eq, hundred_eq, gt_mk, if_pos (by simpa using h),
    div_mk _ h.ne', mul_mk]

theorem dbl_savingsRate_pos (income expenses : ℚ) (h : 0 < fl income) :
    Insights.savingsRate income expenses
      = ⟨fin (fl (fl (fl (fl income - fl expenses) / fl income) * 100))⟩ := by
  unfold Insights.savingsRate
  rw [lit_eq, lit_eq, hundred_eq, sub_mk, div_mk _ h.ne', mul_mk]

/-- A double that is not negative is a whole multiple of the spacing at it. -/
theorem dbl_mantissa {x : ℚ} (hx : 0 ≤ x) (h : fl x = x) : ∃ n : ℤ, x = n * 2 ^ ulpExp x := by
  obtain ⟨n, hn, -⟩ := dbl_round_grid hx
  exact ⟨n, by rw [← hn, h]⟩

/-- The difference of two doubles `a/2 ≤ b ≤ a` is a double: the subtraction
`a - b` is exact. -/
theorem dbl_sub_exact {a b : ℚ} (ha : fl a = a) (hb : fl b = b) (h1 : a / 2 ≤ b) (h2 : b ≤ a)
    (hb0 : 0 < b) : fl (a - b) = a - b := by
  have ha0 : 0 < a := lt_of_lt_of_le hb0 h2
  obtain ⟨na, hna⟩ := dbl_mantissa ha0.le ha
  obtain ⟨nb, hnb⟩ := dbl_mantissa hb0.le hb
  have hg : ulpExp b ≤ ulpExp a :=
    ulpExp_mono hb0.ne' (by rw [abs_of_pos hb0, abs_of_pos ha0]; exact h2)
  have hbtop := lt_two_zpow_ulpExp (x := b)
  rw [abs_of_pos hb0] at hbtop
  generalize ulpExp a = ga at *
  generalize hgb : ulpExp b = gb at *
  obtain ⟨d, hd⟩ := Int.eq_ofNat_of_zero_le (sub_nonneg.mpr hg)
  have hga : ga = gb + d := by omega
  have hu : (0 : ℚ) < 2 ^ gb := two_zpow_pos gb
  have hsplit : (2 : ℚ) ^ ga = 2 ^ d * 2 ^ gb := by
    rw [hga, zpow_add₀ (by norm_num : (2 : ℚ) ≠ 0), zpow_natCast, mul_comm]
  have hk : a - b = ((na * 2 ^ d - nb : ℤ) : ℚ) * 2 ^ gb := by
    rw [hna, hnb, hsplit]
    push_cast
    ring
  have hk0 : 0 ≤ na * 2 ^ d - nb := by
    have : (0 : ℚ) ≤ ((na * 2 ^ d - nb : ℤ) : ℚ) * 2 ^ gb := by rw [← hk]; linarith
    have := nonneg_of_mul_nonneg_left this hu
    exact_mod_cast this
  have hk1 : na * 2 ^ d - nb < 2 ^ 53 := by
    have : ((na * 2 ^ d - nb : ℤ) : ℚ) * 2 ^ gb < 2 ^ 53 * 2 ^ gb := by
      rw [← hk]
      rw [zpow_add₀ (by norm_num : (2 : ℚ) ≠ 0), zpow_ofNat] at hbtop
      linarith
    have := lt_of_mul_lt_mul_right this hu.le
    exact_mod_cast this
  obtain ⟨m, hm⟩ := Int.eq_ofNat_of_zero_le hk0
  have hm1 : m < 2 ^ 53 := by
    have : (m : ℤ) < 2 ^ 53 := by rw [← hm]; exact hk1
    exact_mod_cast this
  have hgb0 : -1074 ≤ gb := by rw [← hgb]; exact ulpExp_ge b
  have hex := roundAbs_exact m gb hm1 hgb0
  have hval : a - b = (m : ℚ) * 2 ^ gb := by
    rw [hk, hm]
    push_cast
    ring
  rw [fl_of_nonneg (by linarith), hval]
  exact hex

/-- The Dashboard warning and a savings rate of at least 20 exclude each other:
a budget usage computed above 80 means that the expenses are above the double
`0.8` of the income, and then the computed savings rate is below 20. -/
theorem dbl_warning_excludes_excellent (I E : ℚ) (hI : 0 < I) (hfI : fl I = I) (hfE : fl E = E)
    (hw : 80 < fl (fl (E / I) * 100)) : fl (fl (fl (I - E) / I) * 100) < 20 := by
  have hc : fl (7205759403792794 / 2 ^ 53 : ℚ) = 7205759403792794 / 2 ^ 53 := by
    rw [← fl_0_8, fl_idem]
  have k1 : fl (7205759403792794 / 2 ^ 53 * 100) = 80 := by
    have := fl_eval (7205759403792794 / 2 ^ 53 * 100) 5629499534213120 46 (by norm_num)
      (by norm_num) (by norm_num) (by norm_num) (by norm_num)
    rw [this]; norm_num
  have k2 : fl (1 - 7205759403792794 / 2 ^ 53) = 7205759403792792 / 2 ^ 55 :=
    fl_eval _ 7205759403792792 55 (by norm_num) (by norm_num) (by norm_num) (by norm_num)
      (by norm_num)
  have k3 : fl (7205759403792792 / 2 ^ 55 * 100) = 5629499534213119 / 2 ^ 48 :=
    fl_eval _ 5629499534213119 48 (by norm_num) (by norm_num) (by norm_num) (by norm_num)
      (by norm_num)
  have hs1 : fl (7205759403792792 / 2 ^ 55 : ℚ) = 7205759403792792 / 2 ^ 55 := by
    rw [← k2, fl_idem]
  -- the quotient is above the double `0.8`
  have hq : 7205759403792794 / 2 ^ 53 < fl (E / I) := by
    by_contra hle
    push_neg at hle
    have : fl (fl (E / I) * 100) ≤ fl (7205759403792794 / 2 ^ 53 * 100) :=
      fl_mono (by linarith)
    rw [k1] at this
    linarith
  have hq2 : 7205759403792794 / 2 ^ 53 < E / I := lt_of_lt_fl hc hq
  have hE1 : 7205759403792794 / 2 ^ 53 * I < E := (lt_div_iff₀ hI).mp hq2
  have hE0 : 0 < E := lt_trans (mul_pos (by norm_num) hI) hE1
  -- the difference is below the double `0.2` of the income
  have hd : fl (I - E) < 7205759403792792 / 2 ^ 55 * I := by
    rcases le_or_lt E I with hle | hgt
    · rw [dbl_sub_exact hfI hfE (by linarith) hle hE0]
      linarith
    · have := fl_nonpos (x := I - E) (by linarith)
      have : (0 : ℚ) < 7205759403792792 / 2 ^ 55 * I := mul_pos (by norm_num) hI
      linarith
  have hs : fl (fl (I - E) / I) ≤ 7205759403792792 / 2 ^ 55 :=
    fl_le_of_le hs1 (by rw [div_le_iff₀ hI]; exact hd.le)
  have hp : fl (fl (fl (I - E) / I) * 100) ≤ 5629499534213119 / 2 ^ 48 := by
    rw [← k3]
    exact fl_mono (by linarith)
  have : (5629499534213119 / 2 ^ 48 : ℚ) < 20 := by norm_num
  linarith

/-- C25 as stated fails: for income 1.0 and expenses 0.8 the code computes
`percentageUsed = 80` exactly, so the Dashboard warning is not shown, and the
savings rate `5629499534213119 / 2^48 = 19.999999999999996...`, so "Excellent
Savings!" is not emitted either. -/
theorem C25_dashboard_warning_counterexample :
    Dashboard.percentageUsed 1 0.8 = ⟨fin 80⟩
    ∧ Dashboard.budgetUsageWarning 1 0.8 = false
    ∧ Insights.savingsRate 1 0.8 = ⟨fin (5629499534213119 / 2 ^ 48)⟩
    ∧ (5629499534213119 / 2 ^ 48 : ℚ) < 20
    ∧ ¬ ∃ i ∈ Insights.generateInsights ⟨[], []⟩ ⟨1, 0.8, [], []⟩,
          i.title = "Excellent Savings!" := by
  have k1 : fl (7205759403792794 / 2 ^ 53 * 100) = 80 := by
    have := fl_eval (7205759403792794 / 2 ^ 53 * 100) 5629499534213120 46 (by norm_num)
      (by norm_num) (by norm_num) (by norm_num) (by norm_num)
    rw [this]; norm_num
  have k2 : fl (1 - 7205759403792794 / 2 ^ 53) = 7205759403792792 / 2 ^ 55 :=
    fl_eval _ 7205759403792792 55 (by norm_num) (by norm_num) (by norm_num) (by norm_num)
      (by norm_num)
  have k3 : fl (7205759403792792 / 2 ^ 55 * 100) = 5629499534213119 / 2 ^ 48 :=
    fl_eval _ 5629499534213119 48 (by norm_num) (by norm_num) (by norm_num) (by norm_num)
      (by norm_num)
  have hc : fl (7205759403792794 / 2 ^ 53 : ℚ) = 7205759403792794 / 2 ^ 53 := by
    rw [← fl_0_8, fl_idem]
  have hc2 : fl (7205759403792792 / 2 ^ 55 : ℚ) = 7205759403792792 / 2 ^ 55 := by
    rw [← k2, fl_idem]
  have hpu : Dashboard.percentageUsed 1 0.8 = ⟨fin 80⟩ := by
    rw [dbl_percentageUsed_pos _ _ (by rw [fl_one]; norm_num), fl_one, fl_0_8, div_one, hc, k1]
  have hsr : Insights.savingsRate 1 0.8 = ⟨fin (5629499534213119 / 2 ^ 48)⟩ := by
    rw [dbl_savingsRate_pos _ _ (by rw [fl_one]; norm_num), fl_one, fl_0_8, k2, div_one, hc2,
      k3]
  refine ⟨hpu, ?_, hsr, by norm_num, ?_⟩
  · unfold Dashboard.budgetUsageWarning
    rw [hpu, eighty_eq, gt_mk]
    simp
  · rw [Insights.dbl_excellent_savings_iff]
    simp only []
    rw [hsr, twenty_eq, ge_mk]
    intro h
    have := h.2.2
    simp only [decide_eq_true_eq] at this
    norm_num at this

/-- C25 (amended): Dashboard warning versus savings insight, as the code
computes them.  The warning is shown when `total_income > 0` and the computed
`percentageUsed = (total_expenses/total_income)*100` is above 80, and
"Excellent Savings!" is emitted when `total_income > 0` and the computed
savings rate is at least 20.  The two are never shown together: when the
warning is shown, "Excellent Savings!" is not emitted.  The converse holds away
from the threshold: for an income of at least 0.01, when
`total_expenses <= (0.8 - 10^-12) * total_income` the warning is not shown and
"Excellent Savings!" is emitted, and when
`total_expenses >= (0.8 + 10^-12) * total_income` the warning is shown and
"Excellent Savings!" is not emitted.  With `total_income = 0` neither is
shown. -/
theorem C25_dashboard_warning_vs_savings (trendsData : Trend) (income expenses : ℚ)
    (spending budgets : List (String × ℚ)) :
    (Dashboard.budgetUsageWarning income expenses = true →
      ¬ ∃ i ∈ Insights.generateInsights trendsData ⟨income, expenses, spending, budgets⟩,
          i.title = "Excellent Savings!")
    ∧ (1 / 100 ≤ income → (0.8 + 1 / 10 ^ 12) * income ≤ expenses →
      Dashboard.budgetUsageWarning income expenses = true
      ∧ ¬ ∃ i ∈ Insights.generateInsights trendsData ⟨income, expenses, spending, budgets⟩,
            i.title = "Excellent Savings!")
    ∧ (1 / 100 ≤ income → expenses ≤ (0.8 - 1 / 10 ^ 12) * income →
      Dashboard.budgetUsageWarning income expenses = false
      ∧ ∃ i ∈ Insights.generateInsights trendsData ⟨income, expenses, spending, budgets⟩,
          i.title = "Excellent Savings!")
    ∧ (Dashboard.budgetUsageWarning income expenses = true
        ↔ (lit income).gt 0 = true ∧ ((lit expenses / lit income) * 100).gt 80 = true)
    ∧ ((∃ i ∈ Insights.generateInsights trendsData ⟨income, expenses, spending, budgets⟩,
          i.title = "Excellent Savings!")
        ↔ (lit income).gt 0 = true
          ∧ (Insights.savingsRate income expenses).lt 10 = false
          ∧ (Insights.savingsRate income expenses).ge 20 = true)
    ∧ (Dashboard.budgetUsageWarning 0 expenses = false
      ∧ ¬ ∃ i ∈ Insights.generateInsights trendsData ⟨0, expenses, spending, budgets⟩,
            i.title = "Excellent Savings!") := by
  have hgt0 : ∀ x : ℚ, 0 < fl x → (lit x).gt 0 = true := by
    intro x hx
    rw [lit_eq, zero_eq, gt_mk]; simpa using hx
  refine ⟨?_, ?_, ?_, ?_, Insights.dbl_excellent_savings_iff trendsData _, ?_⟩
  · intro hw hx
    rw [Insights.dbl_excellent_savings_iff] at hx
    simp only [] at hx
    obtain ⟨h0, -, h20⟩ := hx
    have hIpos : 0 < fl income := by
      rw [lit_eq, zero_eq, gt_mk] at h0
      simpa using h0
    unfold Dashboard.budgetUsageWarning at hw
    rw [dbl_percentageUsed_pos _ _ hIpos, eighty_eq, gt_mk, decide_eq_true_eq] at hw
    rw [dbl_savingsRate_pos _ _ hIpos, twenty_eq, ge_mk, decide_eq_true_eq] at h20
    have := dbl_warning_excludes_excellent (fl income) (fl expenses) hIpos (fl_idem _)
      (fl_idem _) hw
    linarith
  · intro hi he
    obtain ⟨hI, hq⟩ := dbl_ratio_high income expenses hi he
    have hIpos : 0 < fl income := by linarith
    constructor
    · unfold Dashboard.budgetUsageWarning
      rw [dbl_percentageUsed_pos _ _ hIpos, eighty_eq, gt_mk]
      simpa using dbl_usage_high (fl income) (fl expenses) hq
    · rw [Insights.dbl_excellent_savings_iff]
      simp only []
      rw [dbl_savingsRate_pos _ _ hIpos, twenty_eq, ge_mk]
      intro h
      have h20 := h.2.2
      simp only [decide_eq_true_eq] at h20
      exact absurd h20 (not_le.mpr (dbl_rate_low (fl income) (fl expenses) hI hq))
  · intro hi he
    obtain ⟨hI, hq⟩ := dbl_ratio_low income expenses hi he
    have hIpos : 0 < fl income := by linarith
    have h20 := dbl_rate_high (fl income) (fl expenses) hI hq
    constructor
    · unfold Dashboard.budgetUsageWarning
      rw [dbl_percentageUsed_pos _ _ hIpos, eighty_eq, gt_mk]
      simpa using dbl_usage_low (fl income) (fl expenses) hq
    · rw [Insights.dbl_excellent_savings_iff]
      simp only []
      rw [dbl_savingsRate_pos _ _ hIpos, ten_eq, twenty_eq, lt_mk, ge_mk]
      refine ⟨hgt0 income hIpos, ?_, ?_⟩
      · simp only [decide_eq_false_iff_not, not_lt]
        linarith
      · simpa using h20
  · unfold Dashboard.budgetUsageWarning Dashboard.percentageUsed
    by_cases h : (lit income).gt 0 = true
    · rw [if_pos h]
      simp [h]
    · rw [if_neg h]
      have h80 : (0 : Double).gt 80 = false := by
        rw [zero_eq, eighty_eq, gt_mk]; norm_num
      simp [h, h80]
  · constructor
    · unfold Dashboard.budgetUsageWarning Dashboard.percentageUsed
      rw [lit_of_eq fl_zero, zero_eq, gt_mk, if_neg (by simp), eighty_eq, gt_mk]
      norm_num
    · rw [Insights.dbl_excellent_savings_iff]
      simp only []
      rw [lit_of_eq fl_zero, zero_eq, gt_mk]
      simp

theorem C25_dashboard_warning_vs_savings_witness :
    Dashboard.budgetUsageWarning 1000 850 = true
    ∧ ¬ ∃ i ∈ Insights.generateInsights ⟨[], []⟩ ⟨1000, 850, [], []⟩,
          i.title = "Excellent Savings!" :=
  (C25_dashboard_warning_vs_savings ⟨[], []⟩ 1000 850 [] []).2.1 (by norm_num) (by norm_num)

end F64

namespace F64

open Double

/-- Every double is a whole multiple of `2^-1074`, the smallest positive
double. -/
theorem dbl_grid (x : ℚ) (h : fl x = x) : ∃ k : ℤ, x = k * 2 ^ (-1074 : ℤ) := by
  have key : ∀ y : ℚ, 0 ≤ y → ∃ k : ℤ, roundAbs y = k * 2 ^ (-1074 : ℤ) := by
    intro y _
    obtain ⟨d, hd⟩ := Int.eq_ofNat_of_zero_le (sub_nonneg.mpr (ulpExp_ge y))
    refine ⟨roundHalfEven (y / 2 ^ ulpExp y) * 2 ^ d, ?_⟩
    have he : ulpExp y = (d : ℤ) + (-1074) := by omega
    unfold roundAbs
    rw [he, zpow_add₀ (by norm_num : (2 : ℚ) ≠ 0), zpow_natCast]
    push_cast
    ring
  rcases le_or_lt 0 x with hx | hx
  · obtain ⟨k, hk⟩ := key x hx
    exact ⟨k, by rw [← h, fl_of_nonneg hx, hk]⟩
  · obtain ⟨k, hk⟩ := key (-x) (by linarith)
    refine ⟨-k, ?_⟩
    have h1 := fl_neg (-x)
    rw [neg_neg, fl_of_nonneg (by linarith : (0 : ℚ) ≤ -x), hk, h] at h1
    rw [h1]
    push_cast
    ring

/-- The difference of two doubles `b < a` does not round to 0. -/
theorem dbl_sub_pos {a b : ℚ} (ha : fl a = a) (hb : fl b = b) (h : b < a) : 0 < fl (a - b) := by
  obtain ⟨ka, hka⟩ := dbl_grid a ha
  obtain ⟨kb, hkb⟩ := dbl_grid b hb
  have hs : (0 : ℚ) < 2 ^ (-1074 : ℤ) := two_zpow_pos _
  have hk : kb < ka := by
    have : (kb : ℚ) * 2 ^ (-1074 : ℤ) < ka * 2 ^ (-1074 : ℤ) := by rw [← hka, ← hkb]; exact h
    have := lt_of_mul_lt_mul_right this hs.le
    exact_mod_cast this
  have h1 : (2 : ℚ) ^ (-1074 : ℤ) ≤ a - b := by
    rw [hka, hkb, ← sub_mul]
    have : (1 : ℚ) ≤ ka - kb := by
      have : (1 : ℤ) ≤ ka - kb := by omega
      exact_mod_cast this
    calc (2 : ℚ) ^ (-1074 : ℤ) = 1 * 2 ^ (-1074 : ℤ) := by ring
      _ ≤ (ka - kb) * 2 ^ (-1074 : ℤ) := mul_le_mul_of_nonneg_right this hs.le
  have h2 : fl ((2 : ℚ) ^ (-1074 : ℤ)) = 2 ^ (-1074 : ℤ) := by
    have := roundAbs_exact 1 (-1074) (by norm_num) (by norm_num)
    rw [Nat.cast_one, one_mul] at this
    rw [fl_of_nonneg hs.le, this]
  exact lt_of_lt_of_le hs (le_fl_of_le h2 h1)

theorem dbl_max_zero (a : ℚ) : Double.max 0 ⟨fin a⟩ = ⟨fin (max 0 a)⟩ := by
  unfold Double.max
  rw [zero_eq, JSNum.max_fin]

theorem dbl_paymentOnBlur_pos (debt : Debts.Debt) (v : ℚ) (hv : 0 < v) :
    Debts.paymentOnBlur debt ⟨fin v⟩
      = some ⟨debt.id, fin (max 0 (fl (fl debt.remaining_amount - v)))⟩ := by
  unfold Debts.paymentOnBlur
  have h1 : (⟨fin v⟩ : Double).isNaN = false := rfl
  have h2 : (⟨fin v⟩ : Double).gt 0 = true := by
    rw [zero_eq, gt_mk]; simpa using hv
  simp only [h1, h2, Bool.not_false, Bool.and_self, if_true, lit_eq, sub_mk, dbl_max_zero]
  rfl

theorem dbl_paymentOnBlur_nonpos (debt : Debts.Debt) (v : ℚ) (hv : v ≤ 0) :
    Debts.paymentOnBlur debt ⟨fin v⟩ = none := by
  unfold Debts.paymentOnBlur
  have h2 : (⟨fin v⟩ : Double).gt 0 = false := by
    rw [zero_eq, gt_mk]; simpa using hv
  simp [h2]

theorem dbl_paymentOnKeyDown_enter (debt : Debts.Debt) (payment : Double) :
    Debts.paymentOnKeyDown "Enter" debt payment = Debts.paymentOnBlur debt payment := by
  simp [Debts.paymentOnKeyDown, Debts.paymentOnBlur]

/-- The remaining amount after the payment handler, for any entered value: a
finite number between 0 and the remaining amount before. -/
theorem dbl_remainingAfter_bounds (debt : Debts.Debt) (hr : 0 ≤ debt.remaining_amount)
    (payment : Double) :
    ∃ x : ℚ, Debts.remainingAfter debt (Debts.paymentOnBlur debt payment) = ⟨fin x⟩
      ∧ 0 ≤ x ∧ x ≤ fl debt.remaining_amount := by
  have hr' : 0 ≤ fl debt.remaining_amount := fl_nonneg hr
  obtain ⟨pv⟩ := payment
  cases pv with
  | fin v =>
    by_cases hv : 0 < v
    · rw [dbl_paymentOnBlur_pos debt v hv]
      refine ⟨_, rfl, le_max_left _ _, max_le hr' ?_⟩
      exact fl_le_of_le (fl_idem _) (by linarith)
    · rw [dbl_paymentOnBlur_nonpos debt v (not_lt.mp hv)]
      exact ⟨_, rfl, hr', le_refl _⟩
  | posInf =>
    refine ⟨0, ?_, le_refl _, hr'⟩
    unfold Debts.paymentOnBlur Debts.remainingAfter
    have h2 : (⟨posInf⟩ : Double).gt 0 = true := by rw [zero_eq]; rfl
    have h3 : (lit debt.remaining_amount - ⟨posInf⟩ : Double) = ⟨negInf⟩ := rfl
    have h4 : Double.max 0 ⟨negInf⟩ = ⟨fin 0⟩ := by
      unfold Double.max
      rw [zero_eq]
      rfl
    simp only [isNaN, JSNum.isNaN, h2, h3, h4, Bool.not_false, Bool.and_self, if_true,
      Debts.handleUpdateDebt, parseFloat]
  | negInf =>
    refine ⟨_, ?_, hr', le_refl _⟩
    have h2 : (⟨negInf⟩ : Double).gt 0 = false := by rw [zero_eq]; rfl
    simp [Debts.paymentOnBlur, h2, Debts.remainingAfter, lit_eq]
  | nan =>
    exact ⟨_, rfl, hr', le_refl _⟩

/-- C27 as stated fails: a debt of 1000 with 0.10000000000002274 remaining and
a payment of 0.1, which is below what remains, leaves the double
`7204000185188352 / 2^98 = 2.27...e-14` and not 0, and yet the payoff
percentage the code computes is exactly 100 and the banner "Debt Paid Off!" is
shown: `1000 - 2.27e-14` rounds to 1000. -/
theorem C27_payment_counterexample :
    (0.1 : ℚ) < 0.10000000000002274
    ∧ fl 0.1 < fl 0.10000000000002274
    ∧ Debts.remainingAfter ⟨1, "Loan", 1000, 0.10000000000002274, 0⟩
        (Debts.paymentOnBlur ⟨1, "Loan", 1000, 0.10000000000002274, 0⟩ (lit 0.1))
        = ⟨fin (7204000185188352 / 2 ^ 98)⟩
    ∧ Debts.calculateProgress
        (Debts.remainingAfter ⟨1, "Loan", 1000, 0.10000000000002274, 0⟩
          (Debts.paymentOnBlur ⟨1, "Loan", 1000, 0.10000000000002274, 0⟩ (lit 0.1)))
        (lit 1000) = ⟨fin 100⟩
    ∧ Debts.debtPaidOff (Debts.calculateProgress
        (Debts.remainingAfter ⟨1, "Loan", 1000, 0.10000000000002274, 0⟩
          (Debts.paymentOnBlur ⟨1, "Loan", 1000, 0.10000000000002274, 0⟩ (lit 0.1)))
        (lit 1000)) = true := by
  have h1 : fl (0.10000000000002274) = 7205759403794432 / 2 ^ 56 :=
    fl_eval _ 7205759403794432 56 (by norm_num) (by norm_num) (by norm_num) (by norm_num)
      (by norm_num)
  have h2 : fl (0.1) = 7205759403792794 / 2 ^ 56 :=
    fl_eval _ 7205759403792794 56 (by norm_num) (by norm_num) (by norm_num) (by norm_num)
      (by norm_num)
  have h3 : fl (7205759403794432 / 2 ^ 56 - 7205759403792794 / 2 ^ 56)
      = 7204000185188352 / 2 ^ 98 :=
    fl_eval _ 7204000185188352 98 (by norm_num) (by norm_num) (by norm_num) (by norm_num)
      (by norm_num)
  have h4 : fl (1000 - 7204000185188352 / 2 ^ 98) = 1000 := by
    have := fl_eval (1000 - 7204000185188352 / 2 ^ 98) 8796093022208000 43 (by norm_num)
      (by norm_num) (by norm_num) (by norm_num) (by norm_num)
    rw [this]; norm_num
  have h5 : fl (1000 / 1000) = 1 := by
    rw [← fl_one]; norm_num
  have h6 : fl (1 * 100) = 100 := by
    rw [one_mul, fl_ofNat 100 (by norm_num)]
  have hrem : Debts.remainingAfter ⟨1, "Loan", 1000, 0.10000000000002274, 0⟩
      (Debts.paymentOnBlur ⟨1, "Loan", 1000, 0.10000000000002274, 0⟩ (lit 0.1))
      = ⟨fin (7204000185188352 / 2 ^ 98)⟩ := by
    rw [lit_of_eq h2, dbl_paymentOnBlur_pos _ _ (by norm_num)]
    simp only [Debts.remainingAfter, h1, h3]
    rw [max_eq_right (by norm_num)]
  have hprog : Debts.calculateProgress
      (Debts.remainingAfter ⟨1, "Loan", 1000, 0.10000000000002274, 0⟩
        (Debts.paymentOnBlur ⟨1, "Loan", 1000, 0.10000000000002274, 0⟩ (lit 0.1)))
      (lit 1000) = ⟨fin 100⟩ := by
    rw [hrem]
    unfold Debts.calculateProgress
    rw [lit_of_eq (fl_ofNat 1000 (by norm_num)), hundred_eq, sub_mk, h4,
      div_mk _ (by norm_num), h5, mul_mk, h6]
  refine ⟨by norm_num, by rw [h1, h2]; norm_num, hrem, hprog, ?_⟩
  rw [hprog]
  unfold Debts.debtPaidOff
  rw [hundred_eq, ge_mk]
  simp

/-- C27 (amended): a payment entry can never increase a debt.  For a debt with
`remaining >= 0` and any entered value, the payment handler sends no update
when the value is not a number or is `<= 0`, and otherwise sets the remaining
amount to `max 0 (remaining - v)`, the difference rounded to the nearest
double; the new remaining amount is a number between 0 and the old one.  After
an update with a double `v > 0`, the remaining amount is 0 exactly when
`v >= remaining`; in that case, for `total > 0`, the payoff percentage is 100
and the banner condition `progress >= 100` holds.  (`fl x` is the double the
code holds for the amount `x` of the record.) -/
theorem C27_payment_never_increases_debt (debt : Debts.Debt) (payment : Double) (key : String)
    (v total : ℚ) (hr : 0 ≤ debt.remaining_amount) :
    Debts.paymentOnBlur debt ⟨nan⟩ = none
    ∧ (v ≤ 0 → Debts.paymentOnBlur debt ⟨fin v⟩ = none)
    ∧ (0 < v → Debts.paymentOnBlur debt ⟨fin v⟩
        = some ⟨debt.id, fin (max 0 (fl (fl debt.remaining_amount - v)))⟩)
    ∧ Debts.paymentOnKeyDown "Enter" debt payment = Debts.paymentOnBlur debt payment
    ∧ (key ≠ "Enter" → Debts.paymentOnKeyDown key debt payment = none)
    ∧ (∃ x : ℚ, Debts.remainingAfter debt (Debts.paymentOnBlur debt payment) = ⟨fin x⟩
        ∧ 0 ≤ x ∧ x ≤ fl debt.remaining_amount)
    ∧ (∃ x : ℚ, Debts.remainingAfter debt (Debts.paymentOnKeyDown key debt payment) = ⟨fin x⟩
        ∧ 0 ≤ x ∧ x ≤ fl debt.remaining_amount)
    ∧ (0 < v → fl v = v →
        (Debts.remainingAfter debt (Debts.paymentOnBlur debt ⟨fin v⟩) = ⟨fin 0⟩
          ↔ fl debt.remaining_amount ≤ v))
    ∧ (0 < v → 0 < fl total → fl debt.remaining_amount ≤ v →
        Debts.calculateProgress
            (Debts.remainingAfter debt (Debts.paymentOnBlur debt ⟨fin v⟩)) (lit total)
          = ⟨fin 100⟩
        ∧ Debts.debtPaidOff (Debts.calculateProgress
            (Debts.remainingAfter debt (Debts.paymentOnBlur debt ⟨fin v⟩)) (lit total))
          = true) := by
  have hzero : 0 < v → fl debt.remaining_amount ≤ v →
      Debts.remainingAfter debt (Debts.paymentOnBlur debt ⟨fin v⟩) = ⟨fin 0⟩ := by
    intro hv hle
    rw [dbl_paymentOnBlur_pos debt v hv]
    simp only [Debts.remainingAfter]
    rw [max_eq_left (fl_nonpos (by linarith))]
  refine ⟨rfl, dbl_paymentOnBlur_nonpos debt v, dbl_paymentOnBlur_pos debt v,
    dbl_paymentOnKeyDown_enter debt payment, ?_, dbl_remainingAfter_bounds debt hr payment,
    ?_, ?_, ?_⟩
  · intro hk
    simp [Debts.paymentOnKeyDown, hk]
  · by_cases hk : key = "Enter"
    · rw [hk, dbl_paymentOnKeyDown_enter]
      exact dbl_remainingAfter_bounds debt hr payment
    · have : Debts.paymentOnKeyDown key debt payment = none := by
        simp [Debts.paymentOnKeyDown, hk]
      rw [this]
      exact ⟨_, rfl, fl_nonneg hr, le_refl _⟩
  · intro hv hdv
    constructor
    · intro h
      by_contra hlt
      push_neg at hlt
      have hpos := dbl_sub_pos (fl_idem debt.remaining_amount) hdv hlt
      rw [dbl_paymentOnBlur_pos debt v hv] at h
      simp only [Debts.remainingAfter, Double.mk.injEq, JSNum.fin.injEq] at h
      rw [max_eq_right hpos.le] at h
      exact absurd h hpos.ne'
    · exact hzero hv
  · intro hv ht hle
    have hprog : Debts.calculateProgress
        (Debts.remainingAfter debt (Debts.paymentOnBlur debt ⟨fin v⟩)) (lit total)
        = ⟨fin 100⟩ := by
      rw [hzero hv hle]
      unfold Debts.calculateProgress
      rw [lit_eq, hundred_eq, sub_mk, sub_zero, fl_idem, div_mk _ ht.ne', div_self ht.ne',
        fl_one, mul_mk, one_mul, fl_ofNat 100 (by norm_num)]
    refine ⟨hprog, ?_⟩
    rw [hprog]
    unfold Debts.debtPaidOff
    rw [hundred_eq, ge_mk]
    simp

theorem C27_payment_never_increases_debt_witness :
    Debts.calculateProgress (Debts.remainingAfter ⟨1, "Car loan", 1000, 300, 5⟩
        (Debts.paymentOnBlur ⟨1, "Car loan", 1000, 300, 5⟩ ⟨fin 450⟩)) (lit 1000) = ⟨fin 100⟩
    ∧ Debts.debtPaidOff (Debts.calculateProgress (Debts.remainingAfter
        ⟨1, "Car loan", 1000, 300, 5⟩
        (Debts.paymentOnBlur ⟨1, "Car loan", 1000, 300, 5⟩ ⟨fin 450⟩)) (lit 1000)) = true :=
  (C27_payment_never_increases_debt ⟨1, "Car loan", 1000, 300, 5⟩ ⟨fin 450⟩ "Enter" 450 1000
    (by norm_num)).2.2.2.2.2.2.2.2 (by norm_num)
    (by rw [fl_ofNat 1000 (by norm_num)]; norm_num)
    (by
      show fl 300 ≤ 450
      rw [fl_ofNat 300 (by norm_num)]; norm_num)

end F64

namespace F64

open Double

theorem sum_sub_map (investments : List Investments.Investment) :
    (investments.map (fun inv => inv.current_value - inv.amount)).sum
      = (investments.map Investments.Investment.current_value).sum
        - (investments.map Investments.Investment.amount).sum := by
  induction investments with
  | nil => simp
  | cons x xs ih => simp only [List.map_cons, List.sum_cons, ih]; ring

theorem sum_weighted_returns (investments : List Investments.Investment)
    (hpos : ∀ inv ∈ investments, 0 < inv.amount) :
    (investments.map
        (fun inv => (inv.current_value - inv.amount) / inv.amount * 100 * inv.amount)).sum
      = (investments.map (fun inv => inv.current_value - inv.amount)).sum * 100 := by
  induction investments with
  | nil => simp
  | cons x xs ih =>
    have hx : x.amount ≠ 0 := ne_of_gt (hpos x (List.mem_cons_self _ _))
    simp only [List.map_cons, List.sum_cons]
    rw [ih (fun inv h => hpos inv (List.mem_cons_of_mem _ h))]
    field_simp
    ring

theorem dbl_orElse_lit (q : ℚ) : Double.orElse (lit q) 0 = lit q := by
  unfold Double.orElse
  by_cases h : fl q = 0
  · simp [truthy, lit_eq, h, zero_eq]
  · simp [truthy, lit_eq, h]

/-- A sum of amounts that the code reads as positive is a finite double, and
positive as soon as there is one amount. -/
theorem dbl_foldl_invested (investments : List Investments.Investment) : ∀ (a : ℚ),
    (∀ x ∈ investments, 0 < fl x.amount) → 0 ≤ a → fl a = a →
    ∃ s : ℚ, investments.foldl (fun sum inv => sum + Double.orElse (lit inv.amount) 0) ⟨fin a⟩
        = ⟨fin s⟩ ∧ a ≤ s ∧ (investments ≠ [] → 0 < s) ∧ fl s = s := by
  induction investments with
  | nil =>
    intro a _ _ hfa
    exact ⟨a, rfl, le_rfl, fun h => absurd rfl h, hfa⟩
  | cons x xs ih =>
    intro a h ha hfa
    have hx : 0 < fl x.amount := h x (List.mem_cons_self _ _)
    rw [List.foldl_cons, dbl_orElse_lit, lit_eq, add_mk]
    have h1 : a ≤ fl (a + fl x.amount) := le_fl_of_le hfa (by linarith)
    have h2 : fl x.amount ≤ fl (a + fl x.amount) := le_fl_of_le (fl_idem _) (by linarith)
    obtain ⟨s, hs, hle, -, hfs⟩ := ih (fl (a + fl x.amount))
      (fun y hy => h y (List.mem_cons_of_mem _ hy)) (ha.trans h1) (fl_idem _)
    exact ⟨s, hs, h1.trans hle, fun _ => lt_of_lt_of_le hx (h2.trans hle), hfs⟩

theorem dbl_totalInvested_single (inv : Investments.Investment) :
    Investments.totalInvested [inv] = lit inv.amount := by
  unfold Investments.totalInvested
  rw [List.foldl_cons, List.foldl_nil, dbl_orElse_lit, zero_eq, lit_eq, add_mk, zero_add,
    fl_idem]

theorem dbl_totalValue_single (inv : Investments.Investment) :
    Investments.totalValue [inv] = lit inv.current_value := by
  unfold Investments.totalValue
  rw [List.foldl_cons, List.foldl_nil, dbl_orElse_lit, zero_eq, lit_eq, add_mk, zero_add,
    fl_idem]

/-- C30 as stated fails: for the single investment of amount 3 and current
value 14 the code computes `totalReturnPercent` as the double
`6450468216285866 / 2^44 = 366.66666666666663`, while the sum of
`calculateReturn(amount, current_value) * amount` divided by `totalInvested`,
computed with the same operations, is the next double
`6450468216285867 / 2^44 = 366.6666666666667`. -/
theorem C30_portfolio_return_counterexample :
    Investments.totalReturnPercent [⟨3, 14⟩] = ⟨fin (6450468216285866 / 2 ^ 44)⟩
    ∧ Investments.calculateReturn (lit 3) (lit 14) = ⟨fin (6450468216285866 / 2 ^ 44)⟩
    ∧ Investments.weightedMeanReturn [⟨3, 14⟩] = ⟨fin (6450468216285867 / 2 ^ 44)⟩
    ∧ Investments.totalReturnPercent [⟨3, 14⟩] ≠ Investments.weightedMeanReturn [⟨3, 14⟩] := by
  have h0 : fl (14 - 3) = 11 := by
    have := fl_ofNat 11 (by norm_num)
    rw [← this]; norm_num
  have h1 : fl (11 / 3) = 8256599316845909 / 2 ^ 51 :=
    fl_eval _ 8256599316845909 51 (by norm_num) (by norm_num) (by norm_num) (by norm_num)
      (by norm_num)
  have h2 : fl (8256599316845909 / 2 ^ 51 * 100) = 6450468216285866 / 2 ^ 44 :=
    fl_eval _ 6450468216285866 44 (by norm_num) (by norm_num) (by norm_num) (by norm_num)
      (by norm_num)
  have h3 : fl (6450468216285866 / 2 ^ 44 * 3) = 1100 := by
    have := fl_eval_tie (6450468216285866 / 2 ^ 44 * 3) (1100 * 2 ^ 42) 42 (by norm_num)
      (by norm_num) (by norm_num) (by norm_num) (by norm_num)
    rw [this]; norm_num
  have h4 : fl (1100 / 3) = 6450468216285867 / 2 ^ 44 :=
    fl_eval _ 6450468216285867 44 (by norm_num) (by norm_num) (by norm_num) (by norm_num)
      (by norm_num)
  have h5 : fl (0 + 1100) = 1100 := by
    rw [zero_add, fl_ofNat 1100 (by norm_num)]
  have hl3 : lit 3 = ⟨fin 3⟩ := lit_of_eq (fl_ofNat 3 (by norm_num))
  have hl14 : lit 14 = ⟨fin 14⟩ := lit_of_eq (fl_ofNat 14 (by norm_num))
  have hinv : Investments.totalInvested [⟨3, 14⟩] = ⟨fin 3⟩ := by
    rw [dbl_totalInvested_single, hl3]
  have hval : Investments.totalValue [⟨3, 14⟩] = ⟨fin 14⟩ := by
    rw [dbl_totalValue_single, hl14]
  have htrp : Investments.totalReturnPercent [⟨3, 14⟩]
      = ⟨fin (6450468216285866 / 2 ^ 44)⟩ := by
    unfold Investments.totalReturnPercent Investments.totalReturn
    rw [hinv, hval, zero_eq, hundred_eq, gt_mk, if_pos (by norm_num), sub_mk, h0,
      div_mk _ (by norm_num), h1, mul_mk, h2]
  have hcr : Investments.calculateReturn (lit 3) (lit 14)
      = ⟨fin (6450468216285866 / 2 ^ 44)⟩ := by
    unfold Investments.calculateReturn
    rw [hl3, hl14, zero_eq, hundred_eq]
    have ht : (⟨fin 3⟩ : Double).truthy = true := by
      simp [truthy]
    have hne : ¬ ((⟨fin 3⟩ : Double) = ⟨fin 0⟩) := by
      simp
    rw [if_neg (by simp [ht, hne]), sub_mk, h0, div_mk _ (by norm_num), h1, mul_mk, h2]
  have hw : Investments.weightedMeanReturn [⟨3, 14⟩]
      = ⟨fin (6450468216285867 / 2 ^ 44)⟩ := by
    unfold Investments.weightedMeanReturn
    rw [hinv, List.foldl_cons, List.foldl_nil, hcr]
    simp only [hl3]
    rw [zero_eq, mul_mk, h3, add_mk, h5, div_mk _ (by norm_num), h4]
  refine ⟨htrp, hcr, hw, ?_⟩
  rw [htrp, hw]
  intro h
  simp only [Double.mk.injEq, JSNum.fin.injEq] at h
  norm_num at h

/-- C30 (amended): the portfolio return as the code computes it.  `totalReturn`
is `totalValue - totalInvested` and, when `totalInvested > 0`,
`totalReturnPercent` is `(totalReturn / totalInvested) * 100`, each operation
rounded to the nearest double; `totalInvested` is positive as soon as there is
an investment with a positive amount.  For a single investment this is exactly
`calculateReturn(amount, current_value)`.  In exact arithmetic
`(Σ current_value - Σ amount) / Σ amount * 100` equals the cost-weighted mean
`Σ ((current_value - amount)/amount*100 * amount) / Σ amount`; in doubles the
two ways of computing need not give the same number.  With no investments
`totalInvested` is 0 and `totalReturnPercent` is 0. -/
theorem C30_portfolio_return_weighted_mean (investments : List Investments.Investment)
    (inv : Investments.Investment) (hpos : ∀ x ∈ investments, 0 < fl x.amount) :
    Investments.totalReturn investments
        = Investments.totalValue investments - Investments.totalInvested investments
    ∧ (investments ≠ [] →
        (Investments.totalInvested investments).gt 0 = true
        ∧ Investments.totalReturnPercent investments
          = (Investments.totalReturn investments / Investments.totalInvested investments)
              * 100)
    ∧ (0 < fl inv.amount →
        Investments.totalReturnPercent [inv]
          = Investments.calculateReturn (lit inv.amount) (lit inv.current_value))
    ∧ ((∀ x ∈ investments, 0 < x.amount) → investments ≠ [] →
        ((investments.map Investments.Investment.current_value).sum
            - (investments.map Investments.Investment.amount).sum)
          / (investments.map Investments.Investment.amount).sum * 100
        = (investments.map (fun x =>
              (x.current_value - x.amount) / x.amount * 100 * x.amount)).sum
            / (investments.map Investments.Investment.amount).sum)
    ∧ Investments.totalInvested [] = 0
    ∧ Investments.totalReturnPercent [] = 0 := by
  refine ⟨rfl, ?_, ?_, ?_, rfl, ?_⟩
  · intro hne
    obtain ⟨s, hs, -, hspos, -⟩ := dbl_foldl_invested investments 0 hpos le_rfl fl_zero
    have hgt : (Investments.totalInvested investments).gt 0 = true := by
      rw [← zero_eq] at hs
      unfold Investments.totalInvested
      rw [hs, zero_eq, gt_mk]
      simpa using hspos hne
    refine ⟨hgt, ?_⟩
    unfold Investments.totalReturnPercent
    rw [if_pos hgt]
  · intro ha
    unfold Investments.totalReturnPercent Investments.totalReturn Investments.calculateReturn
    rw [dbl_totalInvested_single, dbl_totalValue_single]
    have hgt : (lit inv.amount).gt 0 = true := by
      rw [lit_eq, zero_eq, gt_mk]; simpa using ha
    have ht : (lit inv.amount).truthy = true := by
      simp [truthy, lit_eq, ha.ne']
    have hne : ¬ (lit inv.amount = 0) := by
      rw [lit_eq, zero_eq]
      simp [ha.ne']
    rw [if_pos hgt, if_neg (by simp [ht, hne])]
  · intro hp hne
    rw [sum_weighted_returns investments hp, sum_sub_map]
    ring
  · simp [Investments.totalReturnPercent, Investments.totalInvested, zero_eq, gt_mk]

theorem C30_portfolio_return_weighted_mean_witness :
    (Investments.totalInvested [⟨100, 150⟩, ⟨300, 270⟩]).gt 0 = true
    ∧ Investments.totalReturnPercent [⟨100, 150⟩, ⟨300, 270⟩]
      = (Investments.totalReturn [⟨100, 150⟩, ⟨300, 270⟩]
          / Investments.totalInvested [⟨100, 150⟩, ⟨300, 270⟩]) * 100 :=
  (C30_portfolio_return_weighted_mean [⟨100, 150⟩, ⟨300, 270⟩] ⟨100, 150⟩
    (by
      intro x hx
      simp only [List.mem_cons, List.mem_singleton, List.not_mem_nil, or_false] at hx
      rcases hx with rfl | rfl
      · show 0 < fl 100
        rw [fl_ofNat 100 (by norm_num)]; norm_num
      · show 0 < fl 300
        rw [fl_ofNat 300 (by norm_num)]; norm_num)).2.1 (by simp)

end F64

end BudgetAI
